import Mathlib

/-!
Verification of the pyIFRExtractor-RS HII decoder core (`src/lib.rs`).

The library scans a raw byte buffer for UEFI / Framework HII string- and
form-packages and formats IFR opcode streams as text.  `lib.rs` contains the
package locators (`uefi_find_string_and_form_packages`,
`framework_find_string_and_form_packages`) and the two formatters
(`uefi_ifr_extract_to_string`, `framework_ifr_extract_to_string`).  Those are
translated here statement by statement.

The low-level parser modules (`uefi_parser`, `framework_parser`) are declared
by `lib.rs` but their sources are not part of the repository snapshot, so every
definition for them below is modelled from the specification (package headers,
candidate matching, SIBT blocks, opcode framing, payload layouts per the cited
UEFI HII / EFI 1.10 wire formats); each such definition carries a
`Modelled from the spec:` doc comment.

Bytes are `Nat`s (values < 256 in any real buffer); machine-integer wraparound
is made explicit with `% 2^16` where the Rust code uses `u16` arithmetic.
Rust panics (slice-bound violations, `Option::unwrap` on `None`) are modelled
by a dedicated `crash` result; parser failure is `Option.none`.
-/

/-- Result of running a piece of Rust code that may panic.  `crash` models a
Rust panic; `fuelOut` is the (unreachable for well-fuelled calls) exhaustion
marker of the fuel-based loop encodings. -/
inductive RRes (α : Type) where
  | ok (val : α)
  | crash
  | fuelOut
deriving DecidableEq, Repr

/-- Little-endian 16-bit read at index `k` (reads past the end see 0; parsers
check lengths before reading). -/
def u16at (d : List Nat) (k : Nat) : Nat :=
  d.getD k 0 + 256 * d.getD (k + 1) 0

/-- Little-endian 32-bit read at index `k`. -/
def u32at (d : List Nat) (k : Nat) : Nat :=
  u16at d k + 65536 * u16at d (k + 2)

/-- Little-endian 64-bit read at index `k`. -/
def u64at (d : List Nat) (k : Nat) : Nat :=
  u32at d k + 4294967296 * u32at d (k + 4)

/-- Little-endian 24-bit read at index `k`. -/
def u24at (d : List Nat) (k : Nat) : Nat :=
  d.getD k 0 + 256 * d.getD (k + 1) 0 + 65536 * d.getD (k + 2) 0

/-- Take bytes up to (excluding) the first NUL; also return the rest after the
NUL.  Fails if no NUL is present. -/
def takeNul : List Nat → Option (List Nat × List Nat)
  | [] => none
  | b :: t =>
    if b = 0 then some ([], t)
    else (takeNul t).map (fun p => (b :: p.1, p.2))

/-- Take little-endian 16-bit units up to (excluding) the first 0x0000 unit;
also return the rest after the terminator.  Fails on odd tails or a missing
terminator. -/
def takeNul16 : List Nat → Option (List Nat × List Nat)
  | b0 :: b1 :: t =>
    if b0 = 0 ∧ b1 = 0 then some ([], t)
    else (takeNul16 t).map (fun p => ((b0 + 256 * b1) :: p.1, p.2))
  | _ => none

/-- One UCS-2 code unit to a character, unpaired surrogates replaced by
U+FFFD (spec §4.1: lossy decoding). -/
def ucs2Char (u : Nat) : Char :=
  if 0xD800 ≤ u ∧ u ≤ 0xDFFF then Char.ofNat 0xFFFD else Char.ofNat u

/-- Decode a UCS-2 unit list to text. -/
def decodeUcs2 (units : List Nat) : String :=
  String.mk (units.map ucs2Char)

/-- Decode 8-bit text: ASCII, with the Latin-1 fallback the spec prescribes
for the minimal SCSU decoder (spec §4.1). -/
def decode8 (bytes : List Nat) : String :=
  String.mk (bytes.map Char.ofNat)

/-- Uppercase hex rendering of a `Nat`, as Rust `{:X}`. -/
def hexUpper (n : Nat) : String :=
  String.mk ((Nat.toDigits 16 n).map Char.toUpper)

/-- Two-digit uppercase hex of a byte, as one element of Rust `{:02X?}`. -/
def byteHex2 (b : Nat) : String :=
  (if b < 16 then "0" else "") ++ hexUpper b

/-- Rust `{:02X?}` debug rendering of a byte slice, e.g. `[AA, BB]`. -/
def bytesDebug (l : List Nat) : String :=
  "[" ++ String.intercalate ", " (l.map byteHex2) ++ "]"

/-- Zero-padded uppercase hex of fixed width (for GUID rendering). -/
def hexPad (width n : Nat) : String :=
  let s := hexUpper n
  String.mk (List.replicate (width - s.length) '0') ++ s

/-- RFC-4122 textual form of a 16-byte GUID (first three groups little-endian,
last two verbatim), per spec §4.1. -/
def guidText (g : List Nat) : String :=
  hexPad 8 (u32at g 0) ++ "-" ++ hexPad 4 (u16at g 4) ++ "-" ++
    hexPad 4 (u16at g 6) ++ "-" ++ hexPad 2 (g.getD 8 0) ++ hexPad 2 (g.getD 9 0) ++
    "-" ++ hexPad 2 (g.getD 10 0) ++ hexPad 2 (g.getD 11 0) ++ hexPad 2 (g.getD 12 0) ++
    hexPad 2 (g.getD 13 0) ++ hexPad 2 (g.getD 14 0) ++ hexPad 2 (g.getD 15 0)

/-- Exactly `n` spaces, as Rust's width padding of the empty string. -/
def indentStr (n : Nat) : String :=
  String.mk (List.replicate n ' ')

/-- Association-list map from string IDs to strings; insertion replaces an
existing binding, like `HashMap::insert`. -/
def mapInsert (k : Nat) (v : String) : List (Nat × String) → List (Nat × String)
  | [] => [(k, v)]
  | (k', v') :: t => if k = k' then (k, v) :: t else (k', v') :: mapInsert k v t

/-- Lookup, as `HashMap::get`. -/
def mapGet (m : List (Nat × String)) (k : Nat) : Option String :=
  match m with
  | [] => none
  | (k', v') :: t => if k = k' then some v' else mapGet t k

/-- Resolution `strings_map.get(&id).unwrap_or(&"InvalidId".into())` from the formatters. -/
def resolveStr (m : List (Nat × String)) (k : Nat) : String :=
  (mapGet m k).getD "InvalidId"

/-- Rust `Vec::sort_unstable` on `u16`s, modelled by insertion sort (the sorted
permutation of a list of naturals is unique, so any sort is extensionally the
source's). -/
def sortIds (l : List Nat) : List Nat :=
  List.insertionSort (· ≤ ·) l

/-- Rust `Vec::dedup`: remove consecutive equal elements. -/
def dedupAdj : List Nat → List Nat
  | [] => []
  | [a] => [a]
  | a :: b :: t => if a = b then dedupAdj (b :: t) else a :: dedupAdj (b :: t)

/-- Last element, as `ids.last().unwrap()` on a non-empty vector, with a default. -/
def lastD : List Nat → Nat → Nat
  | [], d => d
  | [a], _ => a
  | _ :: b :: t, d => lastD (b :: t) d

/-- The common shape of the four locator loops in `lib.rs`: starting at
position 0, ask the loop body (`step`) how far to advance and what descriptor
to record, until the scan position reaches the end of the buffer.  `none` from
the body is a panic. -/
def scan_loop {α : Type} (step : Nat → Option (Nat × Option α)) (limit : Nat) :
    Nat → Nat → RRes (List α)
  | 0, _ => .fuelOut
  | fuel + 1, i =>
    if i < limit then
      match step i with
      | none => .crash
      | some (adv, rec?) =>
        match scan_loop step limit fuel (i + adv) with
        | .ok rest => .ok (rec?.toList ++ rest)
        | r => r
    else .ok []

/-- A parsed HII string-package descriptor (`StringPackage` in `lib.rs`). -/
structure StringPackage where
  offset : Nat
  length : Nat
  language : String
  string_id_map : List (Nat × String)
deriving DecidableEq, Repr

/-- A parsed HII form-package descriptor (`FormPackage` in `lib.rs`). -/
structure FormPackage where
  offset : Nat
  length : Nat
  used_strings : Nat
  min_string_id : Nat
  max_string_id : Nat
deriving DecidableEq, Repr

/-! ### UEFI parser models (`uefi_parser`, not in the snapshot; modelled from the spec) -/

/-- Modelled from the spec: a UEFI parsed package — header `{length: u24, type: u8}`
followed by a body of `length - 4` bytes (§4.3); the body is `none` when empty
(`lib.rs` pattern-matches `pkg.Data` as an `Option`). -/
structure HiiPackage where
  Length : Nat
  Ptype : Nat
  Data : Option (List Nat)
deriving DecidableEq, Repr

/-- Modelled from the spec: `uefi_parser::hii_package`.  Reads the 24-bit
length and 8-bit type, then the `length - 4` body bytes; any read past the end
of the slice fails (§4.1, §4.3). -/
def uefi_hii_package (input : List Nat) : Option HiiPackage :=
  if input.length < 4 then none
  else
    let len := u24at input 0
    let ty := input.getD 3 0
    if len < 4 then none
    else if input.length < len then none
    else some ⟨len, ty, if len = 4 then none else some ((input.drop 4).take (len - 4))⟩

/-- Modelled from the spec: `uefi_parser::hii_string_package_candidate` — the
shortest prefix whose header type is the UEFI string-package type (0x04) and
whose declared length fits the remaining buffer (§4.2, §4.3, §4.4). -/
def uefi_hii_string_package_candidate (input : List Nat) : Option (List Nat) :=
  if input.length < 4 then none
  else
    let len := u24at input 0
    if input.getD 3 0 = 0x04 ∧ len ≤ input.length then some (input.take len) else none

/-- Modelled from the spec: `uefi_parser::hii_form_package_candidate` — same
as the string candidate with the form type (0x02). -/
def uefi_hii_form_package_candidate (input : List Nat) : Option (List Nat) :=
  if input.length < 4 then none
  else
    let len := u24at input 0
    if input.getD 3 0 = 0x02 ∧ len ≤ input.length then some (input.take len) else none

/-- Modelled from the spec: the parsed UEFI string-package body header
`{HdrSize, StringInfoOffset, LanguageWindow[16]: u16, LanguageNameStringId: u16,
Language: NUL-terminated 8-bit string}` followed by the SIBT block stream
(§4.3). -/
structure UefiStringPkg where
  HdrSize : Nat
  StringInfoOffset : Nat
  LanguageWindow : List Nat
  LanguageNameStringId : Nat
  Language : String
  Data : List Nat
deriving DecidableEq, Repr

/-- Modelled from the spec: `uefi_parser::hii_string_package` (§4.3). -/
def uefi_hii_string_package (payload : List Nat) : Option UefiStringPkg :=
  if payload.length < 42 then none
  else
    let hdrSize := u32at payload 0
    let sio := u32at payload 4
    let window := (List.range 16).map (fun j => u16at payload (8 + 2 * j))
    let langId := u16at payload 40
    match takeNul (payload.drop 42) with
    | none => none
    | some (langBytes, rest) =>
      some ⟨hdrSize, sio, window, langId, decode8 langBytes, rest⟩

/-- SIBT block types (spec §3). -/
inductive HiiSibtType where
  | End | StringScsu | StringScsuFont | StringsScsu | StringsScsuFont
  | StringUcs2 | StringUcs2Font | StringsUcs2 | StringsUcs2Font
  | Duplicate | Skip2 | Skip1 | Ext1 | Ext2 | Ext4
  | Unknown (tag : Nat)
deriving DecidableEq, Repr

/-- A framed SIBT block: type plus raw payload (`None` when the block carries
no payload bytes). -/
structure HiiSibtBlock where
  Btype : HiiSibtType
  Data : Option (List Nat)
deriving DecidableEq, Repr

/-- Wrap a framed payload as the block's `Data` option. -/
def sibtData (payload : List Nat) : Option (List Nat) :=
  if payload = [] then none else some payload

/-- Modelled from the spec: frame `count` consecutive NUL-terminated 8-bit
strings, returning the raw bytes consumed (terminators included). -/
def frameNulStrings : Nat → List Nat → Option (List Nat × List Nat)
  | 0, rest => some ([], rest)
  | n + 1, rest =>
    match takeNul rest with
    | none => none
    | some (body, rest') =>
      match frameNulStrings n rest' with
      | none => none
      | some (bytes, rest'') => some (body ++ [0] ++ bytes, rest'')

/-- Modelled from the spec: frame `count` consecutive NUL-terminated UCS-2
strings, returning the raw bytes consumed (terminators included). -/
def frameNul16Strings : Nat → List Nat → Option (List Nat × List Nat)
  | 0, rest => some ([], rest)
  | n + 1, rest =>
    match takeNul16 rest with
    | none => none
    | some (units, rest') =>
      match frameNul16Strings n rest' with
      | none => none
      | some (bytes, rest'') =>
        some ((units.flatMap (fun u => [u % 256, u / 256])) ++ [0, 0] ++ bytes, rest'')

/-- Modelled from the spec: frame one SIBT block (tag byte, then the payload
whose extent the tag dictates; §3, §4.3).  Font-variant blocks carry a leading
font-ID byte.  An unknown tag fails (its length is unknown). -/
def uefi_hii_sibt_block (input : List Nat) : Option (HiiSibtBlock × List Nat) :=
  match input with
  | [] => none
  | tag :: rest =>
    if tag = 0x00 then some (⟨.End, none⟩, rest)
    else if tag = 0x10 then
      match takeNul rest with
      | none => none
      | some (body, rest') => some (⟨.StringScsu, sibtData (body ++ [0])⟩, rest')
    else if tag = 0x11 then
      match rest with
      | [] => none
      | font :: rest1 =>
        match takeNul rest1 with
        | none => none
        | some (body, rest') => some (⟨.StringScsuFont, sibtData (font :: body ++ [0])⟩, rest')
    else if tag = 0x12 then
      if rest.length < 2 then none
      else
        let count := u16at rest 0
        match frameNulStrings count (rest.drop 2) with
        | none => none
        | some (bytes, rest') =>
          some (⟨.StringsScsu, sibtData (rest.getD 0 0 :: rest.getD 1 0 :: bytes)⟩, rest')
    else if tag = 0x13 then
      if rest.length < 3 then none
      else
        let count := u16at rest 1
        match frameNulStrings count (rest.drop 3) with
        | none => none
        | some (bytes, rest') =>
          some (⟨.StringsScsuFont,
                 sibtData (rest.getD 0 0 :: rest.getD 1 0 :: rest.getD 2 0 :: bytes)⟩, rest')
    else if tag = 0x14 then
      match takeNul16 rest with
      | none => none
      | some (units, rest') =>
        some (⟨.StringUcs2,
               sibtData ((units.flatMap (fun u => [u % 256, u / 256])) ++ [0, 0])⟩, rest')
    else if tag = 0x15 then
      match rest with
      | [] => none
      | font :: rest1 =>
        match takeNul16 rest1 with
        | none => none
        | some (units, rest') =>
          some (⟨.StringUcs2Font,
                 sibtData (font :: (units.flatMap (fun u => [u % 256, u / 256])) ++ [0, 0])⟩,
                rest')
    else if tag = 0x16 then
      if rest.length < 2 then none
      else
        let count := u16at rest 0
        match frameNul16Strings count (rest.drop 2) with
        | none => none
        | some (bytes, rest') =>
          some (⟨.StringsUcs2, sibtData (rest.getD 0 0 :: rest.getD 1 0 :: bytes)⟩, rest')
    else if tag = 0x17 then
      if rest.length < 3 then none
      else
        let count := u16at rest 1
        match frameNul16Strings count (rest.drop 3) with
        | none => none
        | some (bytes, rest') =>
          some (⟨.StringsUcs2Font,
                 sibtData (rest.getD 0 0 :: rest.getD 1 0 :: rest.getD 2 0 :: bytes)⟩, rest')
    else if tag = 0x20 then
      if rest.length < 2 then none
      else some (⟨.Duplicate, sibtData (rest.take 2)⟩, rest.drop 2)
    else if tag = 0x21 then
      if rest.length < 2 then none
      else some (⟨.Skip2, sibtData (rest.take 2)⟩, rest.drop 2)
    else if tag = 0x22 then
      if rest.length < 1 then none
      else some (⟨.Skip1, sibtData (rest.take 1)⟩, rest.drop 1)
    else if tag = 0x30 then
      if rest.length < 2 then none
      else
        let extLen := rest.getD 1 0
        if extLen < 3 ∨ rest.length < extLen - 1 then none
        else some (⟨.Ext1, sibtData (rest.take (extLen - 1))⟩, rest.drop (extLen - 1))
    else if tag = 0x31 then
      if rest.length < 3 then none
      else
        let extLen := u16at rest 1
        if extLen < 4 ∨ rest.length < extLen - 1 then none
        else some (⟨.Ext2, sibtData (rest.take (extLen - 1))⟩, rest.drop (extLen - 1))
    else if tag = 0x32 then
      if rest.length < 5 then none
      else
        let extLen := u32at rest 1
        if extLen < 6 ∨ rest.length < extLen - 1 then none
        else some (⟨.Ext4, sibtData (rest.take (extLen - 1))⟩, rest.drop (extLen - 1))
    else none

/-- Modelled from the spec: `uefi_parser::hii_sibt_blocks` — iterate the block
stream until the `End` block (which is kept, as the walker in `lib.rs` matches
on it) or the end of the payload; a failing block fails the stream. -/
def uefi_hii_sibt_blocks_aux (fuel : Nat) (input : List Nat) : Option (List HiiSibtBlock) :=
  match fuel with
  | 0 => none
  | fuel + 1 =>
    match input with
    | [] => some []
    | _ =>
      match uefi_hii_sibt_block input with
      | none => none
      | some (b, rest) =>
        if b.Btype = .End then some [b]
        else
          match uefi_hii_sibt_blocks_aux fuel rest with
          | none => none
          | some bs => some (b :: bs)

/-- Modelled from the spec: the SIBT block stream parser (§4.3). -/
def uefi_hii_sibt_blocks (input : List Nat) : Option (List HiiSibtBlock) :=
  uefi_hii_sibt_blocks_aux (input.length + 1) input

/-- Modelled from the spec: `uefi_parser::sibt_string_scsu` — one NUL-terminated
SCSU string from a block payload. -/
def sibt_string_scsu (d : List Nat) : Option String :=
  (takeNul d).map (fun p => decode8 p.1)

/-- Modelled from the spec: `sibt_string_scsu_font` — font-ID byte, then the
string (the font ID is consumed but ignored). -/
def sibt_string_scsu_font (d : List Nat) : Option String :=
  match d with
  | [] => none
  | _ :: t => sibt_string_scsu t

/-- Modelled from the spec: parse `count` NUL-terminated 8-bit strings. -/
def parseNulStrings : Nat → List Nat → Option (List String × List Nat)
  | 0, rest => some ([], rest)
  | n + 1, rest =>
    match takeNul rest with
    | none => none
    | some (body, rest') =>
      match parseNulStrings n rest' with
      | none => none
      | some (ss, rest'') => some (decode8 body :: ss, rest'')

/-- Modelled from the spec: `sibt_strings_scsu` — count-prefixed string array. -/
def sibt_strings_scsu (d : List Nat) : Option (List String) :=
  if d.length < 2 then none
  else (parseNulStrings (u16at d 0) (d.drop 2)).map (·.1)

/-- Modelled from the spec: `sibt_strings_scsu_font`. -/
def sibt_strings_scsu_font (d : List Nat) : Option (List String) :=
  match d with
  | [] => none
  | _ :: t => sibt_strings_scsu t

/-- Modelled from the spec: `sibt_string_ucs2`. -/
def sibt_string_ucs2 (d : List Nat) : Option String :=
  (takeNul16 d).map (fun p => decodeUcs2 p.1)

/-- Modelled from the spec: `sibt_string_ucs2_font`. -/
def sibt_string_ucs2_font (d : List Nat) : Option String :=
  match d with
  | [] => none
  | _ :: t => sibt_string_ucs2 t

/-- Modelled from the spec: parse `count` NUL-terminated UCS-2 strings. -/
def parseNul16Strings : Nat → List Nat → Option (List String × List Nat)
  | 0, rest => some ([], rest)
  | n + 1, rest =>
    match takeNul16 rest with
    | none => none
    | some (units, rest') =>
      match parseNul16Strings n rest' with
      | none => none
      | some (ss, rest'') => some (decodeUcs2 units :: ss, rest'')

/-- Modelled from the spec: `sibt_strings_ucs2`. -/
def sibt_strings_ucs2 (d : List Nat) : Option (List String) :=
  if d.length < 2 then none
  else (parseNul16Strings (u16at d 0) (d.drop 2)).map (·.1)

/-- Modelled from the spec: `sibt_strings_ucs2_font`. -/
def sibt_strings_ucs2_font (d : List Nat) : Option (List String) :=
  match d with
  | [] => none
  | _ :: t => sibt_strings_ucs2 t

/-- Modelled from the spec: a parsed UEFI IFR opcode — header byte with the
opcode in the low 7 bits and the scope-start flag in bit 7, then a length byte
counting the whole opcode; `Data` is the `length - 2` payload bytes, `none`
when empty (§3, §4.3; `lib.rs` checks `operation.Data.is_some()` for
`QuestionRef3`). -/
structure IfrOperation where
  OpCode : Nat
  Length : Nat
  ScopeStart : Bool
  Data : Option (List Nat)
deriving DecidableEq, Repr

/-- Modelled from the spec: frame one UEFI IFR opcode (§4.3). -/
def uefi_ifr_operation (input : List Nat) : Option (IfrOperation × List Nat) :=
  match input with
  | b0 :: b1 :: rest =>
    if b1 < 2 then none
    else if rest.length < b1 - 2 then none
    else
      some (⟨b0 % 128, b1, 128 ≤ b0,
             if b1 = 2 then none else some (rest.take (b1 - 2))⟩,
            rest.drop (b1 - 2))
  | _ => none

/-- Modelled from the spec: `uefi_parser::ifr_operations` — the whole opcode
stream; a failing opcode fails the stream (§4.4: false starts self-reject). -/
def uefi_ifr_operations_aux (fuel : Nat) (input : List Nat) : Option (List IfrOperation) :=
  match fuel with
  | 0 => none
  | fuel + 1 =>
    match input with
    | [] => some []
    | _ =>
      match uefi_ifr_operation input with
      | none => none
      | some (op, rest) =>
        match uefi_ifr_operations_aux fuel rest with
        | none => none
        | some ops => some (op :: ops)

/-- Modelled from the spec: the UEFI IFR opcode stream parser. -/
def uefi_ifr_operations (input : List Nat) : Option (List IfrOperation) :=
  uefi_ifr_operations_aux (input.length + 1) input

/-- Modelled from the spec: name of a UEFI opcode tag as the formatter prints
it (the canonical enumerant name; `Unknown(x)` prints literally `Unknown`,
§4.6). -/
def uefiOpName (t : Nat) : String :=
  if t = 0x01 then "Form" else if t = 0x02 then "Subtitle"
  else if t = 0x03 then "Text" else if t = 0x04 then "Image"
  else if t = 0x05 then "OneOf" else if t = 0x06 then "CheckBox"
  else if t = 0x07 then "Numeric" else if t = 0x08 then "Password"
  else if t = 0x09 then "OneOfOption" else if t = 0x0A then "SuppressIf"
  else if t = 0x0B then "Locked" else if t = 0x0C then "Action"
  else if t = 0x0D then "ResetButton" else if t = 0x0E then "FormSet"
  else if t = 0x0F then "Ref" else if t = 0x10 then "NoSubmitIf"
  else if t = 0x11 then "InconsistentIf" else if t = 0x12 then "EqIdVal"
  else if t = 0x13 then "EqIdId" else if t = 0x14 then "EqIdValList"
  else if t = 0x15 then "And" else if t = 0x16 then "Or"
  else if t = 0x17 then "Not" else if t = 0x18 then "Rule"
  else if t = 0x19 then "GrayOutIf" else if t = 0x1A then "Date"
  else if t = 0x1B then "Time" else if t = 0x1C then "String"
  else if t = 0x1D then "Refresh" else if t = 0x1E then "DisableIf"
  else if t = 0x1F then "Animation" else if t = 0x20 then "ToLower"
  else if t = 0x21 then "ToUpper" else if t = 0x22 then "Map"
  else if t = 0x23 then "OrderedList" else if t = 0x24 then "VarStore"
  else if t = 0x25 then "VarStoreNameValue" else if t = 0x26 then "VarStoreEfi"
  else if t = 0x27 then "VarStoreDevice" else if t = 0x28 then "Version"
  else if t = 0x29 then "End" else if t = 0x2A then "Match"
  else if t = 0x2B then "Get" else if t = 0x2C then "Set"
  else if t = 0x2D then "Read" else if t = 0x2E then "Write"
  else if t = 0x2F then "Equal" else if t = 0x30 then "NotEqual"
  else if t = 0x31 then "GreaterThan" else if t = 0x32 then "GreaterEqual"
  else if t = 0x33 then "LessThan" else if t = 0x34 then "LessEqual"
  else if t = 0x35 then "BitwiseAnd" else if t = 0x36 then "BitwiseOr"
  else if t = 0x37 then "BitwiseNot" else if t = 0x38 then "ShiftLeft"
  else if t = 0x39 then "ShiftRight" else if t = 0x3A then "Add"
  else if t = 0x3B then "Substract" else if t = 0x3C then "Multiply"
  else if t = 0x3D then "Divide" else if t = 0x3E then "Modulo"
  else if t = 0x3F then "RuleRef" else if t = 0x40 then "QuestionRef1"
  else if t = 0x41 then "QuestionRef2" else if t = 0x42 then "Uint8"
  else if t = 0x43 then "Uint16" else if t = 0x44 then "Uint32"
  else if t = 0x45 then "Uint64" else if t = 0x46 then "True"
  else if t = 0x47 then "False" else if t = 0x48 then "ToUint"
  else if t = 0x49 then "ToString" else if t = 0x4A then "ToBoolean"
  else if t = 0x4B then "Mid" else if t = 0x4C then "Find"
  else if t = 0x4D then "Token" else if t = 0x4E then "StringRef1"
  else if t = 0x4F then "StringRef2" else if t = 0x50 then "Conditional"
  else if t = 0x51 then "QuestionRef3" else if t = 0x52 then "Zero"
  else if t = 0x53 then "One" else if t = 0x54 then "Ones"
  else if t = 0x55 then "Undefined" else if t = 0x56 then "Length"
  else if t = 0x57 then "Dup" else if t = 0x58 then "This"
  else if t = 0x59 then "Span" else if t = 0x5A then "Value"
  else if t = 0x5B then "Default" else if t = 0x5C then "DefaultStore"
  else if t = 0x5D then "FormMap" else if t = 0x5E then "Catenate"
  else if t = 0x5F then "Guid" else if t = 0x60 then "Security"
  else if t = 0x61 then "ModalTag" else if t = 0x62 then "RefreshId"
  else if t = 0x63 then "WarningIf" else if t = 0x64 then "Match2"
  else "Unknown"

/-- Whether a UEFI tag maps to the `Unknown` variant (outside `[0x01, 0x64]`,
spec §3). -/
def uefiTagUnknown (t : Nat) : Bool :=
  t = 0 || 0x64 < t

/-- Modelled from the spec: typed IFR value (`EFI_IFR_TYPE_VALUE` tagged by the
preceding type byte); the cross-referencer only inspects `String`/`Action`. -/
inductive IfrTypeValue where
  | NumSize8 (v : Nat) | NumSize16 (v : Nat) | NumSize32 (v : Nat) | NumSize64 (v : Nat)
  | Boolean (v : Nat) | Time (h m s : Nat) | Date (y m d : Nat)
  | String (sid : Nat) | Other | Undefined | Action (sid : Nat)
  | Buffer (bytes : List Nat)
deriving DecidableEq, Repr

/-- Modelled from the spec: parse a typed value given its type byte and the
bytes following it (§4.5). -/
def parseTypeValue (ty : Nat) (d : List Nat) : Option IfrTypeValue :=
  if ty = 0x00 then if d.length < 1 then none else some (.NumSize8 (d.getD 0 0))
  else if ty = 0x01 then if d.length < 2 then none else some (.NumSize16 (u16at d 0))
  else if ty = 0x02 then if d.length < 4 then none else some (.NumSize32 (u32at d 0))
  else if ty = 0x03 then if d.length < 8 then none else some (.NumSize64 (u64at d 0))
  else if ty = 0x04 then if d.length < 1 then none else some (.Boolean (d.getD 0 0))
  else if ty = 0x05 then
    if d.length < 3 then none else some (.Time (d.getD 0 0) (d.getD 1 0) (d.getD 2 0))
  else if ty = 0x06 then
    if d.length < 4 then none else some (.Date (u16at d 0) (d.getD 2 0) (d.getD 3 0))
  else if ty = 0x07 then if d.length < 2 then none else some (.String (u16at d 0))
  else if ty = 0x08 then some .Other
  else if ty = 0x09 then some .Undefined
  else if ty = 0x0A then if d.length < 2 then none else some (.Action (u16at d 0))
  else if ty = 0x0B then some (.Buffer d)
  else none

/-- Modelled from the spec: `EFI_IFR_FORM` payload — FormId, then the title
string ID (§4.5, §4.7). -/
structure UefiIfrForm where
  FormId : Nat
  TitleStringId : Nat
deriving DecidableEq, Repr

/-- Modelled from the spec: `uefi_parser::ifr_form`. -/
def uefi_ifr_form (d : List Nat) : Option UefiIfrForm :=
  if d.length < 4 then none else some ⟨u16at d 0, u16at d 2⟩

/-- Modelled from the spec: `EFI_IFR_SUBTITLE` payload. -/
structure UefiIfrSubtitle where
  PromptStringId : Nat
  HelpStringId : Nat
  Flags : Nat
deriving DecidableEq, Repr

/-- Modelled from the spec: `uefi_parser::ifr_subtitle`. -/
def uefi_ifr_subtitle (d : List Nat) : Option UefiIfrSubtitle :=
  if d.length < 5 then none else some ⟨u16at d 0, u16at d 2, d.getD 4 0⟩

/-- Modelled from the spec: `EFI_IFR_TEXT` payload. -/
structure UefiIfrText where
  PromptStringId : Nat
  HelpStringId : Nat
  TextId : Nat
deriving DecidableEq, Repr

/-- Modelled from the spec: `uefi_parser::ifr_text`. -/
def uefi_ifr_text (d : List Nat) : Option UefiIfrText :=
  if d.length < 6 then none else some ⟨u16at d 0, u16at d 2, u16at d 4⟩

/-- Modelled from the spec: `EFI_IFR_IMAGE` payload. -/
structure UefiIfrImage where
  ImageId : Nat
deriving DecidableEq, Repr

/-- Modelled from the spec: `uefi_parser::ifr_image`. -/
def uefi_ifr_image (d : List Nat) : Option UefiIfrImage :=
  if d.length < 2 then none else some ⟨u16at d 0⟩

/-- Modelled from the spec: the common `EFI_IFR_QUESTION_HEADER` — prompt and
help string IDs, question ID, varstore ID and offset, question flags
(11 bytes). -/
structure UefiQuestionHeader where
  PromptStringId : Nat
  HelpStringId : Nat
  QuestionId : Nat
  VarStoreId : Nat
  VarStoreInfo : Nat
  QuestionFlags : Nat
deriving DecidableEq, Repr

/-- Modelled from the spec: parse the 11-byte question header. -/
def parseQuestionHeader (d : List Nat) : Option UefiQuestionHeader :=
  if d.length < 11 then none
  else some ⟨u16at d 0, u16at d 2, u16at d 4, u16at d 6, u16at d 8, d.getD 10 0⟩

/-- Modelled from the spec: `EFI_IFR_ONE_OF` / `EFI_IFR_NUMERIC` payload with
the flag-selected min/max/step triple (§4.7). -/
structure UefiIfrOneOf where
  PromptStringId : Nat
  HelpStringId : Nat
  QuestionFlags : Nat
  QuestionId : Nat
  VarStoreId : Nat
  VarStoreInfo : Nat
  Flags : Nat
  MinMaxStepData8 : Option (Nat × Nat × Nat)
  MinMaxStepData16 : Option (Nat × Nat × Nat)
  MinMaxStepData32 : Option (Nat × Nat × Nat)
  MinMaxStepData64 : Option (Nat × Nat × Nat)
deriving DecidableEq, Repr

/-- Modelled from the spec: `uefi_parser::ifr_one_of` (also the layout of
`ifr_numeric`): question header, flags byte, then the 8/16/32/64-bit
min/max/step triple selected by the low two flag bits. -/
def uefi_ifr_one_of (d : List Nat) : Option UefiIfrOneOf :=
  match parseQuestionHeader d with
  | none => none
  | some q =>
    if d.length < 12 then none
    else
      let flags := d.getD 11 0
      let sz := flags % 4
      let body := d.drop 12
      if sz = 0 then
        if body.length < 3 then none
        else some ⟨q.PromptStringId, q.HelpStringId, q.QuestionFlags, q.QuestionId,
                   q.VarStoreId, q.VarStoreInfo, flags,
                   some (body.getD 0 0, body.getD 1 0, body.getD 2 0), none, none, none⟩
      else if sz = 1 then
        if body.length < 6 then none
        else some ⟨q.PromptStringId, q.HelpStringId, q.QuestionFlags, q.QuestionId,
                   q.VarStoreId, q.VarStoreInfo, flags,
                   none, some (u16at body 0, u16at body 2, u16at body 4), none, none⟩
      else if sz = 2 then
        if body.length < 12 then none
        else some ⟨q.PromptStringId, q.HelpStringId, q.QuestionFlags, q.QuestionId,
                   q.VarStoreId, q.VarStoreInfo, flags,
                   none, none, some (u32at body 0, u32at body 4, u32at body 8), none⟩
      else
        if body.length < 24 then none
        else some ⟨q.PromptStringId, q.HelpStringId, q.QuestionFlags, q.QuestionId,
                   q.VarStoreId, q.VarStoreInfo, flags,
                   none, none, none, some (u64at body 0, u64at body 8, u64at body 16)⟩

/-- Modelled from the spec: `uefi_parser::ifr_numeric` (same wire layout as
`OneOf`). -/
def uefi_ifr_numeric (d : List Nat) : Option UefiIfrOneOf :=
  uefi_ifr_one_of d

/-- Modelled from the spec: `EFI_IFR_CHECKBOX` payload. -/
structure UefiIfrCheckBox where
  PromptStringId : Nat
  HelpStringId : Nat
  QuestionFlags : Nat
  QuestionId : Nat
  VarStoreId : Nat
  VarStoreInfo : Nat
  Flags : Nat
deriving DecidableEq, Repr

/-- Modelled from the spec: `uefi_parser::ifr_check_box`. -/
def uefi_ifr_check_box (d : List Nat) : Option UefiIfrCheckBox :=
  match parseQuestionHeader d with
  | none => none
  | some q =>
    if d.length < 12 then none
    else some ⟨q.PromptStringId, q.HelpStringId, q.QuestionFlags, q.QuestionId,
               q.VarStoreId, q.VarStoreInfo, d.getD 11 0⟩

/-- Modelled from the spec: `EFI_IFR_PASSWORD` payload (question header plus
min and max size). -/
structure UefiIfrPassword where
  PromptStringId : Nat
  HelpStringId : Nat
  MinSize : Nat
  MaxSize : Nat
deriving DecidableEq, Repr

/-- Modelled from the spec: `uefi_parser::ifr_password`. -/
def uefi_ifr_password (d : List Nat) : Option UefiIfrPassword :=
  match parseQuestionHeader d with
  | none => none
  | some q =>
    if d.length < 15 then none
    else some ⟨q.PromptStringId, q.HelpStringId, u16at d 11, u16at d 13⟩

/-- Modelled from the spec: `EFI_IFR_ONE_OF_OPTION` payload. -/
structure UefiIfrOneOfOption where
  OptionStringId : Nat
  Flags : Nat
  Value : IfrTypeValue
deriving DecidableEq, Repr

/-- Modelled from the spec: `uefi_parser::ifr_one_of_option` — option string
ID, flags, type byte, typed value (§4.5). -/
def uefi_ifr_one_of_option (d : List Nat) : Option UefiIfrOneOfOption :=
  if d.length < 4 then none
  else
    match parseTypeValue (d.getD 3 0) (d.drop 4) with
    | none => none
    | some v => some ⟨u16at d 0, d.getD 2 0, v⟩

/-- Modelled from the spec: `EFI_IFR_ACTION` payload (question header plus an
optional config string ID). -/
structure UefiIfrAction where
  PromptStringId : Nat
  HelpStringId : Nat
  ConfigStringId : Option Nat
deriving DecidableEq, Repr

/-- Modelled from the spec: `uefi_parser::ifr_action`. -/
def uefi_ifr_action (d : List Nat) : Option UefiIfrAction :=
  match parseQuestionHeader d with
  | none => none
  | some q =>
    some ⟨q.PromptStringId, q.HelpStringId,
          if d.length < 13 then none else some (u16at d 11)⟩

/-- Modelled from the spec: `EFI_IFR_RESET_BUTTON` payload. -/
structure UefiIfrResetButton where
  PromptStringId : Nat
  HelpStringId : Nat
  DefaultId : Nat
deriving DecidableEq, Repr

/-- Modelled from the spec: `uefi_parser::ifr_reset_button`. -/
def uefi_ifr_reset_button (d : List Nat) : Option UefiIfrResetButton :=
  if d.length < 6 then none else some ⟨u16at d 0, u16at d 2, u16at d 4⟩

/-- Modelled from the spec: `EFI_IFR_FORM_SET` payload — GUID, then title and
help string IDs (§4.7). -/
structure UefiIfrFormSet where
  Guid : List Nat
  TitleStringId : Nat
  HelpStringId : Nat
deriving DecidableEq, Repr

/-- Modelled from the spec: `uefi_parser::ifr_form_set`. -/
def uefi_ifr_form_set (d : List Nat) : Option UefiIfrFormSet :=
  if d.length < 20 then none else some ⟨d.take 16, u16at d 16, u16at d 18⟩

/-- Modelled from the spec: `EFI_IFR_REF` payload (the cross-referencer only
uses the question-header string IDs). -/
structure UefiIfrRef where
  PromptStringId : Nat
  HelpStringId : Nat
deriving DecidableEq, Repr

/-- Modelled from the spec: `uefi_parser::ifr_ref`. -/
def uefi_ifr_ref (d : List Nat) : Option UefiIfrRef :=
  match parseQuestionHeader d with
  | none => none
  | some q => some ⟨q.PromptStringId, q.HelpStringId⟩

/-- Modelled from the spec: `EFI_IFR_NO_SUBMIT_IF` payload. -/
structure UefiIfrNoSubmitIf where
  ErrorStringId : Nat
deriving DecidableEq, Repr

/-- Modelled from the spec: `uefi_parser::ifr_no_submit_if`. -/
def uefi_ifr_no_submit_if (d : List Nat) : Option UefiIfrNoSubmitIf :=
  if d.length < 2 then none else some ⟨u16at d 0⟩

/-- Modelled from the spec: `EFI_IFR_INCONSISTENT_IF` payload. -/
structure UefiIfrInconsistentIf where
  ErrorStringId : Nat
deriving DecidableEq, Repr

/-- Modelled from the spec: `uefi_parser::ifr_inconsistent_if`. -/
def uefi_ifr_inconsistent_if (d : List Nat) : Option UefiIfrInconsistentIf :=
  if d.length < 2 then none else some ⟨u16at d 0⟩

/-- Modelled from the spec: `EFI_IFR_DATE` / `EFI_IFR_TIME` payload (question
header plus flags). -/
structure UefiIfrDate where
  PromptStringId : Nat
  HelpStringId : Nat
  Flags : Nat
deriving DecidableEq, Repr

/-- Modelled from the spec: `uefi_parser::ifr_date`. -/
def uefi_ifr_date (d : List Nat) : Option UefiIfrDate :=
  match parseQuestionHeader d with
  | none => none
  | some q => if d.length < 12 then none
              else some ⟨q.PromptStringId, q.HelpStringId, d.getD 11 0⟩

/-- Modelled from the spec: `uefi_parser::ifr_time` (same layout as `Date`). -/
def uefi_ifr_time (d : List Nat) : Option UefiIfrDate :=
  uefi_ifr_date d

/-- Modelled from the spec: `EFI_IFR_STRING` payload. -/
structure UefiIfrString where
  PromptStringId : Nat
  HelpStringId : Nat
  MinSize : Nat
  MaxSize : Nat
  Flags : Nat
deriving DecidableEq, Repr

/-- Modelled from the spec: `uefi_parser::ifr_string`. -/
def uefi_ifr_string (d : List Nat) : Option UefiIfrString :=
  match parseQuestionHeader d with
  | none => none
  | some q =>
    if d.length < 14 then none
    else some ⟨q.PromptStringId, q.HelpStringId, d.getD 11 0, d.getD 12 0, d.getD 13 0⟩

/-- Modelled from the spec: `EFI_IFR_ORDERED_LIST` payload. -/
structure UefiIfrOrderedList where
  PromptStringId : Nat
  HelpStringId : Nat
deriving DecidableEq, Repr

/-- Modelled from the spec: `uefi_parser::ifr_ordered_list`. -/
def uefi_ifr_ordered_list (d : List Nat) : Option UefiIfrOrderedList :=
  match parseQuestionHeader d with
  | none => none
  | some q => if d.length < 13 then none else some ⟨q.PromptStringId, q.HelpStringId⟩

/-- Modelled from the spec: `EFI_IFR_VARSTORE_DEVICE` payload. -/
structure UefiIfrVarStoreDevice where
  DevicePathStringId : Nat
deriving DecidableEq, Repr

/-- Modelled from the spec: `uefi_parser::ifr_var_store_device`. -/
def uefi_ifr_var_store_device (d : List Nat) : Option UefiIfrVarStoreDevice :=
  if d.length < 2 then none else some ⟨u16at d 0⟩

/-- Modelled from the spec: `EFI_IFR_STRING_REF1` payload. -/
structure UefiIfrStringRef1 where
  StringId : Nat
deriving DecidableEq, Repr

/-- Modelled from the spec: `uefi_parser::ifr_string_ref_1`. -/
def uefi_ifr_string_ref_1 (d : List Nat) : Option UefiIfrStringRef1 :=
  if d.length < 2 then none else some ⟨u16at d 0⟩

/-- Modelled from the spec: `EFI_IFR_QUESTION_REF3` payload with its optional
device-path string ID (§4.5). -/
structure UefiIfrQuestionRef3 where
  DevicePathId : Option Nat
deriving DecidableEq, Repr

/-- Modelled from the spec: `uefi_parser::ifr_question_ref_3`. -/
def uefi_ifr_question_ref_3 (d : List Nat) : Option UefiIfrQuestionRef3 :=
  some ⟨if d.length < 2 then none else some (u16at d 0)⟩

/-- Modelled from the spec: `EFI_IFR_DEFAULT` payload — default-store ID, type
byte, typed value. -/
structure UefiIfrDefault where
  DefaultId : Nat
  Value : IfrTypeValue
deriving DecidableEq, Repr

/-- Modelled from the spec: `uefi_parser::ifr_default`. -/
def uefi_ifr_default (d : List Nat) : Option UefiIfrDefault :=
  if d.length < 3 then none
  else
    match parseTypeValue (d.getD 2 0) (d.drop 3) with
    | none => none
    | some v => some ⟨u16at d 0, v⟩

/-- Modelled from the spec: `EFI_IFR_DEFAULTSTORE` payload. -/
structure UefiIfrDefaultStore where
  NameStringId : Nat
  DefaultId : Nat
deriving DecidableEq, Repr

/-- Modelled from the spec: `uefi_parser::ifr_default_store`. -/
def uefi_ifr_default_store (d : List Nat) : Option UefiIfrDefaultStore :=
  if d.length < 4 then none else some ⟨u16at d 0, u16at d 2⟩

/-- Modelled from the spec: one `EFI_IFR_FORM_MAP` method (title string ID plus
identifier GUID). -/
structure UefiFormMapMethod where
  MethodTitleId : Nat
  MethodIdentifier : List Nat
deriving DecidableEq, Repr

/-- Modelled from the spec: `EFI_IFR_FORM_MAP` payload. -/
structure UefiIfrFormMap where
  FormId : Nat
  Methods : List UefiFormMapMethod
deriving DecidableEq, Repr

/-- Modelled from the spec: parse the 18-byte form-map methods to the end of
the payload. -/
def parseFormMapMethods : Nat → List Nat → Option (List UefiFormMapMethod)
  | _, [] => some []
  | 0, _ => none
  | fuel + 1, d =>
    if d.length < 18 then none
    else
      match parseFormMapMethods fuel (d.drop 18) with
      | none => none
      | some ms => some (⟨u16at d 0, (d.drop 2).take 16⟩ :: ms)

/-- Modelled from the spec: `uefi_parser::ifr_form_map`. -/
def uefi_ifr_form_map (d : List Nat) : Option UefiIfrFormMap :=
  if d.length < 2 then none
  else
    match parseFormMapMethods d.length (d.drop 2) with
    | none => none
    | some ms => some ⟨u16at d 0, ms⟩

/-- Modelled from the spec: `EFI_IFR_GUID` payload — GUID then opaque data. -/
structure UefiIfrGuid where
  Guid : List Nat
  Data : List Nat
deriving DecidableEq, Repr

/-- Modelled from the spec: `uefi_parser::ifr_guid`. -/
def uefi_ifr_guid (d : List Nat) : Option UefiIfrGuid :=
  if d.length < 16 then none else some ⟨d.take 16, d.drop 16⟩

/-- Modelled from the spec: the Tiano extension GUID
(`IFR_TIANO_GUID`, §4.5), as its 16 little-endian-mixed bytes. -/
def IFR_TIANO_GUID : List Nat :=
  [0x35, 0x17, 0x0b, 0x0f, 0xa0, 0x87, 0x93, 0x41,
   0xb2, 0x66, 0x53, 0x8c, 0x38, 0xaf, 0x48, 0xce]

/-- Modelled from the spec: the Framework extension GUID
(`IFR_FRAMEWORK_GUID`, §4.5), as its 16 bytes. -/
def IFR_FRAMEWORK_GUID : List Nat :=
  [0x1a, 0x5d, 0xca, 0x31, 0x11, 0xd5, 0x31, 0x49,
   0xb7, 0x82, 0xae, 0x6b, 0x2b, 0x17, 0x8c, 0xd7]

/-- Modelled from the spec: parsed EDK2 (Tiano) GUID-extension opcode. -/
structure UefiIfrGuidEdk2 where
  ExtendedOpCode : Nat
  Data : List Nat
deriving DecidableEq, Repr

/-- Modelled from the spec: `uefi_parser::ifr_guid_edk2` — extended-opcode
byte then data. -/
def uefi_ifr_guid_edk2 (d : List Nat) : Option UefiIfrGuidEdk2 :=
  match d with
  | [] => none
  | b :: t => some ⟨b, t⟩

/-- Tiano extended opcode numbers (Label 0x0, Banner 0x1, Timeout 0x2,
Class 0x3, SubClass 0x4); modelled from the spec §4.5. -/
def edk2ExtBanner : Nat := 0x1

/-- Modelled from the spec: the Tiano banner extension payload. -/
structure UefiIfrGuidEdk2Banner where
  TitleId : Nat
deriving DecidableEq, Repr

/-- Modelled from the spec: `uefi_parser::ifr_guid_edk2_banner`. -/
def uefi_ifr_guid_edk2_banner (d : List Nat) : Option UefiIfrGuidEdk2Banner :=
  if d.length < 2 then none else some ⟨u16at d 0⟩

/-- Modelled from the spec: parsed EDK (Framework) GUID-extension opcode. -/
structure UefiIfrGuidEdk where
  ExtendedOpCode : Nat
  QuestionId : Nat
  Data : List Nat
deriving DecidableEq, Repr

/-- Modelled from the spec: `uefi_parser::ifr_guid_edk` — extended-opcode
byte, question ID, then data. -/
def uefi_ifr_guid_edk (d : List Nat) : Option UefiIfrGuidEdk :=
  if d.length < 3 then none
  else some ⟨d.getD 0 0, u16at d 1, d.drop 3⟩

/-- Framework extended opcode `VarEqName` (OptionKey 0x0, VarEqName 0x1);
modelled from the spec §4.5. -/
def edkExtVarEqName : Nat := 0x1

/-- Modelled from the spec: `EFI_IFR_WARNING_IF` payload. -/
structure UefiIfrWarningIf where
  WarningStringId : Nat
deriving DecidableEq, Repr

/-- Modelled from the spec: `uefi_parser::ifr_warning_if`. -/
def uefi_ifr_warning_if (d : List Nat) : Option UefiIfrWarningIf :=
  if d.length < 2 then none else some ⟨u16at d 0⟩

/-! ### `lib.rs` UEFI locator and extractor (translated from the source) -/

/-- Insert a list of strings successively at the running index (the plural
SIBT arms of the walker loop in `lib.rs`); the index is `u16`. -/
def insertStringsAt (m : List (Nat × String)) (id : Nat) :
    List String → List (Nat × String) × Nat
  | [] => (m, id)
  | s :: t => insertStringsAt (mapInsert id s m) ((id + 1) % 65536) t

/-- One iteration of the SIBT walker loop of
`uefi_find_string_and_form_packages` (`lib.rs` lines 668–780): updates the
string map and `current_string_index` (a `u16`), `none` modelling the panic of
`block.Data.unwrap()` / payload indexing. -/
def uefi_sibt_step (st : List (Nat × String) × Nat) (b : HiiSibtBlock) :
    Option (List (Nat × String) × Nat) :=
  match b.Btype with
  | .End => some st
  | .StringScsu =>
    match b.Data with
    | none => none
    | some d =>
      match sibt_string_scsu d with
      | some s => some (mapInsert st.2 s st.1, (st.2 + 1) % 65536)
      | none => some st
  | .StringScsuFont =>
    match b.Data with
    | none => none
    | some d =>
      match sibt_string_scsu_font d with
      | some s => some (mapInsert st.2 s st.1, (st.2 + 1) % 65536)
      | none => some st
  | .StringsScsu =>
    match b.Data with
    | none => none
    | some d =>
      match sibt_strings_scsu d with
      | some ss => some (insertStringsAt st.1 st.2 ss)
      | none => some st
  | .StringsScsuFont =>
    match b.Data with
    | none => none
    | some d =>
      match sibt_strings_scsu_font d with
      | some ss => some (insertStringsAt st.1 st.2 ss)
      | none => some st
  | .StringUcs2 =>
    match b.Data with
    | none => none
    | some d =>
      match sibt_string_ucs2 d with
      | some s => some (mapInsert st.2 s st.1, (st.2 + 1) % 65536)
      | none => some st
  | .StringUcs2Font =>
    match b.Data with
    | none => none
    | some d =>
      match sibt_string_ucs2_font d with
      | some s => some (mapInsert st.2 s st.1, (st.2 + 1) % 65536)
      | none => some st
  | .StringsUcs2 =>
    match b.Data with
    | none => none
    | some d =>
      match sibt_strings_ucs2 d with
      | some ss => some (insertStringsAt st.1 st.2 ss)
      | none => some st
  | .StringsUcs2Font =>
    match b.Data with
    | none => none
    | some d =>
      match sibt_strings_ucs2_font d with
      | some ss => some (insertStringsAt st.1 st.2 ss)
      | none => some st
  | .Duplicate => some (st.1, (st.2 + 1) % 65536)
  | .Skip2 =>
    match b.Data with
    | none => none
    | some d =>
      match d with
      | b0 :: b1 :: _ => some (st.1, (st.2 + (b0 + 256 * b1)) % 65536)
      | _ => none
  | .Skip1 =>
    match b.Data with
    | none => none
    | some d =>
      match d with
      | b0 :: _ => some (st.1, (st.2 + b0) % 65536)
      | _ => none
  | .Ext1 => some st
  | .Ext2 => some st
  | .Ext4 => some st
  | .Unknown _ => some st

/-- Run the SIBT walker over all framed blocks. -/
def uefi_sibt_walk_from (st : List (Nat × String) × Nat) :
    List HiiSibtBlock → Option (List (Nat × String) × Nat)
  | [] => some st
  | b :: t =>
    match uefi_sibt_step st b with
    | none => none
    | some st' => uefi_sibt_walk_from st' t

/-- The SIBT walker of `lib.rs`: ID 0 pre-mapped to the empty string,
`current_string_index` starting at 1. -/
def uefi_sibt_walk (blocks : List HiiSibtBlock) :
    Option (List (Nat × String) × Nat) :=
  uefi_sibt_walk_from (mapInsert 0 "" [], 1) blocks

/-- One position of the UEFI string-package scan loop (`lib.rs` 655–797):
returns how far `i` advances and the descriptor recorded, if any; `none`
models the panic of `package.Data.unwrap()`. -/
def uefi_string_scan_step (data : List Nat) (i : Nat) :
    Option (Nat × Option StringPackage) :=
  match uefi_hii_string_package_candidate (data.drop i) with
  | none => some (1, none)
  | some candidate =>
    match uefi_hii_package candidate with
    | none => some (1, none)
    | some package =>
      match package.Data with
      | none => none
      | some payload =>
        match uefi_hii_string_package payload with
        | none => some (1, none)
        | some string_package =>
          match uefi_hii_sibt_blocks string_package.Data with
          | none => some (candidate.length, none)
          | some blocks =>
            match uefi_sibt_walk blocks with
            | none => none
            | some st =>
              some (candidate.length,
                    some ⟨i, candidate.length, string_package.Language, st.1⟩)

/-- The string-package scan loop, fuelled (`i` strictly increases each
iteration, so `data.length + 1` fuel never runs out). -/
def uefi_string_scan_aux (data : List Nat) : Nat → Nat → RRes (List StringPackage) :=
  scan_loop (uefi_string_scan_step data) data.length

/-- Append the string IDs one UEFI opcode contributes
(`lib.rs` 816–1262); `none` models the panic of `operation.Data.unwrap()`
in an arm whose opcode expects a payload. -/
def uefi_collect_op_ids (ids : List Nat) (op : IfrOperation) : Option (List Nat) :=
  let t := op.OpCode
  if t = 0x01 then
    match op.Data with
    | none => none
    | some d =>
      match uefi_ifr_form d with
      | some f => some (ids ++ [f.TitleStringId])
      | none => some ids
  else if t = 0x02 then
    match op.Data with
    | none => none
    | some d =>
      match uefi_ifr_subtitle d with
      | some s => some (ids ++ [s.PromptStringId, s.HelpStringId])
      | none => some ids
  else if t = 0x03 then
    match op.Data with
    | none => none
    | some d =>
      match uefi_ifr_text d with
      | some txt => some (ids ++ [txt.PromptStringId, txt.HelpStringId, txt.TextId])
      | none => some ids
  else if t = 0x05 then
    match op.Data with
    | none => none
    | some d =>
      match uefi_ifr_one_of d with
      | some o => some (ids ++ [o.PromptStringId, o.HelpStringId])
      | none => some ids
  else if t = 0x06 then
    match op.Data with
    | none => none
    | some d =>
      match uefi_ifr_check_box d with
      | some c => some (ids ++ [c.PromptStringId, c.HelpStringId])
      | none => some ids
  else if t = 0x07 then
    match op.Data with
    | none => none
    | some d =>
      match uefi_ifr_numeric d with
      | some n => some (ids ++ [n.PromptStringId, n.HelpStringId])
      | none => some ids
  else if t = 0x08 then
    match op.Data with
    | none => none
    | some d =>
      match uefi_ifr_password d with
      | some p => some (ids ++ [p.PromptStringId, p.HelpStringId])
      | none => some ids
  else if t = 0x09 then
    match op.Data with
    | none => none
    | some d =>
      match uefi_ifr_one_of_option d with
      | some opt =>
        some (ids ++ [opt.OptionStringId] ++
          (match opt.Value with
           | .String x => [x]
           | .Action x => [x]
           | _ => []))
      | none => some ids
  else if t = 0x0C then
    match op.Data with
    | none => none
    | some d =>
      match uefi_ifr_action d with
      | some act =>
        some (ids ++ [act.PromptStringId, act.HelpStringId] ++ act.ConfigStringId.toList)
      | none => some ids
  else if t = 0x0D then
    match op.Data with
    | none => none
    | some d =>
      match uefi_ifr_reset_button d with
      | some rst => some (ids ++ [rst.PromptStringId, rst.HelpStringId])
      | none => some ids
  else if t = 0x0E then
    match op.Data with
    | none => none
    | some d =>
      match uefi_ifr_form_set d with
      | some fs => some (ids ++ [fs.TitleStringId, fs.HelpStringId])
      | none => some ids
  else if t = 0x0F then
    match op.Data with
    | none => none
    | some d =>
      match uefi_ifr_ref d with
      | some rf => some (ids ++ [rf.PromptStringId, rf.HelpStringId])
      | none => some ids
  else if t = 0x10 then
    match op.Data with
    | none => none
    | some d =>
      match uefi_ifr_no_submit_if d with
      | some ns => some (ids ++ [ns.ErrorStringId])
      | none => some ids
  else if t = 0x11 then
    match op.Data with
    | none => none
    | some d =>
      match uefi_ifr_inconsistent_if d with
      | some inc => some (ids ++ [inc.ErrorStringId])
      | none => some ids
  else if t = 0x1A then
    match op.Data with
    | none => none
    | some d =>
      match uefi_ifr_date d with
      | some dt => some (ids ++ [dt.PromptStringId, dt.HelpStringId])
      | none => some ids
  else if t = 0x1B then
    match op.Data with
    | none => none
    | some d =>
      match uefi_ifr_time d with
      | some tm => some (ids ++ [tm.PromptStringId, tm.HelpStringId])
      | none => some ids
  else if t = 0x1C then
    match op.Data with
    | none => none
    | some d =>
      match uefi_ifr_string d with
      | some st => some (ids ++ [st.PromptStringId, st.HelpStringId])
      | none => some ids
  else if t = 0x23 then
    match op.Data with
    | none => none
    | some d =>
      match uefi_ifr_ordered_list d with
      | some ol => some (ids ++ [ol.PromptStringId, ol.HelpStringId])
      | none => some ids
  else if t = 0x27 then
    match op.Data with
    | none => none
    | some d =>
      match uefi_ifr_var_store_device d with
      | some vs => some (ids ++ [vs.DevicePathStringId])
      | none => some ids
  else if t = 0x4E then
    match op.Data with
    | none => none
    | some d =>
      match uefi_ifr_string_ref_1 d with
      | some st => some (ids ++ [st.StringId])
      | none => some ids
  else if t = 0x51 then
    match op.Data with
    | none => some ids
    | some d =>
      match uefi_ifr_question_ref_3 d with
      | some qr => some (ids ++ qr.DevicePathId.toList)
      | none => some ids
  else if t = 0x5B then
    match op.Data with
    | none => none
    | some d =>
      match uefi_ifr_default d with
      | some def_ =>
        some (ids ++
          (match def_.Value with
           | .String x => [x]
           | .Action x => [x]
           | _ => []))
      | none => some ids
  else if t = 0x5C then
    match op.Data with
    | none => none
    | some d =>
      match uefi_ifr_default_store d with
      | some ds => some (ids ++ [ds.NameStringId])
      | none => some ids
  else if t = 0x5D then
    match op.Data with
    | none => none
    | some d =>
      match uefi_ifr_form_map d with
      | some fm => some (ids ++ fm.Methods.map (·.MethodTitleId))
      | none => some ids
  else if t = 0x5F then
    match op.Data with
    | none => none
    | some d =>
      match uefi_ifr_guid d with
      | some g =>
        if g.Guid = IFR_TIANO_GUID then
          match uefi_ifr_guid_edk2 g.Data with
          | some edk2 =>
            if edk2.ExtendedOpCode = edk2ExtBanner then
              match uefi_ifr_guid_edk2_banner edk2.Data with
              | some banner => some (ids ++ [banner.TitleId])
              | none => some ids
            else some ids
          | none => some ids
        else if g.Guid = IFR_FRAMEWORK_GUID then
          match uefi_ifr_guid_edk g.Data with
          | some edk =>
            if edk.ExtendedOpCode = edkExtVarEqName then
              if edk.Data.length = 2 then
                some (ids ++ [edk.Data.getD 1 0 * 100 + edk.Data.getD 0 0])
              else some ids
            else some ids
          | none => some ids
        else some ids
      | none => some ids
  else if t = 0x63 then
    match op.Data with
    | none => none
    | some d =>
      match uefi_ifr_warning_if d with
      | some warn => some (ids ++ [warn.WarningStringId])
      | none => some ids
  else some ids

/-- Collect string IDs across a whole UEFI opcode stream. -/
def uefi_collect_ids (ids : List Nat) : List IfrOperation → Option (List Nat)
  | [] => some ids
  | op :: t =>
    match uefi_collect_op_ids ids op with
    | none => none
    | some ids' => uefi_collect_ids ids' t

/-- String IDs of one UEFI form-package payload as the scan collects them
(`lib.rs` 813–1263): a failing opcode stream leaves the list empty; a panic
inside the per-opcode collection propagates as `none`. -/
def uefi_form_ids (payload : List Nat) : Option (List Nat) :=
  match uefi_ifr_operations payload with
  | none => some []
  | some ops => uefi_collect_ids [] ops

/-- One position of the UEFI form-package scan loop (`lib.rs` 809–1287).
Note: when the candidate and package parse, `i` advances by the candidate
length even if the opcode stream fails to parse or no descriptor is
recorded. -/
def uefi_form_scan_step (data : List Nat) (i : Nat) :
    Option (Nat × Option FormPackage) :=
  match uefi_hii_form_package_candidate (data.drop i) with
  | none => some (1, none)
  | some candidate =>
    match uefi_hii_package candidate with
    | none => some (1, none)
    | some package =>
      match package.Data with
      | none => none
      | some payload =>
        match uefi_form_ids payload with
        | none => none
        | some string_ids =>
          match dedupAdj (sortIds string_ids) with
          | [] => some (candidate.length, none)
          | h :: t =>
            some (candidate.length,
                  some ⟨i, candidate.length, (h :: t).length, h, lastD (h :: t) 0⟩)

/-- The re-walk of the claimable ID set of a located UEFI form package: the
candidate at the descriptor's offset, its package payload, and the collected
string IDs. -/
def uefi_form_package_ids (data : List Nat) (o : Nat) : Option (List Nat) :=
  match uefi_hii_form_package_candidate (data.drop o) with
  | none => none
  | some candidate =>
    match uefi_hii_package candidate with
    | none => none
    | some package =>
      match package.Data with
      | none => none
      | some payload => uefi_form_ids payload

/-- The form-package scan loop, fuelled. -/
def uefi_form_scan_aux (data : List Nat) : Nat → Nat → RRes (List FormPackage) :=
  scan_loop (uefi_form_scan_step data) data.length

/-- The `uefi_find_string_and_form_packages` entry point from `lib.rs`: both scans, with the
empty-list early returns (the final tuple-to-struct repack of the source is an
identity and is modelled directly). -/
def uefi_find_string_and_form_packages (data : List Nat) :
    RRes (List StringPackage × List FormPackage) :=
  match uefi_string_scan_aux data (data.length + 1) 0 with
  | .crash => .crash
  | .fuelOut => .fuelOut
  | .ok strings =>
    if strings.isEmpty then .ok ([], [])
    else
      match uefi_form_scan_aux data (data.length + 1) 0 with
      | .crash => .crash
      | .fuelOut => .fuelOut
      | .ok forms =>
        if forms.isEmpty then .ok ([], [])
        else .ok (strings, forms)

/-- The compile-time program version embedded in the preamble.  Modelled from
the spec: `<v>` (§4.6); the Cargo manifest is not part of the snapshot. -/
def program_version : String := "0.1.0"

/-- Preamble line of the UEFI extractor. -/
def uefi_preamble : String :=
  "Program version: " ++ program_version ++ ", Extraction mode: UEFI\n"

/-- The `write_min_max` helper from `lib.rs`: print the size/min/max/step quadruple when
the triple is present. -/
def write_min_max (sz : Nat) : Option (Nat × Nat × Nat) → String
  | none => ""
  | some (mn, mx, st) =>
    ", Size: " ++ toString sz ++ ", Min: 0x" ++ hexUpper mn ++
      ", Max: 0x" ++ hexUpper mx ++ ", Step: 0x" ++ hexUpper st

/-- Payload text of one UEFI opcode as `uefi_ifr_extract_to_string` writes it
(`lib.rs` 1364–1441): only `Form`, `Subtitle`, `Text`, `Image`, `OneOf` and
`CheckBox` have payload formatters; every other opcode's arm is the `_ => {}`
stub and contributes nothing. -/
def uefi_op_payload_text (m : List (Nat × String)) (t : Nat) (d : List Nat) : String :=
  if t = 0x01 then
    match uefi_ifr_form d with
    | some f =>
      "FormId: 0x" ++ hexUpper f.FormId ++ ", Title: \"" ++
        resolveStr m f.TitleStringId ++ "\""
    | none => ""
  else if t = 0x02 then
    match uefi_ifr_subtitle d with
    | some s =>
      "Prompt: \"" ++ resolveStr m s.PromptStringId ++ "\", Help: \"" ++
        resolveStr m s.HelpStringId ++ "\", Flags: 0x" ++ hexUpper s.Flags
    | none => ""
  else if t = 0x03 then
    match uefi_ifr_text d with
    | some tx =>
      "Prompt: \"" ++ resolveStr m tx.PromptStringId ++ "\", Help: \"" ++
        resolveStr m tx.HelpStringId ++ "\", Text: \"" ++
        resolveStr m tx.TextId ++ "\""
    | none => ""
  else if t = 0x04 then
    match uefi_ifr_image d with
    | some img => "ImageId: 0x" ++ hexUpper img.ImageId
    | none => ""
  else if t = 0x05 then
    match uefi_ifr_one_of d with
    | some o =>
      "Prompt: \"" ++ resolveStr m o.PromptStringId ++ "\", Help: \"" ++
        resolveStr m o.HelpStringId ++ "\", QuestionFlags: 0x" ++
        hexUpper o.QuestionFlags ++ ", QuestionId: 0x" ++ hexUpper o.QuestionId ++
        ", VarStoreId: 0x" ++ hexUpper o.VarStoreId ++ ", VarOffset: 0x" ++
        hexUpper o.VarStoreInfo ++ ", Flags: 0x" ++ hexUpper o.Flags ++
        write_min_max 8 o.MinMaxStepData8 ++ write_min_max 16 o.MinMaxStepData16 ++
        write_min_max 32 o.MinMaxStepData32 ++ write_min_max 64 o.MinMaxStepData64
    | none => ""
  else if t = 0x06 then
    match uefi_ifr_check_box d with
    | some c =>
      "Prompt: \"" ++ resolveStr m c.PromptStringId ++ "\", Help: \"" ++
        resolveStr m c.HelpStringId ++ "\", QuestionFlags: 0x" ++
        hexUpper c.QuestionFlags ++ ", QuestionId: 0x" ++ hexUpper c.QuestionId ++
        ", VarStoreId: 0x" ++ hexUpper c.VarStoreId ++ ", VarOffset: 0x" ++
        hexUpper c.VarStoreInfo ++ ", Flags: 0x" ++ hexUpper c.Flags ++
        ", Default: " ++ (if Nat.land c.Flags 1 ≠ 0 then "Enabled" else "Disabled") ++
        ", MfgDefault: " ++ (if Nat.land c.Flags 2 ≠ 0 then "Enabled" else "Disabled")
    | none => ""
  else ""

/-- One line of the UEFI formatter loop: the segment text plus the updated
scope depth and offset counters (`lib.rs` 1343–1446). -/
def uefi_op_segment (m : List (Nat × String)) (verbose : Bool)
    (depth offset : Nat) (op : IfrOperation) : String × Nat × Nat :=
  let depth1 := if op.OpCode = 0x29 ∧ 0 < depth then depth - 1 else depth
  let pre := if verbose then "0x" ++ hexUpper offset ++ ": " else ""
  let depth2 := if op.ScopeStart then depth1 + 1 else depth1
  let payload := match op.Data with
    | none => ""
    | some d => uefi_op_payload_text m op.OpCode d
  (pre ++ indentStr depth1 ++ uefiOpName op.OpCode ++ " " ++ payload ++ "\n",
   depth2, offset + op.Length)

/-- The list of per-opcode output segments of the UEFI formatter. -/
def uefi_op_segments (m : List (Nat × String)) (verbose : Bool) :
    List IfrOperation → Nat → Nat → List String
  | [], _, _ => []
  | op :: t, depth, offset =>
    let s := uefi_op_segment m verbose depth offset op
    s.1 :: uefi_op_segments m verbose t s.2.1 s.2.2

/-- The `uefi_ifr_extract_to_string` entry point from `lib.rs`; `none` models a panic (the
unchecked slice `&data[form_pkg.offset..]`, or `package.Data.unwrap()`). -/
def uefi_ifr_extract_to_string (data : List Nat) (form_pkg : FormPackage)
    (string_pkg : StringPackage) (verbose : Bool) : Option String :=
  if data.length < form_pkg.offset then none
  else
    match uefi_hii_form_package_candidate (data.drop form_pkg.offset) with
    | none => some uefi_preamble
    | some candidate =>
      match uefi_hii_package candidate with
      | none => some uefi_preamble
      | some package =>
        match package.Data with
        | none => none
        | some payload =>
          match uefi_ifr_operations payload with
          | none => some uefi_preamble
          | some ops =>
            some (uefi_preamble ++ String.join
              (uefi_op_segments string_pkg.string_id_map verbose ops 0
                (form_pkg.offset + 4)))

/-! ### Framework parser models (`framework_parser`, modelled from the spec) -/

/-- Modelled from the spec: a Framework parsed package — header
`{length: u32, type: u8}` followed by the body (§4.2); the body is `none` when
empty (`lib.rs` pattern-matches `pkg.Data`). -/
structure FwHiiPackage where
  Length : Nat
  Ptype : Nat
  Data : Option (List Nat)
deriving DecidableEq, Repr

/-- Modelled from the spec: `framework_parser::hii_package` (§4.2; EFI 1.10
pack header per §6). -/
def fw_hii_package (input : List Nat) : Option FwHiiPackage :=
  if input.length < 5 then none
  else
    let len := u32at input 0
    let ty := input.getD 4 0
    if len < 5 then none
    else if input.length < len then none
    else some ⟨len, ty, if len = 5 then none else some ((input.drop 5).take (len - 5))⟩

/-- Modelled from the spec: the Framework string-pack type (EFI 1.10
`EFI_HII_STRING`, §6). -/
def fwStringPackType : Nat := 2

/-- Modelled from the spec: the Framework IFR (form) pack type (EFI 1.10
`EFI_HII_IFR`, §6). -/
def fwFormPackType : Nat := 3

/-- Modelled from the spec: `framework_parser::hii_string_package_candidate` —
shortest prefix with the Framework string-package type whose declared length
fits the remaining buffer (§4.2). -/
def fw_hii_string_package_candidate (input : List Nat) : Option (List Nat) :=
  if input.length < 5 then none
  else
    let len := u32at input 0
    if input.getD 4 0 = fwStringPackType ∧ len ≤ input.length
    then some (input.take len) else none

/-- Modelled from the spec: `framework_parser::hii_form_package_candidate`. -/
def fw_hii_form_package_candidate (input : List Nat) : Option (List Nat) :=
  if input.length < 5 then none
  else
    let len := u32at input 0
    if input.getD 4 0 = fwFormPackType ∧ len ≤ input.length
    then some (input.take len) else none

/-- Modelled from the spec: the parsed Framework string package (§4.2):
header fields, the `NumStringPointers` 32-bit offsets, and the decoded
strings. -/
structure FwStringPkg where
  HdrSize : Nat
  StringInfoOffset : Nat
  NumStringPointers : Nat
  Attributes : Nat
  LanguageNameStringOffset : Nat
  PrintableLanguageNameStringOffset : Nat
  StringPointers : List Nat
  Strings : List String
deriving DecidableEq, Repr

/-- Modelled from the spec: read one NUL-terminated 8-bit pool string at a
byte offset of the package body. -/
def readPoolString (payload : List Nat) (p : Nat) : Option String :=
  if payload.length < p then none
  else (takeNul (payload.drop p)).map (fun q => decode8 q.1)

/-- Modelled from the spec: `framework_parser::hii_string_package` (§4.2). -/
def fw_hii_string_package (payload : List Nat) : Option FwStringPkg :=
  if payload.length < 24 then none
  else
    let n := u32at payload 8
    if payload.length < 24 + 4 * n then none
    else
      let ptrs := (List.range n).map (fun j => u32at payload (24 + 4 * j))
      match ptrs.mapM (readPoolString payload) with
      | none => none
      | some ss =>
        some ⟨u32at payload 0, u32at payload 4, n, u32at payload 12,
              u32at payload 16, u32at payload 20, ptrs, ss⟩

/-- Modelled from the spec: a parsed Framework IFR opcode
`{op: u8, length: u8, data: length-2 bytes}` (§4.2); no scope-start bit. -/
structure FwIfrOperation where
  OpCode : Nat
  Length : Nat
  Data : Option (List Nat)
deriving DecidableEq, Repr

/-- Modelled from the spec: frame one Framework IFR opcode (§4.2). -/
def fw_ifr_operation (input : List Nat) : Option (FwIfrOperation × List Nat) :=
  match input with
  | b0 :: b1 :: rest =>
    if b1 < 2 then none
    else if rest.length < b1 - 2 then none
    else some (⟨b0, b1, if b1 = 2 then none else some (rest.take (b1 - 2))⟩,
               rest.drop (b1 - 2))
  | _ => none

/-- Modelled from the spec: `framework_parser::ifr_operations` — the whole
stream; a failing opcode fails the stream. -/
def fw_ifr_operations_aux (fuel : Nat) (input : List Nat) : Option (List FwIfrOperation) :=
  match fuel with
  | 0 => none
  | fuel + 1 =>
    match input with
    | [] => some []
    | _ =>
      match fw_ifr_operation input with
      | none => none
      | some (op, rest) =>
        match fw_ifr_operations_aux fuel rest with
        | none => none
        | some ops => some (op :: ops)

/-- Modelled from the spec: the Framework IFR opcode stream parser. -/
def fw_ifr_operations (input : List Nat) : Option (List FwIfrOperation) :=
  fw_ifr_operations_aux (input.length + 1) input

/-- Framework opcode tags (EFI 1.10 values, modelled from the spec §4.2/§6). -/
def fwFormTag : Nat := 0x01

/-- Framework `EndForm` tag. -/
def fwEndFormTag : Nat := 0x0B

/-- Framework `EndFormSet` tag. -/
def fwEndFormSetTag : Nat := 0x0D

/-- Framework `FormSet` tag. -/
def fwFormSetTag : Nat := 0x0E

/-- Modelled from the spec: name of a Framework opcode tag as the formatter
prints it (`Unknown(x)` prints literally `Unknown`, §4.6). -/
def fwOpName (t : Nat) : String :=
  if t = 0x01 then "Form" else if t = 0x02 then "Subtitle"
  else if t = 0x03 then "Text" else if t = 0x04 then "Graphic"
  else if t = 0x05 then "OneOf" else if t = 0x06 then "CheckBox"
  else if t = 0x07 then "Numeric" else if t = 0x08 then "Password"
  else if t = 0x09 then "OneOfOption" else if t = 0x0A then "SuppressIf"
  else if t = 0x0B then "EndForm" else if t = 0x0C then "Hidden"
  else if t = 0x0D then "EndFormSet" else if t = 0x0E then "FormSet"
  else if t = 0x0F then "Ref" else if t = 0x10 then "End"
  else if t = 0x11 then "InconsistentIf" else if t = 0x12 then "EqIdVal"
  else if t = 0x13 then "EqIdId" else if t = 0x14 then "EqIdList"
  else if t = 0x15 then "And" else if t = 0x16 then "Or"
  else if t = 0x17 then "Not" else if t = 0x18 then "EndIf"
  else if t = 0x19 then "GrayOutIf" else if t = 0x1A then "Date"
  else if t = 0x1B then "Time" else if t = 0x1C then "String"
  else if t = 0x1D then "Label" else if t = 0x1E then "SaveDefaults"
  else if t = 0x1F then "RestoreDefaults" else if t = 0x20 then "Banner"
  else if t = 0x21 then "Inventory" else if t = 0x22 then "EqVarVal"
  else if t = 0x23 then "OrderedList" else if t = 0x24 then "VarStore"
  else if t = 0x25 then "VarStoreSelect" else if t = 0x26 then "VarStoreSelectPair"
  else if t = 0x27 then "True" else if t = 0x28 then "False"
  else if t = 0x29 then "Greater" else if t = 0x2A then "GreaterEqual"
  else if t = 0x2B then "OemDefined" else if t = 0xFE then "Oem"
  else if t = 0xFF then "NvAccessCommand"
  else "Unknown"

/-- Whether a Framework tag maps to the `Unknown` variant. -/
def fwTagUnknown (t : Nat) : Bool :=
  (t = 0 || (0x2B < t && t < 0xFE))

/-- Modelled from the spec: `EFI_IFR_FORM` (Framework) payload. -/
structure FwIfrForm where
  FormId : Nat
  TitleStringId : Nat
deriving DecidableEq, Repr

/-- Modelled from the spec: `framework_parser::ifr_form`. -/
def fw_ifr_form (d : List Nat) : Option FwIfrForm :=
  if d.length < 4 then none else some ⟨u16at d 0, u16at d 2⟩

/-- Modelled from the spec: Framework `Subtitle` payload. -/
structure FwIfrSubtitle where
  SubtitleStringId : Nat
deriving DecidableEq, Repr

/-- Modelled from the spec: `framework_parser::ifr_subtitle`. -/
def fw_ifr_subtitle (d : List Nat) : Option FwIfrSubtitle :=
  if d.length < 2 then none else some ⟨u16at d 0⟩

/-- Modelled from the spec: Framework `Text` payload. -/
structure FwIfrText where
  HelpStringId : Nat
  TextStringId : Nat
  TextTwoStringId : Nat
  Flags : Nat
  Key : Nat
deriving DecidableEq, Repr

/-- Modelled from the spec: `framework_parser::ifr_text`. -/
def fw_ifr_text (d : List Nat) : Option FwIfrText :=
  if d.length < 9 then none
  else some ⟨u16at d 0, u16at d 2, u16at d 4, d.getD 6 0, u16at d 7⟩

/-- Modelled from the spec: Framework `OneOf` payload. -/
structure FwIfrOneOf where
  QuestionId : Nat
  Width : Nat
  PromptStringId : Nat
  HelpStringId : Nat
deriving DecidableEq, Repr

/-- Modelled from the spec: `framework_parser::ifr_one_of`. -/
def fw_ifr_one_of (d : List Nat) : Option FwIfrOneOf :=
  if d.length < 7 then none
  else some ⟨u16at d 0, d.getD 2 0, u16at d 3, u16at d 5⟩

/-- Modelled from the spec: Framework `CheckBox` payload. -/
structure FwIfrCheckBox where
  QuestionId : Nat
  Width : Nat
  PromptStringId : Nat
  HelpStringId : Nat
  Flags : Nat
  Key : Nat
deriving DecidableEq, Repr

/-- Modelled from the spec: `framework_parser::ifr_check_box`. -/
def fw_ifr_check_box (d : List Nat) : Option FwIfrCheckBox :=
  if d.length < 10 then none
  else some ⟨u16at d 0, d.getD 2 0, u16at d 3, u16at d 5, d.getD 7 0, u16at d 8⟩

/-- Modelled from the spec: Framework `Numeric` (also `Date` / `Time`)
payload. -/
structure FwIfrNumeric where
  QuestionId : Nat
  Width : Nat
  PromptStringId : Nat
  HelpStringId : Nat
  Flags : Nat
  Key : Nat
  Min : Nat
  Max : Nat
  Step : Nat
  Default : Nat
deriving DecidableEq, Repr

/-- Modelled from the spec: `framework_parser::ifr_numeric`. -/
def fw_ifr_numeric (d : List Nat) : Option FwIfrNumeric :=
  if d.length < 18 then none
  else some ⟨u16at d 0, d.getD 2 0, u16at d 3, u16at d 5, d.getD 7 0, u16at d 8,
             u16at d 10, u16at d 12, u16at d 14, u16at d 16⟩

/-- Modelled from the spec: `framework_parser::ifr_date`. -/
def fw_ifr_date (d : List Nat) : Option FwIfrNumeric := fw_ifr_numeric d

/-- Modelled from the spec: `framework_parser::ifr_time`. -/
def fw_ifr_time (d : List Nat) : Option FwIfrNumeric := fw_ifr_numeric d

/-- Modelled from the spec: Framework `Password` payload. -/
structure FwIfrPassword where
  QuestionId : Nat
  Width : Nat
  PromptStringId : Nat
  HelpStringId : Nat
  Flags : Nat
  Key : Nat
  MinSize : Nat
  MaxSize : Nat
  Encoding : Nat
deriving DecidableEq, Repr

/-- Modelled from the spec: `framework_parser::ifr_password`. -/
def fw_ifr_password (d : List Nat) : Option FwIfrPassword :=
  if d.length < 14 then none
  else some ⟨u16at d 0, d.getD 2 0, u16at d 3, u16at d 5, d.getD 7 0, u16at d 8,
             d.getD 10 0, d.getD 11 0, u16at d 12⟩

/-- Modelled from the spec: Framework `OneOfOption` payload. -/
structure FwIfrOneOfOption where
  OptionStringId : Nat
  Value : Nat
  Flags : Nat
  Key : Nat
deriving DecidableEq, Repr

/-- Modelled from the spec: `framework_parser::ifr_one_of_option`. -/
def fw_ifr_one_of_option (d : List Nat) : Option FwIfrOneOfOption :=
  if d.length < 7 then none
  else some ⟨u16at d 0, u16at d 2, d.getD 4 0, u16at d 5⟩

/-- Modelled from the spec: Framework `SuppressIf` payload. -/
structure FwIfrSupressIf where
  Flags : Nat
deriving DecidableEq, Repr

/-- Modelled from the spec: `framework_parser::ifr_supress_if` (source
spelling). -/
def fw_ifr_supress_if (d : List Nat) : Option FwIfrSupressIf :=
  if d.length < 1 then none else some ⟨d.getD 0 0⟩

/-- Modelled from the spec: Framework `Hidden` payload. -/
structure FwIfrHidden where
  Value : Nat
  Key : Nat
deriving DecidableEq, Repr

/-- Modelled from the spec: `framework_parser::ifr_hidden`. -/
def fw_ifr_hidden (d : List Nat) : Option FwIfrHidden :=
  if d.length < 4 then none else some ⟨u16at d 0, u16at d 2⟩

/-- Modelled from the spec: Framework `FormSet` payload (§4.7). -/
structure FwIfrFormSet where
  Guid : List Nat
  TitleStringId : Nat
  HelpStringId : Nat
  CallbackHandle : Nat
  Class : Nat
  SubClass : Nat
  NvDataSize : Nat
deriving DecidableEq, Repr

/-- Modelled from the spec: `framework_parser::ifr_form_set`. -/
def fw_ifr_form_set (d : List Nat) : Option FwIfrFormSet :=
  if d.length < 34 then none
  else some ⟨d.take 16, u16at d 16, u16at d 18, u64at d 20, u16at d 28,
             u16at d 30, u16at d 32⟩

/-- Modelled from the spec: Framework `Ref` payload. -/
structure FwIfrRef where
  FormId : Nat
  PromptStringId : Nat
  HelpStringId : Nat
  Flags : Nat
  Key : Nat
deriving DecidableEq, Repr

/-- Modelled from the spec: `framework_parser::ifr_ref`. -/
def fw_ifr_ref (d : List Nat) : Option FwIfrRef :=
  if d.length < 9 then none
  else some ⟨u16at d 0, u16at d 2, u16at d 4, d.getD 6 0, u16at d 7⟩

/-- Modelled from the spec: Framework `InconsistentIf` payload. -/
structure FwIfrInconsistentIf where
  PopupStringId : Nat
  Flags : Nat
deriving DecidableEq, Repr

/-- Modelled from the spec: `framework_parser::ifr_inconsistent_if`. -/
def fw_ifr_inconsistent_if (d : List Nat) : Option FwIfrInconsistentIf :=
  if d.length < 3 then none else some ⟨u16at d 0, d.getD 2 0⟩

/-- Modelled from the spec: Framework `EqIdVal` payload. -/
structure FwIfrEqIdVal where
  QuestionId : Nat
  Value : Nat
deriving DecidableEq, Repr

/-- Modelled from the spec: `framework_parser::ifr_eq_id_val`. -/
def fw_ifr_eq_id_val (d : List Nat) : Option FwIfrEqIdVal :=
  if d.length < 4 then none else some ⟨u16at d 0, u16at d 2⟩

/-- Modelled from the spec: Framework `EqIdId` payload. -/
structure FwIfrEqIdId where
  QuestionId1 : Nat
  QuestionId2 : Nat
deriving DecidableEq, Repr

/-- Modelled from the spec: `framework_parser::ifr_eq_id_id`. -/
def fw_ifr_eq_id_id (d : List Nat) : Option FwIfrEqIdId :=
  if d.length < 4 then none else some ⟨u16at d 0, u16at d 2⟩

/-- Modelled from the spec: Framework `EqIdList` payload. -/
structure FwIfrEqIdList where
  QuestionId : Nat
  Width : Nat
  List : List Nat
deriving DecidableEq, Repr

/-- Modelled from the spec: `framework_parser::ifr_eq_id_list`. -/
def fw_ifr_eq_id_list (d : List Nat) : Option FwIfrEqIdList :=
  if d.length < 5 then none
  else
    let n := u16at d 3
    if d.length < 5 + 2 * n then none
    else some ⟨u16at d 0, d.getD 2 0, (List.range n).map (fun j => u16at d (5 + 2 * j))⟩

/-- Modelled from the spec: Framework `GrayOutIf` payload. -/
structure FwIfrGrayoutIf where
  Flags : Nat
deriving DecidableEq, Repr

/-- Modelled from the spec: `framework_parser::ifr_grayout_if`. -/
def fw_ifr_grayout_if (d : List Nat) : Option FwIfrGrayoutIf :=
  if d.length < 1 then none else some ⟨d.getD 0 0⟩

/-- Modelled from the spec: Framework `String` payload. -/
structure FwIfrString where
  QuestionId : Nat
  Width : Nat
  PromptStringId : Nat
  HelpStringId : Nat
  Flags : Nat
  Key : Nat
  MinSize : Nat
  MaxSize : Nat
deriving DecidableEq, Repr

/-- Modelled from the spec: `framework_parser::ifr_string`. -/
def fw_ifr_string (d : List Nat) : Option FwIfrString :=
  if d.length < 12 then none
  else some ⟨u16at d 0, d.getD 2 0, u16at d 3, u16at d 5, d.getD 7 0, u16at d 8,
             d.getD 10 0, d.getD 11 0⟩

/-- Modelled from the spec: Framework `Label` payload. -/
structure FwIfrLabel where
  LabelId : Nat
deriving DecidableEq, Repr

/-- Modelled from the spec: `framework_parser::ifr_label`. -/
def fw_ifr_label (d : List Nat) : Option FwIfrLabel :=
  if d.length < 2 then none else some ⟨u16at d 0⟩

/-- Modelled from the spec: Framework `SaveDefaults` / `RestoreDefaults`
payload. -/
structure FwIfrSaveDefaults where
  FormId : Nat
  PromptStringId : Nat
  HelpStringId : Nat
  Flags : Nat
  Key : Nat
deriving DecidableEq, Repr

/-- Modelled from the spec: `framework_parser::ifr_save_defaults`. -/
def fw_ifr_save_defaults (d : List Nat) : Option FwIfrSaveDefaults :=
  if d.length < 9 then none
  else some ⟨u16at d 0, u16at d 2, u16at d 4, d.getD 6 0, u16at d 7⟩

/-- Modelled from the spec: `framework_parser::ifr_restore_defaults`. -/
def fw_ifr_restore_defaults (d : List Nat) : Option FwIfrSaveDefaults :=
  fw_ifr_save_defaults d

/-- Modelled from the spec: Framework `Banner` payload. -/
structure FwIfrBanner where
  TitleStringId : Nat
  LineNumber : Nat
  Alignment : Nat
deriving DecidableEq, Repr

/-- Modelled from the spec: `framework_parser::ifr_banner`. -/
def fw_ifr_banner (d : List Nat) : Option FwIfrBanner :=
  if d.length < 5 then none else some ⟨u16at d 0, u16at d 2, d.getD 4 0⟩

/-- Modelled from the spec: Framework `Inventory` payload. -/
structure FwIfrInventory where
  HelpStringId : Nat
  TextStringId : Nat
  TextTwoStringId : Nat
deriving DecidableEq, Repr

/-- Modelled from the spec: `framework_parser::ifr_inventory`. -/
def fw_ifr_inventory (d : List Nat) : Option FwIfrInventory :=
  if d.length < 6 then none else some ⟨u16at d 0, u16at d 2, u16at d 4⟩

/-- Modelled from the spec: Framework `EqVarVal` payload. -/
structure FwIfrEqVarVal where
  VariableId : Nat
  Value : Nat
deriving DecidableEq, Repr

/-- Modelled from the spec: `framework_parser::ifr_eq_var_val`. -/
def fw_ifr_eq_var_val (d : List Nat) : Option FwIfrEqVarVal :=
  if d.length < 4 then none else some ⟨u16at d 0, u16at d 2⟩

/-- Modelled from the spec: Framework `OrderedList` payload. -/
structure FwIfrOrderedList where
  QuestionId : Nat
  MaxEntries : Nat
  PromptStringId : Nat
  HelpStringId : Nat
deriving DecidableEq, Repr

/-- Modelled from the spec: `framework_parser::ifr_ordered_list`. -/
def fw_ifr_ordered_list (d : List Nat) : Option FwIfrOrderedList :=
  if d.length < 7 then none
  else some ⟨u16at d 0, d.getD 2 0, u16at d 3, u16at d 5⟩

/-- Modelled from the spec: Framework `VarStore` payload. -/
structure FwIfrVarStore where
  Guid : List Nat
  VarStoreId : Nat
  Size : Nat
  Name : String
deriving DecidableEq, Repr

/-- Modelled from the spec: `framework_parser::ifr_var_store`. -/
def fw_ifr_var_store (d : List Nat) : Option FwIfrVarStore :=
  if d.length < 20 then none
  else
    match takeNul (d.drop 20) with
    | none => none
    | some (nm, _) => some ⟨d.take 16, u16at d 16, u16at d 18, decode8 nm⟩

/-- Modelled from the spec: Framework `VarStoreSelect` payload. -/
structure FwIfrVarStoreSelect where
  VarStoreId : Nat
deriving DecidableEq, Repr

/-- Modelled from the spec: `framework_parser::ifr_var_store_select`. -/
def fw_ifr_var_store_select (d : List Nat) : Option FwIfrVarStoreSelect :=
  if d.length < 2 then none else some ⟨u16at d 0⟩

/-- Modelled from the spec: Framework `VarStoreSelectPair` payload. -/
structure FwIfrVarStoreSelectPair where
  VarStoreId : Nat
  SecondaryVarStoreId : Nat
deriving DecidableEq, Repr

/-- Modelled from the spec: `framework_parser::ifr_var_store_select_pair`. -/
def fw_ifr_var_store_select_pair (d : List Nat) : Option FwIfrVarStoreSelectPair :=
  if d.length < 4 then none else some ⟨u16at d 0, u16at d 2⟩

/-! ### `lib.rs` Framework locator and extractor (translated from the source) -/

/-- String IDs one Framework opcode contributes (`lib.rs` 222–286).  The match
is guarded by `if let Some(d) = op.Data`, so an absent payload contributes
nothing and never panics. -/
def fw_collect_op_ids (op : FwIfrOperation) : List Nat :=
  match op.Data with
  | none => []
  | some d =>
    let t := op.OpCode
    if t = 0x01 then
      match fw_ifr_form d with
      | some f => [f.TitleStringId]
      | none => []
    else if t = 0x02 then
      match fw_ifr_subtitle d with
      | some s => [s.SubtitleStringId]
      | none => []
    else if t = 0x03 then
      match fw_ifr_text d with
      | some tx => [tx.HelpStringId, tx.TextStringId, tx.TextTwoStringId]
      | none => []
    else if t = 0x05 then
      match fw_ifr_one_of d with
      | some o => [o.PromptStringId, o.HelpStringId]
      | none => []
    else if t = 0x06 then
      match fw_ifr_check_box d with
      | some c => [c.PromptStringId, c.HelpStringId]
      | none => []
    else if t = 0x07 then
      match fw_ifr_numeric d with
      | some n => [n.PromptStringId, n.HelpStringId]
      | none => []
    else if t = 0x08 then
      match fw_ifr_password d with
      | some p => [p.PromptStringId, p.HelpStringId]
      | none => []
    else if t = 0x09 then
      match fw_ifr_one_of_option d with
      | some o => [o.OptionStringId]
      | none => []
    else if t = 0x0E then
      match fw_ifr_form_set d with
      | some fs => [fs.TitleStringId, fs.HelpStringId]
      | none => []
    else if t = 0x0F then
      match fw_ifr_ref d with
      | some r => [r.PromptStringId, r.HelpStringId]
      | none => []
    else if t = 0x11 then
      match fw_ifr_inconsistent_if d with
      | some inc => [inc.PopupStringId]
      | none => []
    else if t = 0x1A then
      match fw_ifr_date d with
      | some dt => [dt.PromptStringId, dt.HelpStringId]
      | none => []
    else if t = 0x1B then
      match fw_ifr_time d with
      | some ti => [ti.PromptStringId, ti.HelpStringId]
      | none => []
    else if t = 0x1C then
      match fw_ifr_string d with
      | some st => [st.PromptStringId, st.HelpStringId]
      | none => []
    else if t = 0x1E then
      match fw_ifr_save_defaults d with
      | some sd => [sd.PromptStringId, sd.HelpStringId]
      | none => []
    else if t = 0x1F then
      match fw_ifr_restore_defaults d with
      | some rd => [rd.PromptStringId, rd.HelpStringId]
      | none => []
    else if t = 0x20 then
      match fw_ifr_banner d with
      | some b => [b.TitleStringId]
      | none => []
    else if t = 0x21 then
      match fw_ifr_inventory d with
      | some inv => [inv.HelpStringId, inv.TextStringId, inv.TextTwoStringId]
      | none => []
    else if t = 0x23 then
      match fw_ifr_ordered_list d with
      | some ol => [ol.PromptStringId, ol.HelpStringId]
      | none => []
    else []

/-- Collect string IDs across a Framework opcode stream. -/
def fw_collect_ids : List FwIfrOperation → List Nat
  | [] => []
  | op :: t => fw_collect_op_ids op ++ fw_collect_ids t

/-- Build the Framework `idx → string` map by enumeration (`idx as u16`). -/
def fwEnumerateMapFrom (i : Nat) (m : List (Nat × String)) :
    List String → List (Nat × String)
  | [] => m
  | s :: t => fwEnumerateMapFrom (i + 1) (mapInsert (i % 65536) s m) t

/-- The whole enumeration map of a Framework string package. -/
def fwEnumerateMap (ss : List String) : List (Nat × String) :=
  fwEnumerateMapFrom 0 [] ss

/-- One position of the Framework string-package scan loop (`lib.rs`
177–208).  Advancing by the candidate length happens exactly when the
candidate, the package, its payload and the string-package body all parse
(and a descriptor is then always recorded). -/
def fw_string_scan_step (data : List Nat) (i : Nat) :
    Nat × Option StringPackage :=
  match fw_hii_string_package_candidate (data.drop i) with
  | none => (1, none)
  | some candidate =>
    match fw_hii_package candidate with
    | none => (1, none)
    | some pkg =>
      match pkg.Data with
      | none => (1, none)
      | some payload =>
        match fw_hii_string_package payload with
        | none => (1, none)
        | some spkg =>
          let lang_index :=
            match spkg.StringPointers.findIdx? (· = spkg.LanguageNameStringOffset) with
            | some j => j
            | none => 0
          let language := (spkg.Strings.getD lang_index "")
          (candidate.length,
           some ⟨i, candidate.length, language, fwEnumerateMap spkg.Strings⟩)

/-- The Framework string scan loop, fuelled (the step is total: this loop has
no unwraps). -/
def fw_string_scan_aux (data : List Nat) : Nat → Nat → RRes (List StringPackage) :=
  scan_loop (fun i => some (fw_string_scan_step data i)) data.length

/-- One position of the Framework form-package scan loop (`lib.rs` 216–305).
Advancing by the candidate length happens exactly when the candidate, the
package, its payload and the opcode stream all parse; a descriptor is then
recorded only when the collected ID set is non-empty. -/
def fw_form_scan_step (data : List Nat) (i : Nat) :
    Nat × Option FormPackage :=
  match fw_hii_form_package_candidate (data.drop i) with
  | none => (1, none)
  | some candidate =>
    match fw_hii_package candidate with
    | none => (1, none)
    | some pkg =>
      match pkg.Data with
      | none => (1, none)
      | some payload =>
        match fw_ifr_operations payload with
        | none => (1, none)
        | some ops =>
          match dedupAdj (sortIds (fw_collect_ids ops)) with
          | [] => (candidate.length, none)
          | h :: t =>
            (candidate.length,
             some ⟨i, candidate.length, (h :: t).length, h, lastD (h :: t) 0⟩)

/-- The re-walk of the claimable ID set of a located Framework form package. -/
def fw_form_package_ids (data : List Nat) (o : Nat) : Option (List Nat) :=
  match fw_hii_form_package_candidate (data.drop o) with
  | none => none
  | some candidate =>
    match fw_hii_package candidate with
    | none => none
    | some pkg =>
      match pkg.Data with
      | none => none
      | some payload =>
        match fw_ifr_operations payload with
        | none => none
        | some ops => some (fw_collect_ids ops)

/-- The Framework form scan loop, fuelled. -/
def fw_form_scan_aux (data : List Nat) : Nat → Nat → RRes (List FormPackage) :=
  scan_loop (fun i => some (fw_form_scan_step data i)) data.length

/-- The `framework_find_string_and_form_packages` entry point from `lib.rs`. -/
def framework_find_string_and_form_packages (data : List Nat) :
    RRes (List StringPackage × List FormPackage) :=
  match fw_string_scan_aux data (data.length + 1) 0 with
  | .crash => .crash
  | .fuelOut => .fuelOut
  | .ok string_packages =>
    if string_packages.isEmpty then .ok ([], [])
    else
      match fw_form_scan_aux data (data.length + 1) 0 with
      | .crash => .crash
      | .fuelOut => .fuelOut
      | .ok form_packages =>
        if form_packages.isEmpty then .ok ([], [])
        else .ok (string_packages, form_packages)

/-- Preamble line of the Framework extractor. -/
def fw_preamble : String :=
  "Program version: " ++ program_version ++ ", Extraction mode: Framework\n"

/-- The `List:` rendering of `EqIdList` items (`lib.rs` 500–504). -/
def fwEqIdListItems : List Nat → String
  | [] => ""
  | x :: t => " 0x" ++ hexUpper x ++ "," ++ fwEqIdListItems t

/-- Payload text of one Framework opcode together with the scope increment the
arm performs (`lib.rs` 354–637): `Form` and `FormSet` increment the scope
depth inside their payload-parse success branch; every arm is `if let Ok`, so
a failing payload writes nothing. -/
def fw_op_payload_text (m : List (Nat × String)) (t : Nat) (d : List Nat) :
    String × Nat :=
  if t = 0x01 then
    match fw_ifr_form d with
    | some f =>
      ("Title: \"" ++ resolveStr m f.TitleStringId ++ "\", FormId: 0x" ++
         hexUpper f.FormId, 1)
    | none => ("", 0)
  else if t = 0x02 then
    match fw_ifr_subtitle d with
    | some s => ("Subtitle: \"" ++ resolveStr m s.SubtitleStringId ++ "\"", 0)
    | none => ("", 0)
  else if t = 0x03 then
    match fw_ifr_text d with
    | some tx =>
      ("Text: \"" ++ resolveStr m tx.TextStringId ++ "\", TextTwo: \"" ++
         resolveStr m tx.TextTwoStringId ++ "\", Help: \"" ++
         resolveStr m tx.HelpStringId ++ "\", Flags: 0x" ++ hexUpper tx.Flags ++
         ", Key: 0x" ++ hexUpper tx.Key, 0)
    | none => ("", 0)
  else if t = 0x05 then
    match fw_ifr_one_of d with
    | some o =>
      ("Prompt: \"" ++ resolveStr m o.PromptStringId ++ "\", Help: \"" ++
         resolveStr m o.HelpStringId ++ "\", QuestionId: 0x" ++
         hexUpper o.QuestionId ++ ", Width: 0x" ++ hexUpper o.Width, 0)
    | none => ("", 0)
  else if t = 0x06 then
    match fw_ifr_check_box d with
    | some c =>
      ("Prompt: \"" ++ resolveStr m c.PromptStringId ++ "\", Help: \"" ++
         resolveStr m c.HelpStringId ++ "\", QuestionId: 0x" ++
         hexUpper c.QuestionId ++ ", Width: 0x" ++ hexUpper c.Width ++
         ", Flags: 0x" ++ hexUpper c.Flags ++ ", Key: 0x" ++ hexUpper c.Key, 0)
    | none => ("", 0)
  else if t = 0x07 then
    match fw_ifr_numeric d with
    | some n =>
      ("Prompt: \"" ++ resolveStr m n.PromptStringId ++ "\", Help: \"" ++
         resolveStr m n.HelpStringId ++ "\", QuestionId: 0x" ++
         hexUpper n.QuestionId ++ ", Width: 0x" ++ hexUpper n.Width ++
         ", Flags: 0x" ++ hexUpper n.Flags ++ ", Key: 0x" ++ hexUpper n.Key ++
         ", Min: 0x" ++ hexUpper n.Min ++ ", Max: 0x" ++ hexUpper n.Max ++
         ", Step: 0x" ++ hexUpper n.Step ++ ", Default: 0x" ++ hexUpper n.Default, 0)
    | none => ("", 0)
  else if t = 0x08 then
    match fw_ifr_password d with
    | some p =>
      ("Prompt: \"" ++ resolveStr m p.PromptStringId ++ "\", Help: \"" ++
         resolveStr m p.HelpStringId ++ "\", QuestionId: 0x" ++
         hexUpper p.QuestionId ++ ", Width: 0x" ++ hexUpper p.Width ++
         ", Flags: 0x" ++ hexUpper p.Flags ++ ", Key: 0x" ++ hexUpper p.Key ++
         ", MinSize: 0x" ++ hexUpper p.MinSize ++ ", MaxSize: 0x" ++
         hexUpper p.MaxSize ++ ", Encoding: 0x" ++ hexUpper p.Encoding, 0)
    | none => ("", 0)
  else if t = 0x09 then
    match fw_ifr_one_of_option d with
    | some oo =>
      ("Option: \"" ++ resolveStr m oo.OptionStringId ++ "\", Value: 0x" ++
         hexUpper oo.Value ++ ", Flags: 0x" ++ hexUpper oo.Flags ++
         ", Key: 0x" ++ hexUpper oo.Key, 0)
    | none => ("", 0)
  else if t = 0x0A then
    match fw_ifr_supress_if d with
    | some si => ("Flags: 0x" ++ hexUpper si.Flags, 0)
    | none => ("", 0)
  else if t = 0x0C then
    match fw_ifr_hidden d with
    | some h => ("Value: 0x" ++ hexUpper h.Value ++ ", Key: 0x" ++ hexUpper h.Key, 0)
    | none => ("", 0)
  else if t = 0x0E then
    match fw_ifr_form_set d with
    | some fs =>
      ("Title: \"" ++ resolveStr m fs.TitleStringId ++ "\", Help: \"" ++
         resolveStr m fs.HelpStringId ++ "\", Guid: " ++ guidText fs.Guid ++
         ", Callback: 0x" ++ hexUpper fs.CallbackHandle ++ ", Class: 0x" ++
         hexUpper fs.Class ++ ", SubClass: 0x" ++ hexUpper fs.SubClass ++
         ", NvDataSize: 0x" ++ hexUpper fs.NvDataSize, 1)
    | none => ("", 0)
  else if t = 0x0F then
    match fw_ifr_ref d with
    | some r =>
      ("Prompt: \"" ++ resolveStr m r.PromptStringId ++ "\", Help: \"" ++
         resolveStr m r.HelpStringId ++ "\", FormId: 0x" ++ hexUpper r.FormId ++
         ", Flags: 0x" ++ hexUpper r.Flags ++ ", Key: 0x" ++ hexUpper r.Key, 0)
    | none => ("", 0)
  else if t = 0x11 then
    match fw_ifr_inconsistent_if d with
    | some inc =>
      ("Popup: \"" ++ resolveStr m inc.PopupStringId ++ "\", Flags: 0x" ++
         hexUpper inc.Flags, 0)
    | none => ("", 0)
  else if t = 0x12 then
    match fw_ifr_eq_id_val d with
    | some ev =>
      ("QuestionId: 0x" ++ hexUpper ev.QuestionId ++ ", Value: 0x" ++
         hexUpper ev.Value, 0)
    | none => ("", 0)
  else if t = 0x13 then
    match fw_ifr_eq_id_id d with
    | some eid =>
      ("Question1: 0x" ++ hexUpper eid.QuestionId1 ++ ", Question2: 0x" ++
         hexUpper eid.QuestionId2, 0)
    | none => ("", 0)
  else if t = 0x14 then
    match fw_ifr_eq_id_list d with
    | some el =>
      ("QuestionId: 0x" ++ hexUpper el.QuestionId ++ ", Width: 0x" ++
         hexUpper el.Width ++ ", List: \x7b" ++ fwEqIdListItems el.List ++ " \x7d", 0)
    | none => ("", 0)
  else if t = 0x19 then
    match fw_ifr_grayout_if d with
    | some go => ("Flags: 0x" ++ hexUpper go.Flags, 0)
    | none => ("", 0)
  else if t = 0x1A then
    match fw_ifr_date d with
    | some dt =>
      ("Prompt: \"" ++ resolveStr m dt.PromptStringId ++ "\", Help: \"" ++
         resolveStr m dt.HelpStringId ++ "\", QuestionId: 0x" ++
         hexUpper dt.QuestionId ++ ", Width: 0x" ++ hexUpper dt.Width ++
         ", Flags: 0x" ++ hexUpper dt.Flags ++ ", Key: 0x" ++ hexUpper dt.Key ++
         ", Min: 0x" ++ hexUpper dt.Min ++ ", Max: 0x" ++ hexUpper dt.Max ++
         ", Step: 0x" ++ hexUpper dt.Step ++ ", Default: 0x" ++
         hexUpper dt.Default, 0)
    | none => ("", 0)
  else if t = 0x1B then
    match fw_ifr_time d with
    | some tm =>
      ("Prompt: \"" ++ resolveStr m tm.PromptStringId ++ "\", Help: \"" ++
         resolveStr m tm.HelpStringId ++ "\", QuestionId: 0x" ++
         hexUpper tm.QuestionId ++ ", Width: 0x" ++ hexUpper tm.Width ++
         ", Flags: 0x" ++ hexUpper tm.Flags ++ ", Key: 0x" ++ hexUpper tm.Key ++
         ", Min: 0x" ++ hexUpper tm.Min ++ ", Max: 0x" ++ hexUpper tm.Max ++
         ", Step: 0x" ++ hexUpper tm.Step ++ ", Default: 0x" ++
         hexUpper tm.Default, 0)
    | none => ("", 0)
  else if t = 0x1C then
    match fw_ifr_string d with
    | some st =>
      ("Prompt: \"" ++ resolveStr m st.PromptStringId ++ "\", Help: \"" ++
         resolveStr m st.HelpStringId ++ "\", QuestionId: 0x" ++
         hexUpper st.QuestionId ++ ", Width: 0x" ++ hexUpper st.Width ++
         ", Flags: 0x" ++ hexUpper st.Flags ++ ", Key: 0x" ++ hexUpper st.Key ++
         ", MinSize: 0x" ++ hexUpper st.MinSize ++ ", MaxSize: 0x" ++
         hexUpper st.MaxSize, 0)
    | none => ("", 0)
  else if t = 0x1D then
    match fw_ifr_label d with
    | some lb => ("LabelId: 0x" ++ hexUpper lb.LabelId, 0)
    | none => ("", 0)
  else if t = 0x1E then
    match fw_ifr_save_defaults d with
    | some sd =>
      ("Prompt: \"" ++ resolveStr m sd.PromptStringId ++ "\", Help: \"" ++
         resolveStr m sd.HelpStringId ++ "\", FormId: 0x" ++ hexUpper sd.FormId ++
         ", Flags: 0x" ++ hexUpper sd.Flags ++ ", Key: 0x" ++ hexUpper sd.Key, 0)
    | none => ("", 0)
  else if t = 0x1F then
    match fw_ifr_restore_defaults d with
    | some rd =>
      ("Prompt: \"" ++ resolveStr m rd.PromptStringId ++ "\", Help: \"" ++
         resolveStr m rd.HelpStringId ++ "\", FormId: 0x" ++ hexUpper rd.FormId ++
         ", Flags: 0x" ++ hexUpper rd.Flags ++ ", Key: 0x" ++ hexUpper rd.Key, 0)
    | none => ("", 0)
  else if t = 0x20 then
    match fw_ifr_banner d with
    | some bn =>
      ("Title: \"" ++ resolveStr m bn.TitleStringId ++ "\", LineNumber: 0x" ++
         hexUpper bn.LineNumber ++ ", Alignment: 0x" ++ hexUpper bn.Alignment, 0)
    | none => ("", 0)
  else if t = 0x21 then
    match fw_ifr_inventory d with
    | some inv =>
      ("Text: \"" ++ resolveStr m inv.TextStringId ++ "\", TextTwo: \"" ++
         resolveStr m inv.TextTwoStringId ++ "\", Help: \"" ++
         resolveStr m inv.HelpStringId ++ "\"", 0)
    | none => ("", 0)
  else if t = 0x22 then
    match fw_ifr_eq_var_val d with
    | some evv =>
      ("VariableId: 0x" ++ hexUpper evv.VariableId ++ ", Value: 0x" ++
         hexUpper evv.Value, 0)
    | none => ("", 0)
  else if t = 0x23 then
    match fw_ifr_ordered_list d with
    | some ol =>
      ("Prompt: \"" ++ resolveStr m ol.PromptStringId ++ "\", Help: \"" ++
         resolveStr m ol.HelpStringId ++ "\", QuestionId: 0x" ++
         hexUpper ol.QuestionId ++ ", MaxEntries: 0x" ++ hexUpper ol.MaxEntries, 0)
    | none => ("", 0)
  else if t = 0x24 then
    match fw_ifr_var_store d with
    | some vs =>
      ("VarstoreId: 0x" ++ hexUpper vs.VarStoreId ++ ", Guid: " ++
         guidText vs.Guid ++ ", Name: \"" ++ vs.Name ++ "\", Size: 0x" ++
         hexUpper vs.Size, 0)
    | none => ("", 0)
  else if t = 0x25 then
    match fw_ifr_var_store_select d with
    | some vss => ("VarstoreId: 0x" ++ hexUpper vss.VarStoreId, 0)
    | none => ("", 0)
  else if t = 0x26 then
    match fw_ifr_var_store_select_pair d with
    | some vsp =>
      ("VarstoreId: 0x" ++ hexUpper vsp.VarStoreId ++
         ", SecondaryVarStoreId: 0x" ++ hexUpper vsp.SecondaryVarStoreId, 0)
    | none => ("", 0)
  else if fwTagUnknown t then
    ("RawData: " ++ bytesDebug d, 0)
  else ("", 0)

/-- One line of the Framework formatter loop: segment text plus the updated
scope depth and offset (`lib.rs` 338–641).  The decrement for
`EndForm`/`EndFormSet` is saturating and precedes emission; the increment for
`Form`/`FormSet` happens inside the payload-parse success branch. -/
def fw_op_segment (m : List (Nat × String)) (verbose : Bool)
    (depth offset : Nat) (op : FwIfrOperation) : String × Nat × Nat :=
  let depth1 := if op.OpCode = fwEndFormSetTag ∨ op.OpCode = fwEndFormTag
                then depth - 1 else depth
  let pre := if verbose then "0x" ++ hexUpper offset ++ ": " else ""
  let pd := match op.Data with
    | none => ("", 0)
    | some d => fw_op_payload_text m op.OpCode d
  (pre ++ indentStr depth1 ++ fwOpName op.OpCode ++ " " ++ pd.1 ++ "\n",
   depth1 + pd.2, offset + op.Length)

/-- The list of per-opcode output segments of the Framework formatter. -/
def fw_op_segments (m : List (Nat × String)) (verbose : Bool) :
    List FwIfrOperation → Nat → Nat → List String
  | [], _, _ => []
  | op :: t, depth, offset =>
    let s := fw_op_segment m verbose depth offset op
    s.1 :: fw_op_segments m verbose t s.2.1 s.2.2

/-- The `framework_ifr_extract_to_string` entry point from `lib.rs`; `none` models a panic
(the unchecked slice `&data[form_pkg.offset..]`, or `package.Data.unwrap()`
at line 334). -/
def framework_ifr_extract_to_string (data : List Nat) (form_pkg : FormPackage)
    (string_pkg : StringPackage) (verbose : Bool) : Option String :=
  if data.length < form_pkg.offset then none
  else
    match fw_hii_form_package_candidate (data.drop form_pkg.offset) with
    | none => some fw_preamble
    | some candidate =>
      match fw_hii_package candidate with
      | none => some fw_preamble
      | some package =>
        match package.Data with
        | none => none
        | some payload =>
          match fw_ifr_operations payload with
          | none => some fw_preamble
          | some ops =>
            some (fw_preamble ++ String.join
              (fw_op_segments string_pkg.string_id_map verbose ops 0
                (form_pkg.offset + 6)))


/-- A 59-byte sample buffer holding one well-formed UEFI string package
(language `en`, empty SIBT stream) at offset 0 followed by one well-formed
UEFI form package (a single `Form` opcode titled by string ID 5) at
offset 49. -/
def uefiSample : List Nat :=
  [0x31, 0, 0, 0x04] ++ List.replicate 42 0 ++ [0x65, 0x6E, 0x00] ++
  [0x0A, 0, 0, 0x02, 0x01, 0x06, 0x01, 0x00, 0x05, 0x00]

/-- The scope depth in effect when a Framework opcode's line is emitted: the
saturating pre-decrement applies to `EndFormSet` / `EndForm` (`lib.rs`
340-342). -/
def fwPreDepth (op : FwIfrOperation) (depth : Nat) : Nat :=
  if op.OpCode = fwEndFormSetTag ∨ op.OpCode = fwEndFormTag then depth - 1 else depth

/-- Whether a Framework opcode opens a scope in the formatter: it must be
`Form` or `FormSet` *and* carry a payload that its payload parser accepts
(`lib.rs` 363, 472: the increment sits inside the `if let Ok` arm). -/
def fwScopeOpens (op : FwIfrOperation) : Bool :=
  match op.Data with
  | none => false
  | some d =>
    (op.OpCode == fwFormTag && (fw_ifr_form d).isSome) ||
    (op.OpCode == fwFormSetTag && (fw_ifr_form_set d).isSome)


/-- The payload well-formedness the SIBT framing guarantees per block type:
string blocks carry their NUL-terminated bytes (font variants with a leading
font byte), `Skip1` exactly one byte, `Skip2` exactly two. -/
def GoodBlock (b : HiiSibtBlock) : Prop :=
  match b.Btype with
  | .StringScsu => ∃ body, b.Data = some (body ++ [0]) ∧ 0 ∉ body
  | .StringScsuFont => ∃ f body, b.Data = some (f :: (body ++ [0])) ∧ 0 ∉ body
  | .StringUcs2 => ∃ units : List Nat,
      b.Data = some ((units.flatMap fun u => [u % 256, u / 256]) ++ [0, 0]) ∧
      0 ∉ units
  | .StringUcs2Font => ∃ (f : Nat) (units : List Nat),
      b.Data = some (f :: ((units.flatMap fun u => [u % 256, u / 256]) ++ [0, 0])) ∧
      0 ∉ units
  | .Skip1 => ∃ k, b.Data = some [k]
  | .Skip2 => ∃ k0 k1, b.Data = some [k0, k1]
  | _ => True

/-! ### Lemmas about the scan loops and steps -/

/-- Every descriptor an `ok` scan returns satisfies any property the step
guarantees of its recordings. -/
theorem scan_loop_ok_rec {α : Type} (step : Nat → Option (Nat × Option α))
    (limit : Nat) (P : α → Prop)
    (hP : ∀ i a p, step i = some (a, some p) → P p) :
    ∀ fuel i l, scan_loop step limit fuel i = RRes.ok l → ∀ p ∈ l, P p := by
  intro fuel
  induction fuel with
  | zero => intro i l h; simp [scan_loop] at h
  | succ fuel ih =>
    intro i l h p hp
    rw [scan_loop] at h
    by_cases hi : i < limit
    · rw [if_pos hi] at h
      cases hs : step i with
      | none => rw [hs] at h; cases h
      | some ar =>
        obtain ⟨a, r⟩ := ar
        rw [hs] at h
        dsimp only at h
        cases hrec : scan_loop step limit fuel (i + a) with
        | ok rest =>
          rw [hrec] at h
          cases h
          rcases List.mem_append.mp hp with hmem | hmem
          · cases r with
            | none => simp at hmem
            | some q =>
              simp at hmem
              subst hmem
              exact hP i a p hs
          · exact ih (i + a) rest hrec p hmem
        | crash => rw [hrec] at h; cases h
        | fuelOut => rw [hrec] at h; cases h
    · rw [if_neg hi] at h
      cases h
      simp at hp

/-- An `ok` scan's descriptors carry offsets at or beyond the scan position,
pairwise strictly increasing, provided every step advances and records at the
current position. -/
theorem scan_loop_ok_sorted {α : Type} (step : Nat → Option (Nat × Option α))
    (limit : Nat) (off : α → Nat)
    (hadv : ∀ i a r, step i = some (a, r) → 1 ≤ a)
    (hoff : ∀ i a p, step i = some (a, some p) → off p = i) :
    ∀ fuel i l, scan_loop step limit fuel i = RRes.ok l →
      (∀ p ∈ l, i ≤ off p) ∧ List.Pairwise (fun p q => off p < off q) l := by
  intro fuel
  induction fuel with
  | zero => intro i l h; simp [scan_loop] at h
  | succ fuel ih =>
    intro i l h
    rw [scan_loop] at h
    by_cases hi : i < limit
    · rw [if_pos hi] at h
      cases hs : step i with
      | none => rw [hs] at h; cases h
      | some ar =>
        obtain ⟨a, r⟩ := ar
        rw [hs] at h
        dsimp only at h
        cases hrec : scan_loop step limit fuel (i + a) with
        | ok rest =>
          rw [hrec] at h
          cases h
          obtain ⟨hge, hpw⟩ := ih (i + a) rest hrec
          have ha : 1 ≤ a := hadv i a r hs
          constructor
          · intro p hp
            rcases List.mem_append.mp hp with hmem | hmem
            · cases r with
              | none => simp at hmem
              | some q =>
                simp at hmem
                subst hmem
                exact (hoff i a p hs).ge
            · exact le_trans (Nat.le_add_right i a) (hge p hmem)
          · cases r with
            | none => simpa using hpw
            | some q =>
              simp only [Option.toList_some, List.singleton_append]
              refine List.Pairwise.cons ?_ hpw
              intro p hp
              have h1 : off q = i := hoff i a q hs
              have h2 : i + a ≤ off p := hge p hp
              omega
        | crash => rw [hrec] at h; cases h
        | fuelOut => rw [hrec] at h; cases h
    · rw [if_neg hi] at h
      cases h
      simp

/-- A parsed UEFI package slice has at least its 4 header bytes. -/
theorem uefi_hii_package_len {input : List Nat} {pkg : HiiPackage}
    (h : uefi_hii_package input = some pkg) : 4 ≤ input.length := by
  unfold uefi_hii_package at h
  by_cases h4 : input.length < 4
  · rw [if_pos h4] at h; cases h
  · omega

/-- A parsed Framework package slice has at least its 5 header bytes. -/
theorem fw_hii_package_len {input : List Nat} {pkg : FwHiiPackage}
    (h : fw_hii_package input = some pkg) : 5 ≤ input.length := by
  unfold fw_hii_package at h
  by_cases h5 : input.length < 5
  · rw [if_pos h5] at h; cases h
  · omega

/-- Full case analysis of one UEFI string-scan position: either a one-byte
miss, or the candidate, package, payload and string-header all parsed and the
scan advanced by the candidate length — recording a descriptor exactly when
the SIBT stream also parsed. -/
theorem uefi_string_step_inv {data : List Nat} {i a : Nat} {r : Option StringPackage}
    (h : uefi_string_scan_step data i = some (a, r)) :
    (a = 1 ∧ r = none) ∨
    (∃ cand pkg payload sp,
      uefi_hii_string_package_candidate (data.drop i) = some cand ∧
      uefi_hii_package cand = some pkg ∧
      pkg.Data = some payload ∧
      uefi_hii_string_package payload = some sp ∧
      a = cand.length ∧ 4 ≤ a ∧
      ((uefi_hii_sibt_blocks sp.Data = none ∧ r = none) ∨
       (∃ blocks st, uefi_hii_sibt_blocks sp.Data = some blocks ∧
          uefi_sibt_walk blocks = some st ∧
          r = some ⟨i, cand.length, sp.Language, st.1⟩))) := by
  unfold uefi_string_scan_step at h
  cases hc : uefi_hii_string_package_candidate (data.drop i) with
  | none => rw [hc] at h; simp at h; left; exact ⟨h.1.symm, h.2.symm⟩
  | some cand =>
    rw [hc] at h; dsimp only at h
    cases hp : uefi_hii_package cand with
    | none => rw [hp] at h; simp at h; left; exact ⟨h.1.symm, h.2.symm⟩
    | some pkg =>
      rw [hp] at h; dsimp only at h
      cases hd : pkg.Data with
      | none => rw [hd] at h; cases h
      | some payload =>
        rw [hd] at h; dsimp only at h
        cases hsp : uefi_hii_string_package payload with
        | none => rw [hsp] at h; simp at h; left; exact ⟨h.1.symm, h.2.symm⟩
        | some sp =>
          rw [hsp] at h; dsimp only at h
          have hlen : 4 ≤ cand.length := uefi_hii_package_len hp
          cases hb : uefi_hii_sibt_blocks sp.Data with
          | none =>
            rw [hb] at h; simp at h
            right
            exact ⟨cand, pkg, payload, sp, rfl, hp, hd, hsp, h.1.symm,
                   by omega, Or.inl ⟨hb, h.2.symm⟩⟩
          | some blocks =>
            rw [hb] at h; dsimp only at h
            cases hw : uefi_sibt_walk blocks with
            | none => rw [hw] at h; cases h
            | some st =>
              rw [hw] at h; simp at h
              right
              exact ⟨cand, pkg, payload, sp, rfl, hp, hd, hsp, h.1.symm,
                     by omega, Or.inr ⟨blocks, st, hb, hw, h.2.symm⟩⟩

/-- Full case analysis of one UEFI form-scan position: either a one-byte
miss, or the candidate and package parsed and the scan advanced by the
candidate length — recording a descriptor exactly when the collected,
sorted and deduplicated ID set is non-empty. -/
theorem uefi_form_step_inv {data : List Nat} {i a : Nat} {r : Option FormPackage}
    (h : uefi_form_scan_step data i = some (a, r)) :
    (a = 1 ∧ r = none) ∨
    (∃ cand pkg payload ids,
      uefi_hii_form_package_candidate (data.drop i) = some cand ∧
      uefi_hii_package cand = some pkg ∧
      pkg.Data = some payload ∧
      uefi_form_ids payload = some ids ∧
      a = cand.length ∧ 4 ≤ a ∧
      ((dedupAdj (sortIds ids) = [] ∧ r = none) ∨
       (∃ hd tl, dedupAdj (sortIds ids) = hd :: tl ∧
          r = some ⟨i, cand.length, (hd :: tl).length, hd, lastD (hd :: tl) 0⟩))) := by
  unfold uefi_form_scan_step at h
  cases hc : uefi_hii_form_package_candidate (data.drop i) with
  | none => rw [hc] at h; simp at h; left; exact ⟨h.1.symm, h.2.symm⟩
  | some cand =>
    rw [hc] at h; dsimp only at h
    cases hp : uefi_hii_package cand with
    | none => rw [hp] at h; simp at h; left; exact ⟨h.1.symm, h.2.symm⟩
    | some pkg =>
      rw [hp] at h; dsimp only at h
      cases hd : pkg.Data with
      | none => rw [hd] at h; cases h
      | some payload =>
        rw [hd] at h; dsimp only at h
        cases hids : uefi_form_ids payload with
        | none => rw [hids] at h; cases h
        | some ids =>
          rw [hids] at h; dsimp only at h
          have hlen : 4 ≤ cand.length := uefi_hii_package_len hp
          cases hdd : dedupAdj (sortIds ids) with
          | nil =>
            rw [hdd] at h; simp at h
            right
            exact ⟨cand, pkg, payload, ids, rfl, hp, hd, hids, h.1.symm,
                   by omega, Or.inl ⟨hdd, h.2.symm⟩⟩
          | cons hd0 tl =>
            rw [hdd] at h; simp at h
            right
            exact ⟨cand, pkg, payload, ids, rfl, hp, hd, hids, h.1.symm,
                   by omega, Or.inr ⟨hd0, tl, hdd, h.2.symm⟩⟩

/-- Full case analysis of one Framework string-scan position: either a
one-byte miss, or the candidate, package, payload and string package all
parsed, the scan advanced by the candidate length, and a descriptor was
recorded. -/
theorem fw_string_step_inv {data : List Nat} {i : Nat}
    {a : Nat} {r : Option StringPackage}
    (h : fw_string_scan_step data i = (a, r)) :
    (a = 1 ∧ r = none) ∨
    (∃ cand pkg payload spkg,
      fw_hii_string_package_candidate (data.drop i) = some cand ∧
      fw_hii_package cand = some pkg ∧
      pkg.Data = some payload ∧
      fw_hii_string_package payload = some spkg ∧
      a = cand.length ∧ 5 ≤ a ∧
      (∃ lang, r = some ⟨i, cand.length, lang, fwEnumerateMap spkg.Strings⟩)) := by
  unfold fw_string_scan_step at h
  cases hc : fw_hii_string_package_candidate (data.drop i) with
  | none => rw [hc] at h; simp at h; left; exact ⟨h.1.symm, h.2.symm⟩
  | some cand =>
    rw [hc] at h; dsimp only at h
    cases hp : fw_hii_package cand with
    | none => rw [hp] at h; simp at h; left; exact ⟨h.1.symm, h.2.symm⟩
    | some pkg =>
      rw [hp] at h; dsimp only at h
      cases hd : pkg.Data with
      | none => rw [hd] at h; simp at h; left; exact ⟨h.1.symm, h.2.symm⟩
      | some payload =>
        rw [hd] at h; dsimp only at h
        cases hsp : fw_hii_string_package payload with
        | none => rw [hsp] at h; simp at h; left; exact ⟨h.1.symm, h.2.symm⟩
        | some spkg =>
          rw [hsp] at h; simp at h
          have hlen : 5 ≤ cand.length := fw_hii_package_len hp
          right
          exact ⟨cand, pkg, payload, spkg, rfl, hp, hd, hsp, h.1.symm,
                 by omega, ⟨_, h.2.symm⟩⟩

/-- Full case analysis of one Framework form-scan position: either a one-byte
miss, or the candidate, package, payload and opcode stream all parsed and the
scan advanced by the candidate length — recording a descriptor exactly when
the collected, sorted and deduplicated ID set is non-empty. -/
theorem fw_form_step_inv {data : List Nat} {i : Nat}
    {a : Nat} {r : Option FormPackage}
    (h : fw_form_scan_step data i = (a, r)) :
    (a = 1 ∧ r = none) ∨
    (∃ cand pkg payload ops,
      fw_hii_form_package_candidate (data.drop i) = some cand ∧
      fw_hii_package cand = some pkg ∧
      pkg.Data = some payload ∧
      fw_ifr_operations payload = some ops ∧
      a = cand.length ∧ 5 ≤ a ∧
      ((dedupAdj (sortIds (fw_collect_ids ops)) = [] ∧ r = none) ∨
       (∃ hd tl, dedupAdj (sortIds (fw_collect_ids ops)) = hd :: tl ∧
          r = some ⟨i, cand.length, (hd :: tl).length, hd, lastD (hd :: tl) 0⟩))) := by
  unfold fw_form_scan_step at h
  cases hc : fw_hii_form_package_candidate (data.drop i) with
  | none => rw [hc] at h; simp at h; left; exact ⟨h.1.symm, h.2.symm⟩
  | some cand =>
    rw [hc] at h; dsimp only at h
    cases hp : fw_hii_package cand with
    | none => rw [hp] at h; simp at h; left; exact ⟨h.1.symm, h.2.symm⟩
    | some pkg =>
      rw [hp] at h; dsimp only at h
      cases hd : pkg.Data with
      | none => rw [hd] at h; simp at h; left; exact ⟨h.1.symm, h.2.symm⟩
      | some payload =>
        rw [hd] at h; dsimp only at h
        cases hops : fw_ifr_operations payload with
        | none => rw [hops] at h; simp at h; left; exact ⟨h.1.symm, h.2.symm⟩
        | some ops =>
          rw [hops] at h; dsimp only at h
          have hlen : 5 ≤ cand.length := fw_hii_package_len hp
          cases hdd : dedupAdj (sortIds (fw_collect_ids ops)) with
          | nil =>
            rw [hdd] at h; simp at h
            right
            exact ⟨cand, pkg, payload, ops, rfl, hp, hd, hops, h.1.symm,
                   by omega, Or.inl ⟨hdd, h.2.symm⟩⟩
          | cons hd0 tl =>
            rw [hdd] at h; simp at h
            right
            exact ⟨cand, pkg, payload, ops, rfl, hp, hd, hops, h.1.symm,
                   by omega, Or.inr ⟨hd0, tl, hdd, h.2.symm⟩⟩

/-- The UEFI string scan always advances. -/
theorem uefi_string_step_pos {data : List Nat} {i a : Nat} {r : Option StringPackage}
    (h : uefi_string_scan_step data i = some (a, r)) : 1 ≤ a := by
  rcases uefi_string_step_inv h with ⟨h1, _⟩ | ⟨_, _, _, _, _, _, _, _, _, h4, _⟩ <;> omega

/-- The UEFI string scan records at the scan position. -/
theorem uefi_string_step_off {data : List Nat} {i a : Nat} {p : StringPackage}
    (h : uefi_string_scan_step data i = some (a, some p)) : p.offset = i := by
  rcases uefi_string_step_inv h with ⟨_, h2⟩ | ⟨_, _, _, _, _, _, _, _, _, _, hr⟩
  · cases h2
  · rcases hr with ⟨_, _⟩ | ⟨_, _, _, _, hr⟩
    · simp_all
    · simp_all

/-- The UEFI form scan always advances. -/
theorem uefi_form_step_pos {data : List Nat} {i a : Nat} {r : Option FormPackage}
    (h : uefi_form_scan_step data i = some (a, r)) : 1 ≤ a := by
  rcases uefi_form_step_inv h with ⟨h1, _⟩ | ⟨_, _, _, _, _, _, _, _, _, h4, _⟩ <;> omega

/-- The UEFI form scan records at the scan position. -/
theorem uefi_form_step_off {data : List Nat} {i a : Nat} {p : FormPackage}
    (h : uefi_form_scan_step data i = some (a, some p)) : p.offset = i := by
  rcases uefi_form_step_inv h with ⟨_, h2⟩ | ⟨_, _, _, _, _, _, _, _, _, _, hr⟩
  · cases h2
  · rcases hr with ⟨_, h2⟩ | ⟨_, _, _, hr⟩
    · cases h2
    · simp_all

/-- The Framework string scan always advances. -/
theorem fw_string_step_pos {data : List Nat} {i a : Nat} {r : Option StringPackage}
    (h : fw_string_scan_step data i = (a, r)) : 1 ≤ a := by
  rcases fw_string_step_inv h with ⟨h1, _⟩ | ⟨_, _, _, _, _, _, _, _, _, h4, _⟩ <;> omega

/-- The Framework string scan records at the scan position. -/
theorem fw_string_step_off {data : List Nat} {i a : Nat} {p : StringPackage}
    (h : fw_string_scan_step data i = (a, some p)) : p.offset = i := by
  rcases fw_string_step_inv h with ⟨_, h2⟩ | ⟨_, _, _, _, _, _, _, _, _, _, _, hr⟩
  · cases h2
  · simp_all

/-- The Framework form scan always advances. -/
theorem fw_form_step_pos {data : List Nat} {i a : Nat} {r : Option FormPackage}
    (h : fw_form_scan_step data i = (a, r)) : 1 ≤ a := by
  rcases fw_form_step_inv h with ⟨h1, _⟩ | ⟨_, _, _, _, _, _, _, _, _, h4, _⟩ <;> omega

/-- The Framework form scan records at the scan position. -/
theorem fw_form_step_off {data : List Nat} {i a : Nat} {p : FormPackage}
    (h : fw_form_scan_step data i = (a, some p)) : p.offset = i := by
  rcases fw_form_step_inv h with ⟨_, h2⟩ | ⟨_, _, _, _, _, _, _, _, _, _, hr⟩
  · cases h2
  · rcases hr with ⟨_, h2⟩ | ⟨_, _, _, hr⟩
    · cases h2
    · simp_all

/-- Sorting: `sortIds` sorts. -/
theorem sortIds_sorted (l : List Nat) : List.Sorted (· ≤ ·) (sortIds l) :=
  List.sorted_insertionSort (· ≤ ·) l

/-- Deduplication only drops elements. -/
theorem dedupAdj_sublist : ∀ l : List Nat, (dedupAdj l).Sublist l := by
  intro l
  induction l with
  | nil => simp [dedupAdj]
  | cons a t ih =>
    cases t with
    | nil => simp [dedupAdj]
    | cons b t' =>
      rw [dedupAdj]
      by_cases hab : a = b
      · rw [if_pos hab]
        exact (ih).cons a
      · rw [if_neg hab]
        exact (ih).cons₂ a

/-- Deduplication preserves sortedness. -/
theorem dedupAdj_sorted {l : List Nat} (h : List.Sorted (· ≤ ·) l) :
    List.Sorted (· ≤ ·) (dedupAdj l) :=
  List.Pairwise.sublist (dedupAdj_sublist l) h

/-- In a sorted non-empty list, the head is at most the last element. -/
theorem sorted_head_le_lastD :
    ∀ (hd : Nat) (tl : List Nat), List.Sorted (· ≤ ·) (hd :: tl) →
      hd ≤ lastD (hd :: tl) 0 := by
  intro hd tl
  induction tl generalizing hd with
  | nil => intro _; simp [lastD]
  | cons b t' ih =>
    intro h
    rw [lastD]
    have hhb : hd ≤ b := (List.sorted_cons.mp h).1 b (by simp)
    have := ih b (List.sorted_cons.mp h).2
    omega

/-! ### Claim theorems -/


/-- C1: the spec promises the locators never panic, but the UEFI locator
unwraps `package.Data` (line 659 of `lib.rs`), which is `None` for a
string-package candidate of declared length 4 (empty body): on the four-byte
buffer `[0x04, 0x00, 0x00, 0x04]` the scan panics. -/
theorem c1_uefi_locator_panics_on_empty_package :
    uefi_find_string_and_form_packages [0x04, 0x00, 0x00, 0x04] = RRes.crash := by
  decide

/-- C7: whenever either scan yields an empty list, both locators return the
pair of two empty lists. -/
theorem c7_empty_list_propagates :
    (∀ (data : List Nat) strings,
       uefi_string_scan_aux data (data.length + 1) 0 = RRes.ok strings →
       strings = [] →
       uefi_find_string_and_form_packages data = RRes.ok ([], [])) ∧
    (∀ (data : List Nat) strings forms,
       uefi_string_scan_aux data (data.length + 1) 0 = RRes.ok strings →
       uefi_form_scan_aux data (data.length + 1) 0 = RRes.ok forms →
       forms = [] →
       uefi_find_string_and_form_packages data = RRes.ok ([], [])) ∧
    (∀ (data : List Nat) strings,
       fw_string_scan_aux data (data.length + 1) 0 = RRes.ok strings →
       strings = [] →
       framework_find_string_and_form_packages data = RRes.ok ([], [])) ∧
    (∀ (data : List Nat) strings forms,
       fw_string_scan_aux data (data.length + 1) 0 = RRes.ok strings →
       fw_form_scan_aux data (data.length + 1) 0 = RRes.ok forms →
       forms = [] →
       framework_find_string_and_form_packages data = RRes.ok ([], [])) := by
  refine ⟨?_, ?_, ?_, ?_⟩
  · intro data strings hs he
    subst he
    unfold uefi_find_string_and_form_packages
    rw [hs]
    simp
  · intro data strings forms hs hf he
    subst he
    unfold uefi_find_string_and_form_packages
    rw [hs]
    by_cases hse : strings.isEmpty
    · simp [hse]
    · simp only [hse, Bool.false_eq_true, if_false, hf, List.isEmpty_nil, if_true]
  · intro data strings hs he
    subst he
    unfold framework_find_string_and_form_packages
    rw [hs]
    simp
  · intro data strings forms hs hf he
    subst he
    unfold framework_find_string_and_form_packages
    rw [hs]
    by_cases hse : strings.isEmpty
    · simp [hse]
    · simp only [hse, Bool.false_eq_true, if_false, hf, List.isEmpty_nil, if_true]

/-- C7 witness: on the empty buffer the string scan is empty and the UEFI
locator returns the empty pair. -/
theorem c7_empty_list_propagates_witness :
    uefi_find_string_and_form_packages [] = RRes.ok ([], []) :=
  c7_empty_list_propagates.1 [] [] (by decide) rfl

/-- C9: the descriptors each locator returns are in strictly ascending offset
order, in both returned lists, for both dialects. -/
theorem c9_offsets_strictly_ascending :
    (∀ (data : List Nat) ss fs,
       uefi_find_string_and_form_packages data = RRes.ok (ss, fs) →
       List.Pairwise (fun p q : StringPackage => p.offset < q.offset) ss ∧
       List.Pairwise (fun p q : FormPackage => p.offset < q.offset) fs) ∧
    (∀ (data : List Nat) ss fs,
       framework_find_string_and_form_packages data = RRes.ok (ss, fs) →
       List.Pairwise (fun p q : StringPackage => p.offset < q.offset) ss ∧
       List.Pairwise (fun p q : FormPackage => p.offset < q.offset) fs) := by
  constructor
  · intro data ss fs h
    unfold uefi_find_string_and_form_packages at h
    cases hs : uefi_string_scan_aux data (data.length + 1) 0 with
    | crash => rw [hs] at h; cases h
    | fuelOut => rw [hs] at h; cases h
    | ok strings =>
      rw [hs] at h; dsimp only at h
      by_cases hse : strings.isEmpty
      · rw [if_pos hse] at h
        cases h
        simp
      · rw [if_neg hse] at h
        cases hf : uefi_form_scan_aux data (data.length + 1) 0 with
        | crash => rw [hf] at h; cases h
        | fuelOut => rw [hf] at h; cases h
        | ok forms =>
          rw [hf] at h; dsimp only at h
          by_cases hfe : forms.isEmpty
          · rw [if_pos hfe] at h
            cases h
            simp
          · rw [if_neg hfe] at h
            cases h
            constructor
            · exact (scan_loop_ok_sorted (uefi_string_scan_step data) data.length
                (fun p => p.offset)
                (fun i a r hh => uefi_string_step_pos hh)
                (fun i a p hh => uefi_string_step_off hh)
                (data.length + 1) 0 ss hs).2
            · exact (scan_loop_ok_sorted (uefi_form_scan_step data) data.length
                (fun p => p.offset)
                (fun i a r hh => uefi_form_step_pos hh)
                (fun i a p hh => uefi_form_step_off hh)
                (data.length + 1) 0 fs hf).2
  · intro data ss fs h
    unfold framework_find_string_and_form_packages at h
    cases hs : fw_string_scan_aux data (data.length + 1) 0 with
    | crash => rw [hs] at h; cases h
    | fuelOut => rw [hs] at h; cases h
    | ok strings =>
      rw [hs] at h; dsimp only at h
      by_cases hse : strings.isEmpty
      · rw [if_pos hse] at h
        cases h
        simp
      · rw [if_neg hse] at h
        cases hf : fw_form_scan_aux data (data.length + 1) 0 with
        | crash => rw [hf] at h; cases h
        | fuelOut => rw [hf] at h; cases h
        | ok forms =>
          rw [hf] at h; dsimp only at h
          by_cases hfe : forms.isEmpty
          · rw [if_pos hfe] at h
            cases h
            simp
          · rw [if_neg hfe] at h
            cases h
            constructor
            · exact (scan_loop_ok_sorted
                (fun i => some (fw_string_scan_step data i)) data.length
                (fun p => p.offset)
                (fun i a r hh => fw_string_step_pos (by simpa using hh))
                (fun i a p hh => fw_string_step_off (by simpa using hh))
                (data.length + 1) 0 ss hs).2
            · exact (scan_loop_ok_sorted
                (fun i => some (fw_form_scan_step data i)) data.length
                (fun p => p.offset)
                (fun i a r hh => fw_form_step_pos (by simpa using hh))
                (fun i a p hh => fw_form_step_off (by simpa using hh))
                (data.length + 1) 0 fs hf).2

/-- C9 witness: on the sample buffer the locator returns one string package at
offset 0 and one form package at offset 49, and both lists are strictly
ascending. -/
theorem c9_offsets_strictly_ascending_witness :
    uefi_find_string_and_form_packages uefiSample =
      RRes.ok ([⟨0, 49, "en", [(0, "")]⟩], [⟨49, 10, 1, 5, 5⟩]) ∧
    List.Pairwise (fun p q : StringPackage => p.offset < q.offset)
      [(⟨0, 49, "en", [(0, "")]⟩ : StringPackage)] ∧
    List.Pairwise (fun p q : FormPackage => p.offset < q.offset)
      [(⟨49, 10, 1, 5, 5⟩ : FormPackage)] :=
  ⟨by decide,
   (c9_offsets_strictly_ascending.1 uefiSample [⟨0, 49, "en", [(0, "")]⟩]
     [⟨49, 10, 1, 5, 5⟩] (by decide)).1,
   (c9_offsets_strictly_ascending.1 uefiSample [⟨0, 49, "en", [(0, "")]⟩]
     [⟨49, 10, 1, 5, 5⟩] (by decide)).2⟩

/-- C10: both extractors slice `data[form_pkg.offset..]` without a bounds
check; a descriptor whose offset exceeds the buffer length makes the call
panic. -/
theorem c10_extractors_panic_on_forged_offset
    (data : List Nat) (fp : FormPackage) (sp : StringPackage) (verbose : Bool)
    (h : data.length < fp.offset) :
    uefi_ifr_extract_to_string data fp sp verbose = none ∧
    framework_ifr_extract_to_string data fp sp verbose = none := by
  constructor
  · unfold uefi_ifr_extract_to_string
    rw [if_pos h]
  · unfold framework_ifr_extract_to_string
    rw [if_pos h]

/-- C10 witness: a three-byte buffer with a forged offset-4 descriptor panics
in both extractors. -/
theorem c10_extractors_panic_on_forged_offset_witness :
    3 < 4 ∧
    uefi_ifr_extract_to_string [1, 2, 3] ⟨4, 8, 1, 1, 1⟩ ⟨0, 0, "", []⟩ false = none ∧
    framework_ifr_extract_to_string [1, 2, 3] ⟨4, 8, 1, 1, 1⟩ ⟨0, 0, "", []⟩ false = none :=
  ⟨by decide,
   (c10_extractors_panic_on_forged_offset [1, 2, 3] ⟨4, 8, 1, 1, 1⟩ ⟨0, 0, "", []⟩
     false (by decide)).1,
   (c10_extractors_panic_on_forged_offset [1, 2, 3] ⟨4, 8, 1, 1, 1⟩ ⟨0, 0, "", []⟩
     false (by decide)).2⟩

/-- C2 counterexample: on the six-byte buffer holding a UEFI form package
whose only opcode is `End` (so the collected ID set is empty), the form scan
at position 0 records no descriptor yet advances by the candidate length 6,
not by one byte as the claim states. -/
theorem c2_counterexample_advance_without_record :
    uefi_form_scan_step [0x06, 0x00, 0x00, 0x02, 0x29, 0x02] 0 = some (6, none) ∧
    (6 : Nat) ≠ 1 :=
  ⟨by decide, by decide⟩

/-- C2 (amended): the per-position advancement policy of the four scans.
Each scan either misses and advances one byte recording nothing, or advances
by the candidate length as soon as the candidate match and the full package
parse succeed together with — for the UEFI string scan — the string-header
parse (a descriptor needs the SIBT stream too), — for the UEFI form scan —
nothing further (a descriptor needs a non-empty collected ID set), — for the
Framework string scan — the body parse (then a descriptor is always
recorded), — for the Framework form scan — the opcode-stream parse (a
descriptor needs a non-empty ID set).  Conversely, whenever those parses
succeed the scan does advance by the candidate length. -/
theorem c2_advancement_policy :
    (∀ (data : List Nat) i a (r : Option StringPackage),
       uefi_string_scan_step data i = some (a, r) →
       (a = 1 ∧ r = none) ∨
       (∃ cand pkg payload sp,
         uefi_hii_string_package_candidate (data.drop i) = some cand ∧
         uefi_hii_package cand = some pkg ∧ pkg.Data = some payload ∧
         uefi_hii_string_package payload = some sp ∧ a = cand.length ∧ 4 ≤ a ∧
         (r.isSome ↔ (uefi_hii_sibt_blocks sp.Data).isSome))) ∧
    (∀ (data : List Nat) i cand pkg payload sp,
       uefi_hii_string_package_candidate (data.drop i) = some cand →
       uefi_hii_package cand = some pkg → pkg.Data = some payload →
       uefi_hii_string_package payload = some sp →
       ∀ a (r : Option StringPackage),
         uefi_string_scan_step data i = some (a, r) → a = cand.length) ∧
    (∀ (data : List Nat) i a (r : Option FormPackage),
       uefi_form_scan_step data i = some (a, r) →
       (a = 1 ∧ r = none) ∨
       (∃ cand pkg payload ids,
         uefi_hii_form_package_candidate (data.drop i) = some cand ∧
         uefi_hii_package cand = some pkg ∧ pkg.Data = some payload ∧
         uefi_form_ids payload = some ids ∧ a = cand.length ∧ 4 ≤ a ∧
         (r.isSome ↔ dedupAdj (sortIds ids) ≠ []))) ∧
    (∀ (data : List Nat) i cand pkg payload,
       uefi_hii_form_package_candidate (data.drop i) = some cand →
       uefi_hii_package cand = some pkg → pkg.Data = some payload →
       ∀ a (r : Option FormPackage),
         uefi_form_scan_step data i = some (a, r) → a = cand.length) ∧
    (∀ (data : List Nat) i a (r : Option StringPackage),
       fw_string_scan_step data i = (a, r) →
       (a = 1 ∧ r = none) ∨
       (∃ cand pkg payload spkg,
         fw_hii_string_package_candidate (data.drop i) = some cand ∧
         fw_hii_package cand = some pkg ∧ pkg.Data = some payload ∧
         fw_hii_string_package payload = some spkg ∧ a = cand.length ∧ 5 ≤ a ∧
         r.isSome)) ∧
    (∀ (data : List Nat) i a (r : Option FormPackage),
       fw_form_scan_step data i = (a, r) →
       (a = 1 ∧ r = none) ∨
       (∃ cand pkg payload ops,
         fw_hii_form_package_candidate (data.drop i) = some cand ∧
         fw_hii_package cand = some pkg ∧ pkg.Data = some payload ∧
         fw_ifr_operations payload = some ops ∧ a = cand.length ∧ 5 ≤ a ∧
         (r.isSome ↔ dedupAdj (sortIds (fw_collect_ids ops)) ≠ []))) := by
  refine ⟨?_, ?_, ?_, ?_, ?_, ?_⟩
  · intro data i a r h
    rcases uefi_string_step_inv h with hl | ⟨cand, pkg, payload, sp, h1, h2, h3, h4, h5, h6, hr⟩
    · exact Or.inl hl
    · refine Or.inr ⟨cand, pkg, payload, sp, h1, h2, h3, h4, h5, h6, ?_⟩
      rcases hr with ⟨hb, hrn⟩ | ⟨blocks, st, hb, hw, hrs⟩
      · simp [hb, hrn]
      · simp [hb, hrs]
  · intro data i cand pkg payload sp hc hp hd hsp a r h
    unfold uefi_string_scan_step at h
    rw [hc] at h
    dsimp only at h
    rw [hp] at h
    dsimp only at h
    rw [hd] at h
    dsimp only at h
    rw [hsp] at h
    dsimp only at h
    cases hb : uefi_hii_sibt_blocks sp.Data with
    | none => rw [hb] at h; simp at h; exact h.1.symm
    | some blocks =>
      rw [hb] at h
      dsimp only at h
      cases hw : uefi_sibt_walk blocks with
      | none => rw [hw] at h; cases h
      | some st => rw [hw] at h; simp at h; exact h.1.symm
  · intro data i a r h
    rcases uefi_form_step_inv h with hl | ⟨cand, pkg, payload, ids, h1, h2, h3, h4, h5, h6, hr⟩
    · exact Or.inl hl
    · refine Or.inr ⟨cand, pkg, payload, ids, h1, h2, h3, h4, h5, h6, ?_⟩
      rcases hr with ⟨hdd, hrn⟩ | ⟨hd0, tl, hdd, hrs⟩
      · simp [hdd, hrn]
      · simp [hdd, hrs]
  · intro data i cand pkg payload hc hp hd a r h
    unfold uefi_form_scan_step at h
    rw [hc] at h
    dsimp only at h
    rw [hp] at h
    dsimp only at h
    rw [hd] at h
    dsimp only at h
    cases hids : uefi_form_ids payload with
    | none => rw [hids] at h; cases h
    | some ids =>
      rw [hids] at h
      dsimp only at h
      cases hdd : dedupAdj (sortIds ids) with
      | nil => rw [hdd] at h; simp at h; exact h.1.symm
      | cons hd0 tl => rw [hdd] at h; simp at h; exact h.1.symm
  · intro data i a r h
    rcases fw_string_step_inv h with hl | ⟨cand, pkg, payload, spkg, h1, h2, h3, h4, h5, h6, lang, hrs⟩
    · exact Or.inl hl
    · exact Or.inr ⟨cand, pkg, payload, spkg, h1, h2, h3, h4, h5, h6, by simp [hrs]⟩
  · intro data i a r h
    rcases fw_form_step_inv h with hl | ⟨cand, pkg, payload, ops, h1, h2, h3, h4, h5, h6, hr⟩
    · exact Or.inl hl
    · refine Or.inr ⟨cand, pkg, payload, ops, h1, h2, h3, h4, h5, h6, ?_⟩
      rcases hr with ⟨hdd, hrn⟩ | ⟨hd0, tl, hdd, hrs⟩
      · simp [hdd, hrn]
      · simp [hdd, hrs]

/-- C2 witness: on the counterexample buffer, the candidate, package, payload
and ID collection all succeed at position 0, so the scan advances by the
candidate length 6. -/
theorem c2_advancement_policy_witness :
    (6 : Nat) = ([0x06, 0x00, 0x00, 0x02, 0x29, 0x02] : List Nat).length :=
  c2_advancement_policy.2.2.2.1 [0x06, 0x00, 0x00, 0x02, 0x29, 0x02] 0
    [0x06, 0x00, 0x00, 0x02, 0x29, 0x02] ⟨6, 2, some [0x29, 0x02]⟩ [0x29, 0x02]
    (by decide) (by decide) (by decide) 6 none (by decide)

/-- Inversion of a successful UEFI locator run: either the empty pair, or the
two scans' own results. -/
theorem uefi_find_ok_inv {data : List Nat} {ss : List StringPackage}
    {fs : List FormPackage}
    (h : uefi_find_string_and_form_packages data = RRes.ok (ss, fs)) :
    (ss = [] ∧ fs = []) ∨
    (uefi_string_scan_aux data (data.length + 1) 0 = RRes.ok ss ∧
     uefi_form_scan_aux data (data.length + 1) 0 = RRes.ok fs) := by
  unfold uefi_find_string_and_form_packages at h
  cases hs : uefi_string_scan_aux data (data.length + 1) 0 with
  | crash => rw [hs] at h; cases h
  | fuelOut => rw [hs] at h; cases h
  | ok strings =>
    rw [hs] at h; dsimp only at h
    by_cases hse : strings.isEmpty
    · rw [if_pos hse] at h
      cases h
      exact Or.inl ⟨rfl, rfl⟩
    · rw [if_neg hse] at h
      cases hf : uefi_form_scan_aux data (data.length + 1) 0 with
      | crash => rw [hf] at h; cases h
      | fuelOut => rw [hf] at h; cases h
      | ok forms =>
        rw [hf] at h; dsimp only at h
        by_cases hfe : forms.isEmpty
        · rw [if_pos hfe] at h
          cases h
          exact Or.inl ⟨rfl, rfl⟩
        · rw [if_neg hfe] at h
          cases h
          exact Or.inr ⟨rfl, rfl⟩

/-- Inversion of a successful Framework locator run. -/
theorem fw_find_ok_inv {data : List Nat} {ss : List StringPackage}
    {fs : List FormPackage}
    (h : framework_find_string_and_form_packages data = RRes.ok (ss, fs)) :
    (ss = [] ∧ fs = []) ∨
    (fw_string_scan_aux data (data.length + 1) 0 = RRes.ok ss ∧
     fw_form_scan_aux data (data.length + 1) 0 = RRes.ok fs) := by
  unfold framework_find_string_and_form_packages at h
  cases hs : fw_string_scan_aux data (data.length + 1) 0 with
  | crash => rw [hs] at h; cases h
  | fuelOut => rw [hs] at h; cases h
  | ok strings =>
    rw [hs] at h; dsimp only at h
    by_cases hse : strings.isEmpty
    · rw [if_pos hse] at h
      cases h
      exact Or.inl ⟨rfl, rfl⟩
    · rw [if_neg hse] at h
      cases hf : fw_form_scan_aux data (data.length + 1) 0 with
      | crash => rw [hf] at h; cases h
      | fuelOut => rw [hf] at h; cases h
      | ok forms =>
        rw [hf] at h; dsimp only at h
        by_cases hfe : forms.isEmpty
        · rw [if_pos hfe] at h
          cases h
          exact Or.inl ⟨rfl, rfl⟩
        · rw [if_neg hfe] at h
          cases h
          exact Or.inr ⟨rfl, rfl⟩

/-- C6: every form-package descriptor either locator returns records exactly
the size, minimum and maximum of the sorted and deduplicated ID set collected
by re-walking the package's opcode stream at its offset; hence the minimum is
at most the maximum and at least one string is used. -/
theorem c6_form_descriptor_stats :
    (∀ (data : List Nat) ss fs fp,
       uefi_find_string_and_form_packages data = RRes.ok (ss, fs) → fp ∈ fs →
       ∃ ids l, uefi_form_package_ids data fp.offset = some ids ∧
         dedupAdj (sortIds ids) = l ∧ l ≠ [] ∧
         fp.used_strings = l.length ∧
         fp.min_string_id = l.head! ∧
         fp.max_string_id = lastD l 0 ∧
         fp.min_string_id ≤ fp.max_string_id ∧ 1 ≤ fp.used_strings) ∧
    (∀ (data : List Nat) ss fs fp,
       framework_find_string_and_form_packages data = RRes.ok (ss, fs) → fp ∈ fs →
       ∃ ids l, fw_form_package_ids data fp.offset = some ids ∧
         dedupAdj (sortIds ids) = l ∧ l ≠ [] ∧
         fp.used_strings = l.length ∧
         fp.min_string_id = l.head! ∧
         fp.max_string_id = lastD l 0 ∧
         fp.min_string_id ≤ fp.max_string_id ∧ 1 ≤ fp.used_strings) := by
  constructor
  · intro data ss fs fp h hm
    rcases uefi_find_ok_inv h with ⟨_, hfe⟩ | ⟨_, hf⟩
    · subst hfe; simp at hm
    · refine scan_loop_ok_rec (uefi_form_scan_step data) data.length
        (fun q => ∃ ids l, uefi_form_package_ids data q.offset = some ids ∧
           dedupAdj (sortIds ids) = l ∧ l ≠ [] ∧
           q.used_strings = l.length ∧ q.min_string_id = l.head! ∧
           q.max_string_id = lastD l 0 ∧ q.min_string_id ≤ q.max_string_id ∧
           1 ≤ q.used_strings) ?_
        (data.length + 1) 0 fs hf fp hm
      intro i a p hstep
      rcases uefi_form_step_inv hstep with ⟨_, hr⟩ | ⟨cand, pkg, payload, ids, h1, h2, h3, h4, _, _, hr⟩
      · cases hr
      · rcases hr with ⟨_, hr⟩ | ⟨hd0, tl, hdd, hr⟩
        · cases hr
        · cases Option.some.inj hr
          have hids : uefi_form_package_ids data i = some ids := by
            unfold uefi_form_package_ids
            rw [h1]
            dsimp only
            rw [h2]
            dsimp only
            rw [h3]
            dsimp only
            exact h4
          have hsorted : List.Sorted (· ≤ ·) (hd0 :: tl) := by
            rw [← hdd]
            exact dedupAdj_sorted (sortIds_sorted ids)
          refine ⟨ids, hd0 :: tl, hids, hdd, by simp, rfl, by simp, rfl,
                  sorted_head_le_lastD hd0 tl hsorted, by simp⟩
  · intro data ss fs fp h hm
    rcases fw_find_ok_inv h with ⟨_, hfe⟩ | ⟨_, hf⟩
    · subst hfe; simp at hm
    · refine scan_loop_ok_rec (fun i => some (fw_form_scan_step data i)) data.length
        (fun q => ∃ ids l, fw_form_package_ids data q.offset = some ids ∧
           dedupAdj (sortIds ids) = l ∧ l ≠ [] ∧
           q.used_strings = l.length ∧ q.min_string_id = l.head! ∧
           q.max_string_id = lastD l 0 ∧ q.min_string_id ≤ q.max_string_id ∧
           1 ≤ q.used_strings) ?_
        (data.length + 1) 0 fs hf fp hm
      intro i a p hstep
      have hstep' : fw_form_scan_step data i = (a, some p) := by
        simpa using hstep
      rcases fw_form_step_inv hstep' with ⟨_, hr⟩ | ⟨cand, pkg, payload, ops, h1, h2, h3, h4, _, _, hr⟩
      · cases hr
      · rcases hr with ⟨_, hr⟩ | ⟨hd0, tl, hdd, hr⟩
        · cases hr
        · cases Option.some.inj hr
          have hids : fw_form_package_ids data i = some (fw_collect_ids ops) := by
            unfold fw_form_package_ids
            rw [h1]
            dsimp only
            rw [h2]
            dsimp only
            rw [h3]
            dsimp only
            rw [h4]
          have hsorted : List.Sorted (· ≤ ·) (hd0 :: tl) := by
            rw [← hdd]
            exact dedupAdj_sorted (sortIds_sorted (fw_collect_ids ops))
          refine ⟨fw_collect_ids ops, hd0 :: tl, hids, hdd, by simp, rfl, by simp, rfl,
                  sorted_head_le_lastD hd0 tl hsorted, by simp⟩

/-- C6 witness: the form descriptor of the sample buffer records exactly the
statistics of its re-walked ID set. -/
theorem c6_form_descriptor_stats_witness :
    ∃ ids l, uefi_form_package_ids uefiSample 49 = some ids ∧
      dedupAdj (sortIds ids) = l ∧ l ≠ [] ∧
      (1 : Nat) = l.length ∧ (5 : Nat) = l.head! ∧ (5 : Nat) = lastD l 0 ∧
      (5 : Nat) ≤ (5 : Nat) ∧ (1 : Nat) ≤ (1 : Nat) :=
  c6_form_descriptor_stats.1 uefiSample [⟨0, 49, "en", [(0, "")]⟩]
    [⟨49, 10, 1, 5, 5⟩] ⟨49, 10, 1, 5, 5⟩ (by decide) (by decide)

/-- For a tag outside the Framework opcode set, the formatter prints the
literal name `Unknown`. -/
theorem fwOpName_unknown {t : Nat} (ht : fwTagUnknown t = true) :
    fwOpName t = "Unknown" := by
  have hb : t = 0 ∨ (0x2B < t ∧ t < 0xFE) := by
    simpa [fwTagUnknown, Bool.or_eq_true, Bool.and_eq_true,
           decide_eq_true_eq] using ht
  have hne01 : ¬t = 0x01 := by omega
  have hne02 : ¬t = 0x02 := by omega
  have hne03 : ¬t = 0x03 := by omega
  have hne04 : ¬t = 0x04 := by omega
  have hne05 : ¬t = 0x05 := by omega
  have hne06 : ¬t = 0x06 := by omega
  have hne07 : ¬t = 0x07 := by omega
  have hne08 : ¬t = 0x08 := by omega
  have hne09 : ¬t = 0x09 := by omega
  have hne0A : ¬t = 0x0A := by omega
  have hne0B : ¬t = 0x0B := by omega
  have hne0C : ¬t = 0x0C := by omega
  have hne0D : ¬t = 0x0D := by omega
  have hne0E : ¬t = 0x0E := by omega
  have hne0F : ¬t = 0x0F := by omega
  have hne10 : ¬t = 0x10 := by omega
  have hne11 : ¬t = 0x11 := by omega
  have hne12 : ¬t = 0x12 := by omega
  have hne13 : ¬t = 0x13 := by omega
  have hne14 : ¬t = 0x14 := by omega
  have hne15 : ¬t = 0x15 := by omega
  have hne16 : ¬t = 0x16 := by omega
  have hne17 : ¬t = 0x17 := by omega
  have hne18 : ¬t = 0x18 := by omega
  have hne19 : ¬t = 0x19 := by omega
  have hne1A : ¬t = 0x1A := by omega
  have hne1B : ¬t = 0x1B := by omega
  have hne1C : ¬t = 0x1C := by omega
  have hne1D : ¬t = 0x1D := by omega
  have hne1E : ¬t = 0x1E := by omega
  have hne1F : ¬t = 0x1F := by omega
  have hne20 : ¬t = 0x20 := by omega
  have hne21 : ¬t = 0x21 := by omega
  have hne22 : ¬t = 0x22 := by omega
  have hne23 : ¬t = 0x23 := by omega
  have hne24 : ¬t = 0x24 := by omega
  have hne25 : ¬t = 0x25 := by omega
  have hne26 : ¬t = 0x26 := by omega
  have hne27 : ¬t = 0x27 := by omega
  have hne28 : ¬t = 0x28 := by omega
  have hne29 : ¬t = 0x29 := by omega
  have hne2A : ¬t = 0x2A := by omega
  have hne2B : ¬t = 0x2B := by omega
  have hneFE : ¬t = 0xFE := by omega
  have hneFF : ¬t = 0xFF := by omega
  unfold fwOpName
  rw [if_neg hne01,
      if_neg hne02,
      if_neg hne03,
      if_neg hne04,
      if_neg hne05,
      if_neg hne06,
      if_neg hne07,
      if_neg hne08,
      if_neg hne09,
      if_neg hne0A,
      if_neg hne0B,
      if_neg hne0C,
      if_neg hne0D,
      if_neg hne0E,
      if_neg hne0F,
      if_neg hne10,
      if_neg hne11,
      if_neg hne12,
      if_neg hne13,
      if_neg hne14,
      if_neg hne15,
      if_neg hne16,
      if_neg hne17,
      if_neg hne18,
      if_neg hne19,
      if_neg hne1A,
      if_neg hne1B,
      if_neg hne1C,
      if_neg hne1D,
      if_neg hne1E,
      if_neg hne1F,
      if_neg hne20,
      if_neg hne21,
      if_neg hne22,
      if_neg hne23,
      if_neg hne24,
      if_neg hne25,
      if_neg hne26,
      if_neg hne27,
      if_neg hne28,
      if_neg hne29,
      if_neg hne2A,
      if_neg hne2B,
      if_neg hneFE,
      if_neg hneFF]

/-- For a tag outside `[0x01, 0x64]`, the UEFI formatter prints the literal
name `Unknown`. -/
theorem uefiOpName_unknown {t : Nat} (ht : uefiTagUnknown t = true) :
    uefiOpName t = "Unknown" := by
  have hb : t = 0 ∨ 0x64 < t := by
    simpa [uefiTagUnknown, Bool.or_eq_true, decide_eq_true_eq] using ht
  have une01 : ¬t = 0x01 := by omega
  have une02 : ¬t = 0x02 := by omega
  have une03 : ¬t = 0x03 := by omega
  have une04 : ¬t = 0x04 := by omega
  have une05 : ¬t = 0x05 := by omega
  have une06 : ¬t = 0x06 := by omega
  have une07 : ¬t = 0x07 := by omega
  have une08 : ¬t = 0x08 := by omega
  have une09 : ¬t = 0x09 := by omega
  have une0A : ¬t = 0x0A := by omega
  have une0B : ¬t = 0x0B := by omega
  have une0C : ¬t = 0x0C := by omega
  have une0D : ¬t = 0x0D := by omega
  have une0E : ¬t = 0x0E := by omega
  have une0F : ¬t = 0x0F := by omega
  have une10 : ¬t = 0x10 := by omega
  have une11 : ¬t = 0x11 := by omega
  have une12 : ¬t = 0x12 := by omega
  have une13 : ¬t = 0x13 := by omega
  have une14 : ¬t = 0x14 := by omega
  have une15 : ¬t = 0x15 := by omega
  have une16 : ¬t = 0x16 := by omega
  have une17 : ¬t = 0x17 := by omega
  have une18 : ¬t = 0x18 := by omega
  have une19 : ¬t = 0x19 := by omega
  have une1A : ¬t = 0x1A := by omega
  have une1B : ¬t = 0x1B := by omega
  have une1C : ¬t = 0x1C := by omega
  have une1D : ¬t = 0x1D := by omega
  have une1E : ¬t = 0x1E := by omega
  have une1F : ¬t = 0x1F := by omega
  have une20 : ¬t = 0x20 := by omega
  have une21 : ¬t = 0x21 := by omega
  have une22 : ¬t = 0x22 := by omega
  have une23 : ¬t = 0x23 := by omega
  have une24 : ¬t = 0x24 := by omega
  have une25 : ¬t = 0x25 := by omega
  have une26 : ¬t = 0x26 := by omega
  have une27 : ¬t = 0x27 := by omega
  have une28 : ¬t = 0x28 := by omega
  have une29 : ¬t = 0x29 := by omega
  have une2A : ¬t = 0x2A := by omega
  have une2B : ¬t = 0x2B := by omega
  have une2C : ¬t = 0x2C := by omega
  have une2D : ¬t = 0x2D := by omega
  have une2E : ¬t = 0x2E := by omega
  have une2F : ¬t = 0x2F := by omega
  have une30 : ¬t = 0x30 := by omega
  have une31 : ¬t = 0x31 := by omega
  have une32 : ¬t = 0x32 := by omega
  have une33 : ¬t = 0x33 := by omega
  have une34 : ¬t = 0x34 := by omega
  have une35 : ¬t = 0x35 := by omega
  have une36 : ¬t = 0x36 := by omega
  have une37 : ¬t = 0x37 := by omega
  have une38 : ¬t = 0x38 := by omega
  have une39 : ¬t = 0x39 := by omega
  have une3A : ¬t = 0x3A := by omega
  have une3B : ¬t = 0x3B := by omega
  have une3C : ¬t = 0x3C := by omega
  have une3D : ¬t = 0x3D := by omega
  have une3E : ¬t = 0x3E := by omega
  have une3F : ¬t = 0x3F := by omega
  have une40 : ¬t = 0x40 := by omega
  have une41 : ¬t = 0x41 := by omega
  have une42 : ¬t = 0x42 := by omega
  have une43 : ¬t = 0x43 := by omega
  have une44 : ¬t = 0x44 := by omega
  have une45 : ¬t = 0x45 := by omega
  have une46 : ¬t = 0x46 := by omega
  have une47 : ¬t = 0x47 := by omega
  have une48 : ¬t = 0x48 := by omega
  have une49 : ¬t = 0x49 := by omega
  have une4A : ¬t = 0x4A := by omega
  have une4B : ¬t = 0x4B := by omega
  have une4C : ¬t = 0x4C := by omega
  have une4D : ¬t = 0x4D := by omega
  have une4E : ¬t = 0x4E := by omega
  have une4F : ¬t = 0x4F := by omega
  have une50 : ¬t = 0x50 := by omega
  have une51 : ¬t = 0x51 := by omega
  have une52 : ¬t = 0x52 := by omega
  have une53 : ¬t = 0x53 := by omega
  have une54 : ¬t = 0x54 := by omega
  have une55 : ¬t = 0x55 := by omega
  have une56 : ¬t = 0x56 := by omega
  have une57 : ¬t = 0x57 := by omega
  have une58 : ¬t = 0x58 := by omega
  have une59 : ¬t = 0x59 := by omega
  have une5A : ¬t = 0x5A := by omega
  have une5B : ¬t = 0x5B := by omega
  have une5C : ¬t = 0x5C := by omega
  have une5D : ¬t = 0x5D := by omega
  have une5E : ¬t = 0x5E := by omega
  have une5F : ¬t = 0x5F := by omega
  have une60 : ¬t = 0x60 := by omega
  have une61 : ¬t = 0x61 := by omega
  have une62 : ¬t = 0x62 := by omega
  have une63 : ¬t = 0x63 := by omega
  have une64 : ¬t = 0x64 := by omega
  unfold uefiOpName
  rw [if_neg une01,
      if_neg une02,
      if_neg une03,
      if_neg une04,
      if_neg une05,
      if_neg une06,
      if_neg une07,
      if_neg une08,
      if_neg une09,
      if_neg une0A,
      if_neg une0B,
      if_neg une0C,
      if_neg une0D,
      if_neg une0E,
      if_neg une0F,
      if_neg une10,
      if_neg une11,
      if_neg une12,
      if_neg une13,
      if_neg une14,
      if_neg une15,
      if_neg une16,
      if_neg une17,
      if_neg une18,
      if_neg une19,
      if_neg une1A,
      if_neg une1B,
      if_neg une1C,
      if_neg une1D,
      if_neg une1E,
      if_neg une1F,
      if_neg une20,
      if_neg une21,
      if_neg une22,
      if_neg une23,
      if_neg une24,
      if_neg une25,
      if_neg une26,
      if_neg une27,
      if_neg une28,
      if_neg une29,
      if_neg une2A,
      if_neg une2B,
      if_neg une2C,
      if_neg une2D,
      if_neg une2E,
      if_neg une2F,
      if_neg une30,
      if_neg une31,
      if_neg une32,
      if_neg une33,
      if_neg une34,
      if_neg une35,
      if_neg une36,
      if_neg une37,
      if_neg une38,
      if_neg une39,
      if_neg une3A,
      if_neg une3B,
      if_neg une3C,
      if_neg une3D,
      if_neg une3E,
      if_neg une3F,
      if_neg une40,
      if_neg une41,
      if_neg une42,
      if_neg une43,
      if_neg une44,
      if_neg une45,
      if_neg une46,
      if_neg une47,
      if_neg une48,
      if_neg une49,
      if_neg une4A,
      if_neg une4B,
      if_neg une4C,
      if_neg une4D,
      if_neg une4E,
      if_neg une4F,
      if_neg une50,
      if_neg une51,
      if_neg une52,
      if_neg une53,
      if_neg une54,
      if_neg une55,
      if_neg une56,
      if_neg une57,
      if_neg une58,
      if_neg une59,
      if_neg une5A,
      if_neg une5B,
      if_neg une5C,
      if_neg une5D,
      if_neg une5E,
      if_neg une5F,
      if_neg une60,
      if_neg une61,
      if_neg une62,
      if_neg une63,
      if_neg une64]

/-- For an unknown Framework tag the payload formatter emits `RawData:` and
the hex bytes, with no scope change. -/
theorem fw_unknown_payload (m : List (Nat × String)) {t : Nat} (d : List Nat)
    (ht : fwTagUnknown t = true) :
    fw_op_payload_text m t d = ("RawData: " ++ bytesDebug d, 0) := by
  have hb : t = 0 ∨ (0x2B < t ∧ t < 0xFE) := by
    simpa [fwTagUnknown, Bool.or_eq_true, Bool.and_eq_true,
           decide_eq_true_eq] using ht
  have pne01 : ¬t = 0x01 := by omega
  have pne02 : ¬t = 0x02 := by omega
  have pne03 : ¬t = 0x03 := by omega
  have pne05 : ¬t = 0x05 := by omega
  have pne06 : ¬t = 0x06 := by omega
  have pne07 : ¬t = 0x07 := by omega
  have pne08 : ¬t = 0x08 := by omega
  have pne09 : ¬t = 0x09 := by omega
  have pne0A : ¬t = 0x0A := by omega
  have pne0C : ¬t = 0x0C := by omega
  have pne0E : ¬t = 0x0E := by omega
  have pne0F : ¬t = 0x0F := by omega
  have pne11 : ¬t = 0x11 := by omega
  have pne12 : ¬t = 0x12 := by omega
  have pne13 : ¬t = 0x13 := by omega
  have pne14 : ¬t = 0x14 := by omega
  have pne19 : ¬t = 0x19 := by omega
  have pne1A : ¬t = 0x1A := by omega
  have pne1B : ¬t = 0x1B := by omega
  have pne1C : ¬t = 0x1C := by omega
  have pne1D : ¬t = 0x1D := by omega
  have pne1E : ¬t = 0x1E := by omega
  have pne1F : ¬t = 0x1F := by omega
  have pne20 : ¬t = 0x20 := by omega
  have pne21 : ¬t = 0x21 := by omega
  have pne22 : ¬t = 0x22 := by omega
  have pne23 : ¬t = 0x23 := by omega
  have pne24 : ¬t = 0x24 := by omega
  have pne25 : ¬t = 0x25 := by omega
  have pne26 : ¬t = 0x26 := by omega
  unfold fw_op_payload_text
  rw [if_neg pne01,
      if_neg pne02,
      if_neg pne03,
      if_neg pne05,
      if_neg pne06,
      if_neg pne07,
      if_neg pne08,
      if_neg pne09,
      if_neg pne0A,
      if_neg pne0C,
      if_neg pne0E,
      if_neg pne0F,
      if_neg pne11,
      if_neg pne12,
      if_neg pne13,
      if_neg pne14,
      if_neg pne19,
      if_neg pne1A,
      if_neg pne1B,
      if_neg pne1C,
      if_neg pne1D,
      if_neg pne1E,
      if_neg pne1F,
      if_neg pne20,
      if_neg pne21,
      if_neg pne22,
      if_neg pne23,
      if_neg pne24,
      if_neg pne25,
      if_neg pne26, if_pos ht]

/-- For an unknown UEFI tag the (stubbed) payload dispatch of the UEFI
formatter emits nothing. -/
theorem uefi_unknown_payload (m : List (Nat × String)) {t : Nat} (d : List Nat)
    (ht : uefiTagUnknown t = true) :
    uefi_op_payload_text m t d = "" := by
  have hb : t = 0 ∨ 0x64 < t := by
    simpa [uefiTagUnknown, Bool.or_eq_true, decide_eq_true_eq] using ht
  have qne01 : ¬t = 0x01 := by omega
  have qne02 : ¬t = 0x02 := by omega
  have qne03 : ¬t = 0x03 := by omega
  have qne04 : ¬t = 0x04 := by omega
  have qne05 : ¬t = 0x05 := by omega
  have qne06 : ¬t = 0x06 := by omega
  unfold uefi_op_payload_text
  rw [if_neg qne01, if_neg qne02, if_neg qne03, if_neg qne04, if_neg qne05, if_neg qne06]

/-- C3 counterexample: for the spec's S6 input (unknown opcode 0x7F, payload
`AA BB`) the UEFI extractor's opcode line is `Unknown ` with no `RawData:` —
the UEFI payload dispatch of `lib.rs` (1439–1440) is a `_ => {}` stub. -/
theorem c3_counterexample_uefi_unknown_line :
    uefi_ifr_extract_to_string [0x08, 0x00, 0x00, 0x02, 0x7F, 0x04, 0xAA, 0xBB]
      ⟨0, 8, 1, 1, 1⟩ ⟨0, 0, "", []⟩ false = some (uefi_preamble ++ "Unknown \n") ∧
    uefi_preamble ++ "Unknown \n" ≠ uefi_preamble ++ "Unknown RawData: [AA, BB]\n" :=
  ⟨by decide, by decide⟩

/-- C3 (amended): a Framework opcode with an unknown tag and payload `d`
produces the line `Unknown RawData: <hex d>`, but a UEFI opcode with an
unknown tag produces only `Unknown ` (its payload dispatch is stubbed); on
the S6 bytes the Framework extractor emits exactly
`Unknown RawData: [AA, BB]`. -/
theorem c3_unknown_opcode_lines :
    (∀ m (verbose : Bool) depth offset (op : FwIfrOperation) d,
       fwTagUnknown op.OpCode = true → op.Data = some d →
       (fw_op_segment m verbose depth offset op).1 =
         (if verbose then "0x" ++ hexUpper offset ++ ": " else "") ++
           indentStr depth ++ "Unknown" ++ " " ++
           ("RawData: " ++ bytesDebug d) ++ "\n") ∧
    (∀ m (verbose : Bool) depth offset (op : IfrOperation) d,
       uefiTagUnknown op.OpCode = true → op.Data = some d →
       (uefi_op_segment m verbose depth offset op).1 =
         (if verbose then "0x" ++ hexUpper offset ++ ": " else "") ++
           indentStr depth ++ "Unknown" ++ " " ++ "" ++ "\n") ∧
    framework_ifr_extract_to_string [0x09, 0, 0, 0, 0x03, 0x7F, 0x04, 0xAA, 0xBB]
      ⟨0, 9, 1, 1, 1⟩ ⟨0, 0, "", []⟩ false =
      some (fw_preamble ++ "Unknown RawData: [AA, BB]\n") := by
  refine ⟨?_, ?_, by decide⟩
  · intro m verbose depth offset op d ht hd
    have hb : op.OpCode = 0 ∨ (0x2B < op.OpCode ∧ op.OpCode < 0xFE) := by
      simpa [fwTagUnknown, Bool.or_eq_true, Bool.and_eq_true,
             decide_eq_true_eq] using ht
    have hnot : ¬(op.OpCode = fwEndFormSetTag ∨ op.OpCode = fwEndFormTag) := by
      simp only [fwEndFormSetTag, fwEndFormTag]
      push_neg
      omega
    unfold fw_op_segment
    rw [hd]
    dsimp only
    rw [fw_unknown_payload m d ht, fwOpName_unknown ht, if_neg hnot]
  · intro m verbose depth offset op d ht hd
    have hb : op.OpCode = 0 ∨ 0x64 < op.OpCode := by
      simpa [uefiTagUnknown, Bool.or_eq_true, decide_eq_true_eq] using ht
    have hnot : ¬(op.OpCode = 0x29 ∧ 0 < depth) := by
      simp only [not_and]
      omega
    unfold uefi_op_segment
    rw [hd]
    dsimp only
    rw [uefi_unknown_payload m d ht, uefiOpName_unknown ht, if_neg hnot]

/-- C3 witness: instantiating the amended characterization on the S6 opcode
`0x7F` with payload `AA BB` in both dialects. -/
theorem c3_unknown_opcode_lines_witness :
    (fw_op_segment [] false 0 0 ⟨0x7F, 4, some [0xAA, 0xBB]⟩).1 =
      "" ++ indentStr 0 ++ "Unknown" ++ " " ++
        ("RawData: " ++ bytesDebug [0xAA, 0xBB]) ++ "\n" ∧
    (uefi_op_segment [] false 0 0 ⟨0x7F, 4, false, some [0xAA, 0xBB]⟩).1 =
      "" ++ indentStr 0 ++ "Unknown" ++ " " ++ "" ++ "\n" :=
  ⟨c3_unknown_opcode_lines.1 [] false 0 0 ⟨0x7F, 4, some [0xAA, 0xBB]⟩
     [0xAA, 0xBB] (by decide) rfl,
   c3_unknown_opcode_lines.2.1 [] false 0 0 ⟨0x7F, 4, false, some [0xAA, 0xBB]⟩
     [0xAA, 0xBB] (by decide) rfl⟩

set_option maxHeartbeats 1000000 in
/-- The scope increment the Framework payload dispatch performs: 1 exactly for
a `Form` or `FormSet` opcode whose payload parses, 0 otherwise. -/
theorem fw_payload_scope_inc (m : List (Nat × String)) (t : Nat) (d : List Nat) :
    (fw_op_payload_text m t d).2 =
      if (t = 0x01 ∧ (fw_ifr_form d).isSome) ∨ (t = 0x0E ∧ (fw_ifr_form_set d).isSome)
      then 1 else 0 := by
  by_cases h1 : t = 0x01
  · subst h1
    cases hp : fw_ifr_form d with
    | none =>
      rw [if_neg (by simp)]
      unfold fw_op_payload_text
      rw [if_pos rfl, hp]
    | some f =>
      rw [if_pos (by simp)]
      unfold fw_op_payload_text
      rw [if_pos rfl, hp]
  · by_cases h14 : t = 0x0E
    · subst h14
      cases hp : fw_ifr_form_set d with
      | none =>
        rw [if_neg (by simp)]
        unfold fw_op_payload_text
        rw [if_neg (by norm_num), if_neg (by norm_num), if_neg (by norm_num),
            if_neg (by norm_num), if_neg (by norm_num), if_neg (by norm_num),
            if_neg (by norm_num), if_neg (by norm_num), if_neg (by norm_num),
            if_neg (by norm_num), if_pos rfl, hp]
      | some f =>
        rw [if_pos (by simp)]
        unfold fw_op_payload_text
        rw [if_neg (by norm_num), if_neg (by norm_num), if_neg (by norm_num),
            if_neg (by norm_num), if_neg (by norm_num), if_neg (by norm_num),
            if_neg (by norm_num), if_neg (by norm_num), if_neg (by norm_num),
            if_neg (by norm_num), if_pos rfl, hp]
    · rw [if_neg (fun hor => hor.elim (fun hc => h1 hc.1) (fun hc => h14 hc.1))]
      unfold fw_op_payload_text
      rw [if_neg h1]
      by_cases ht02 : t = 0x02
      · rw [if_pos ht02]
        cases hq : fw_ifr_subtitle d <;> rfl
      rw [if_neg ht02]
      by_cases ht03 : t = 0x03
      · rw [if_pos ht03]
        cases hq : fw_ifr_text d <;> rfl
      rw [if_neg ht03]
      by_cases ht05 : t = 0x05
      · rw [if_pos ht05]
        cases hq : fw_ifr_one_of d <;> rfl
      rw [if_neg ht05]
      by_cases ht06 : t = 0x06
      · rw [if_pos ht06]
        cases hq : fw_ifr_check_box d <;> rfl
      rw [if_neg ht06]
      by_cases ht07 : t = 0x07
      · rw [if_pos ht07]
        cases hq : fw_ifr_numeric d <;> rfl
      rw [if_neg ht07]
      by_cases ht08 : t = 0x08
      · rw [if_pos ht08]
        cases hq : fw_ifr_password d <;> rfl
      rw [if_neg ht08]
      by_cases ht09 : t = 0x09
      · rw [if_pos ht09]
        cases hq : fw_ifr_one_of_option d <;> rfl
      rw [if_neg ht09]
      by_cases ht0A : t = 0x0A
      · rw [if_pos ht0A]
        cases hq : fw_ifr_supress_if d <;> rfl
      rw [if_neg ht0A]
      by_cases ht0C : t = 0x0C
      · rw [if_pos ht0C]
        cases hq : fw_ifr_hidden d <;> rfl
      rw [if_neg ht0C]
      rw [if_neg h14]
      by_cases ht0F : t = 0x0F
      · rw [if_pos ht0F]
        cases hq : fw_ifr_ref d <;> rfl
      rw [if_neg ht0F]
      by_cases ht11 : t = 0x11
      · rw [if_pos ht11]
        cases hq : fw_ifr_inconsistent_if d <;> rfl
      rw [if_neg ht11]
      by_cases ht12 : t = 0x12
      · rw [if_pos ht12]
        cases hq : fw_ifr_eq_id_val d <;> rfl
      rw [if_neg ht12]
      by_cases ht13 : t = 0x13
      · rw [if_pos ht13]
        cases hq : fw_ifr_eq_id_id d <;> rfl
      rw [if_neg ht13]
      by_cases ht14 : t = 0x14
      · rw [if_pos ht14]
        cases hq : fw_ifr_eq_id_list d <;> rfl
      rw [if_neg ht14]
      by_cases ht19 : t = 0x19
      · rw [if_pos ht19]
        cases hq : fw_ifr_grayout_if d <;> rfl
      rw [if_neg ht19]
      by_cases ht1A : t = 0x1A
      · rw [if_pos ht1A]
        cases hq : fw_ifr_date d <;> rfl
      rw [if_neg ht1A]
      by_cases ht1B : t = 0x1B
      · rw [if_pos ht1B]
        cases hq : fw_ifr_time d <;> rfl
      rw [if_neg ht1B]
      by_cases ht1C : t = 0x1C
      · rw [if_pos ht1C]
        cases hq : fw_ifr_string d <;> rfl
      rw [if_neg ht1C]
      by_cases ht1D : t = 0x1D
      · rw [if_pos ht1D]
        cases hq : fw_ifr_label d <;> rfl
      rw [if_neg ht1D]
      by_cases ht1E : t = 0x1E
      · rw [if_pos ht1E]
        cases hq : fw_ifr_save_defaults d <;> rfl
      rw [if_neg ht1E]
      by_cases ht1F : t = 0x1F
      · rw [if_pos ht1F]
        cases hq : fw_ifr_restore_defaults d <;> rfl
      rw [if_neg ht1F]
      by_cases ht20 : t = 0x20
      · rw [if_pos ht20]
        cases hq : fw_ifr_banner d <;> rfl
      rw [if_neg ht20]
      by_cases ht21 : t = 0x21
      · rw [if_pos ht21]
        cases hq : fw_ifr_inventory d <;> rfl
      rw [if_neg ht21]
      by_cases ht22 : t = 0x22
      · rw [if_pos ht22]
        cases hq : fw_ifr_eq_var_val d <;> rfl
      rw [if_neg ht22]
      by_cases ht23 : t = 0x23
      · rw [if_pos ht23]
        cases hq : fw_ifr_ordered_list d <;> rfl
      rw [if_neg ht23]
      by_cases ht24 : t = 0x24
      · rw [if_pos ht24]
        cases hq : fw_ifr_var_store d <;> rfl
      rw [if_neg ht24]
      by_cases ht25 : t = 0x25
      · rw [if_pos ht25]
        cases hq : fw_ifr_var_store_select d <;> rfl
      rw [if_neg ht25]
      by_cases ht26 : t = 0x26
      · rw [if_pos ht26]
        cases hq : fw_ifr_var_store_select_pair d <;> rfl
      rw [if_neg ht26]
      by_cases hu : fwTagUnknown t = true
      · rw [if_pos hu]
      rw [if_neg hu]

/-- C4 counterexample: a Framework `Form` opcode of length 2 (no payload) does
not increment the scope depth — the following `Text` opcode is emitted with no
indentation, against the claim's "unconditionally on opcode identity". -/
theorem c4_counterexample_form_without_payload :
    framework_ifr_extract_to_string [0x09, 0, 0, 0, 0x03, 0x01, 0x02, 0x03, 0x02]
      ⟨0, 9, 1, 1, 1⟩ ⟨0, 0, "", []⟩ false =
      some (fw_preamble ++ ("Form \n" ++ "Text \n")) ∧
    fw_preamble ++ ("Form \n" ++ "Text \n") ≠
      fw_preamble ++ ("Form \n" ++ " Text \n") :=
  ⟨by decide, by decide⟩

/-- C4 (amended): in the Framework formatter the saturating decrement for
`EndFormSet` / `EndForm` precedes emission unconditionally (the line is
indented by the decremented depth), while the increment for `Form` / `FormSet`
happens after emission only when the opcode carries a payload that
`ifr_form` / `ifr_form_set` accepts. -/
theorem c4_scope_depth_tracking (m : List (Nat × String)) (verbose : Bool)
    (depth offset : Nat) (op : FwIfrOperation) :
    (fw_op_segment m verbose depth offset op).2.1 =
      (if fwScopeOpens op then fwPreDepth op depth + 1 else fwPreDepth op depth) ∧
    ∃ rest, (fw_op_segment m verbose depth offset op).1 =
      (if verbose then "0x" ++ hexUpper offset ++ ": " else "") ++
        indentStr (fwPreDepth op depth) ++ rest := by
  constructor
  · cases hD : op.Data with
    | none =>
      simp [fw_op_segment, hD, fwScopeOpens, fwPreDepth]
    | some d =>
      unfold fw_op_segment
      rw [hD]
      dsimp only
      rw [fw_payload_scope_inc]
      by_cases hP : (op.OpCode = 0x01 ∧ (fw_ifr_form d).isSome) ∨
          (op.OpCode = 0x0E ∧ (fw_ifr_form_set d).isSome)
      · rw [if_pos hP]
        have hS : fwScopeOpens op = true := by
          simp only [fwScopeOpens, hD, Bool.or_eq_true, Bool.and_eq_true,
                     beq_iff_eq, fwFormTag, fwFormSetTag]
          exact hP
        rw [hS]
        simp [fwPreDepth]
      · rw [if_neg hP]
        have hS : fwScopeOpens op = false := by
          simp only [fwScopeOpens, hD, fwFormTag, fwFormSetTag]
          rw [Bool.or_eq_false_iff]
          constructor
          · rw [Bool.and_eq_false_iff]
            by_cases h : op.OpCode = 0x01
            · right
              simp only [Bool.not_eq_true, Option.not_isSome,
                         Option.isNone_iff_eq_none]
              cases hq : fw_ifr_form d with
              | none => rfl
              | some f => exact absurd (Or.inl ⟨h, by simp [hq]⟩) hP
            · left
              simpa using h
          · rw [Bool.and_eq_false_iff]
            by_cases h : op.OpCode = 0x0E
            · right
              simp only [Bool.not_eq_true, Option.not_isSome,
                         Option.isNone_iff_eq_none]
              cases hq : fw_ifr_form_set d with
              | none => rfl
              | some f => exact absurd (Or.inr ⟨h, by simp [hq]⟩) hP
            · left
              simpa using h
        rw [hS]
        simp [fwPreDepth]
  · refine ⟨fwOpName op.OpCode ++ (" " ++
      ((match op.Data with
        | none => ("", 0)
        | some d => fw_op_payload_text m op.OpCode d).1 ++ "\n")), ?_⟩
    unfold fw_op_segment
    dsimp only
    rw [show (if op.OpCode = fwEndFormSetTag ∨ op.OpCode = fwEndFormTag
              then depth - 1 else depth) = fwPreDepth op depth from rfl]
    simp [String.append_assoc]

/-- C8: with `verbose` set, the `k`-th opcode segment of either formatter is
prefixed `0x<offset>: ` where the offset is the stream's start plus the sum of
the on-wire lengths of the preceding opcodes — so the first opcode's offset is
the start, and each subsequent offset is the previous plus the previous
opcode's length; and the extractors run the segments from
`form_pkg.offset + 4` (UEFI) respectively `form_pkg.offset + 6` (Framework). -/
theorem c8_verbose_offsets :
    (∀ (m : List (Nat × String)) ops (depth start k : Nat), k < ops.length →
       ∃ rest, (uefi_op_segments m true ops depth start).getD k "" =
         "0x" ++ hexUpper (start + ((ops.take k).map IfrOperation.Length).sum) ++
           ": " ++ rest) ∧
    (∀ (m : List (Nat × String)) ops (depth start k : Nat), k < ops.length →
       ∃ rest, (fw_op_segments m true ops depth start).getD k "" =
         "0x" ++ hexUpper (start + ((ops.take k).map FwIfrOperation.Length).sum) ++
           ": " ++ rest) ∧
    (∀ (data : List Nat) (fp : FormPackage) (sp : StringPackage) cand pkg payload ops,
       fp.offset ≤ data.length →
       uefi_hii_form_package_candidate (data.drop fp.offset) = some cand →
       uefi_hii_package cand = some pkg → pkg.Data = some payload →
       uefi_ifr_operations payload = some ops →
       uefi_ifr_extract_to_string data fp sp true =
         some (uefi_preamble ++ String.join
           (uefi_op_segments sp.string_id_map true ops 0 (fp.offset + 4)))) ∧
    (∀ (data : List Nat) (fp : FormPackage) (sp : StringPackage) cand pkg payload ops,
       fp.offset ≤ data.length →
       fw_hii_form_package_candidate (data.drop fp.offset) = some cand →
       fw_hii_package cand = some pkg → pkg.Data = some payload →
       fw_ifr_operations payload = some ops →
       framework_ifr_extract_to_string data fp sp true =
         some (fw_preamble ++ String.join
           (fw_op_segments sp.string_id_map true ops 0 (fp.offset + 6)))) := by
  refine ⟨?_, ?_, ?_, ?_⟩
  · intro m ops
    induction ops with
    | nil => intro depth start k hk; simp at hk
    | cons op t ih =>
      intro depth start k hk
      cases k with
      | zero =>
        refine ⟨indentStr (if op.OpCode = 0x29 ∧ 0 < depth then depth - 1 else depth) ++
          (uefiOpName op.OpCode ++ (" " ++
            ((match op.Data with
              | none => ""
              | some d => uefi_op_payload_text m op.OpCode d) ++ "\n"))), ?_⟩
        simp [uefi_op_segments, uefi_op_segment, String.append_assoc]
      | succ k' =>
        simp only [uefi_op_segments, List.getD_cons_succ]
        have hk' : k' < t.length := by simpa using hk
        obtain ⟨rest, hrest⟩ := ih
          (uefi_op_segment m true depth start op).2.1
          (uefi_op_segment m true depth start op).2.2 k' hk'
        refine ⟨rest, ?_⟩
        rw [hrest]
        have hoff : (uefi_op_segment m true depth start op).2.2 = start + op.Length := rfl
        rw [hoff]
        have : start + op.Length + ((t.take k').map IfrOperation.Length).sum =
            start + (((op :: t).take (k' + 1)).map IfrOperation.Length).sum := by
          simp [List.take_succ_cons, Nat.add_assoc]
        rw [this]
  · intro m ops
    induction ops with
    | nil => intro depth start k hk; simp at hk
    | cons op t ih =>
      intro depth start k hk
      cases k with
      | zero =>
        refine ⟨indentStr (fwPreDepth op depth) ++
          (fwOpName op.OpCode ++ (" " ++
            ((match op.Data with
              | none => ("", 0)
              | some d => fw_op_payload_text m op.OpCode d).1 ++ "\n"))), ?_⟩
        simp [fw_op_segments, fw_op_segment, String.append_assoc, fwPreDepth]
      | succ k' =>
        simp only [fw_op_segments, List.getD_cons_succ]
        have hk' : k' < t.length := by simpa using hk
        obtain ⟨rest, hrest⟩ := ih
          (fw_op_segment m true depth start op).2.1
          (fw_op_segment m true depth start op).2.2 k' hk'
        refine ⟨rest, ?_⟩
        rw [hrest]
        have hoff : (fw_op_segment m true depth start op).2.2 = start + op.Length := rfl
        rw [hoff]
        have : start + op.Length + ((t.take k').map FwIfrOperation.Length).sum =
            start + (((op :: t).take (k' + 1)).map FwIfrOperation.Length).sum := by
          simp [List.take_succ_cons, Nat.add_assoc]
        rw [this]
  · intro data fp sp cand pkg payload ops hle hc hp hd hops
    unfold uefi_ifr_extract_to_string
    rw [if_neg (by omega)]
    rw [hc]
    dsimp only
    rw [hp]
    dsimp only
    rw [hd]
    dsimp only
    rw [hops]
  · intro data fp sp cand pkg payload ops hle hc hp hd hops
    unfold framework_ifr_extract_to_string
    rw [if_neg (by omega)]
    rw [hc]
    dsimp only
    rw [hp]
    dsimp only
    rw [hd]
    dsimp only
    rw [hops]

/-- C8 witness: on an eight-byte UEFI form package the verbose extraction is
the preamble plus the segments started at offset `0 + 4`, and the first
segment is prefixed `0x4: `. -/
theorem c8_verbose_offsets_witness :
    uefi_ifr_extract_to_string [0x08, 0x00, 0x00, 0x02, 0x7F, 0x04, 0xAA, 0xBB]
      ⟨0, 8, 1, 1, 1⟩ ⟨0, 0, "", []⟩ true =
      some (uefi_preamble ++ String.join
        (uefi_op_segments [] true [⟨0x7F, 4, false, some [0xAA, 0xBB]⟩] 0 (0 + 4))) ∧
    ∃ rest, (uefi_op_segments [] true [⟨0x7F, 4, false, some [0xAA, 0xBB]⟩] 0 4).getD 0 "" =
      "0x" ++ hexUpper (4 + (([] : List Nat).map id).sum) ++ ": " ++ rest :=
  ⟨c8_verbose_offsets.2.2.1 [0x08, 0x00, 0x00, 0x02, 0x7F, 0x04, 0xAA, 0xBB]
     ⟨0, 8, 1, 1, 1⟩ ⟨0, 0, "", []⟩ [0x08, 0x00, 0x00, 0x02, 0x7F, 0x04, 0xAA, 0xBB]
     ⟨8, 2, some [0x7F, 0x04, 0xAA, 0xBB]⟩ [0x7F, 0x04, 0xAA, 0xBB]
     [⟨0x7F, 4, false, some [0xAA, 0xBB]⟩]
     (by decide) (by decide) (by decide) (by decide) (by decide),
   c8_verbose_offsets.1 [] [⟨0x7F, 4, false, some [0xAA, 0xBB]⟩] 0 4 0 (by decide)⟩

/-- Bytes before the NUL contain no NUL. -/
theorem takeNul_no_zero :
    ∀ {l body rest : List Nat}, takeNul l = some (body, rest) → 0 ∉ body := by
  intro l
  induction l with
  | nil => intro body rest h; cases h
  | cons b t ih =>
    intro body rest h
    unfold takeNul at h
    by_cases hb : b = 0
    · rw [if_pos hb] at h
      cases h
      simp
    · rw [if_neg hb] at h
      cases ht : takeNul t with
      | none => rw [ht] at h; cases h
      | some pr =>
        rw [ht] at h
        simp only [Option.map_some', Option.some.injEq] at h
        cases h
        simp only [List.mem_cons]
        rintro (h0 | h0)
        · exact hb h0.symm
        · exact ih ht h0
    
/-- Parsing a NUL-terminated slice made of clean bytes recovers them exactly. -/
theorem takeNul_exact :
    ∀ (body : List Nat), 0 ∉ body → takeNul (body ++ [0]) = some (body, []) := by
  intro body
  induction body with
  | nil => intro _; rfl
  | cons b t ih =>
    intro hnz
    have hb : b ≠ 0 := by
      intro hb0
      exact hnz (by simp [hb0])
    have ht : 0 ∉ t := fun hm => hnz (by simp [hm])
    show takeNul (b :: (t ++ [0])) = _
    unfold takeNul
    rw [if_neg hb, ih ht]
    rfl

/-- UCS-2 units before the terminator are non-zero. -/
theorem takeNul16_no_zero :
    ∀ (l : List Nat) units rest, takeNul16 l = some (units, rest) → 0 ∉ units
  | [], units, rest => by intro h; cases h
  | [b], units, rest => by intro h; cases h
  | b0 :: b1 :: t, units, rest => by
    intro h
    unfold takeNul16 at h
    by_cases hz : b0 = 0 ∧ b1 = 0
    · rw [if_pos hz] at h
      cases h
      simp
    · rw [if_neg hz] at h
      cases ht : takeNul16 t with
      | none => rw [ht] at h; cases h
      | some pr =>
        rw [ht] at h
        simp only [Option.map_some', Option.some.injEq] at h
        cases h
        simp only [List.mem_cons]
        rintro (h0 | h0)
        · rw [not_and_or] at hz
          rcases hz with hz | hz <;> omega
        · exact takeNul16_no_zero t pr.1 pr.2 ht h0

/-- Parsing the little-endian encoding of non-zero units followed by the
16-bit terminator recovers the units exactly. -/
theorem takeNul16_exact :
    ∀ (units : List Nat), 0 ∉ units →
      takeNul16 ((units.flatMap fun u => [u % 256, u / 256]) ++ [0, 0]) =
        some (units, []) := by
  intro units
  induction units with
  | nil => intro _; rfl
  | cons u us ih =>
    intro hnz
    have hu : u ≠ 0 := by
      intro hu0
      exact hnz (by simp [hu0])
    have hus : 0 ∉ us := fun hm => hnz (by simp [hm])
    show takeNul16 (u % 256 :: u / 256 :: ((us.flatMap fun v => [v % 256, v / 256]) ++ [0, 0])) = _
    unfold takeNul16
    rw [if_neg (by omega), ih hus]
    simp only [Option.map_some', Option.some.injEq, Prod.mk.injEq]
    constructor
    · rw [Nat.mod_add_div]
    · trivial

/-- Every block the SIBT framing produces is well-formed. -/
theorem sibt_block_good {input : List Nat} {b : HiiSibtBlock} {rest : List Nat}
    (h : uefi_hii_sibt_block input = some (b, rest)) : GoodBlock b := by
  cases input with
  | nil => cases h
  | cons tag r =>
    unfold uefi_hii_sibt_block at h
    dsimp only at h
    by_cases h00 : tag = 0x00
    · rw [if_pos h00] at h
      cases h
      simp [GoodBlock]
    rw [if_neg h00] at h
    by_cases h10 : tag = 0x10
    · rw [if_pos h10] at h
      cases ht : takeNul r with
      | none => rw [ht] at h; cases h
      | some pr =>
        obtain ⟨body, rest'⟩ := pr
        rw [ht] at h
        cases h
        simp only [GoodBlock]
        refine ⟨body, ?_, takeNul_no_zero ht⟩
        simp [sibtData]
    rw [if_neg h10] at h
    by_cases h11 : tag = 0x11
    · rw [if_pos h11] at h
      cases r with
      | nil => cases h
      | cons font r1 =>
        dsimp only at h
        cases ht : takeNul r1 with
        | none => rw [ht] at h; cases h
        | some pr =>
          obtain ⟨body, rest'⟩ := pr
          rw [ht] at h
          cases h
          simp only [GoodBlock]
          refine ⟨font, body, ?_, takeNul_no_zero ht⟩
          simp [sibtData]
    rw [if_neg h11] at h
    by_cases h12 : tag = 0x12
    · rw [if_pos h12] at h
      repeat' split at h
      all_goals first
        | (cases h; simp [GoodBlock])
        | cases h
    rw [if_neg h12] at h
    by_cases h13 : tag = 0x13
    · rw [if_pos h13] at h
      repeat' split at h
      all_goals first
        | (cases h; simp [GoodBlock])
        | cases h
    rw [if_neg h13] at h
    by_cases h14 : tag = 0x14
    · rw [if_pos h14] at h
      cases ht : takeNul16 r with
      | none => rw [ht] at h; cases h
      | some pr =>
        obtain ⟨units, rest'⟩ := pr
        rw [ht] at h
        cases h
        simp only [GoodBlock]
        refine ⟨units, ?_, takeNul16_no_zero _ _ _ ht⟩
        simp [sibtData]
    rw [if_neg h14] at h
    by_cases h15 : tag = 0x15
    · rw [if_pos h15] at h
      cases r with
      | nil => cases h
      | cons font r1 =>
        dsimp only at h
        cases ht : takeNul16 r1 with
        | none => rw [ht] at h; cases h
        | some pr =>
          obtain ⟨units, rest'⟩ := pr
          rw [ht] at h
          cases h
          simp only [GoodBlock]
          refine ⟨font, units, ?_, takeNul16_no_zero _ _ _ ht⟩
          simp [sibtData]
    rw [if_neg h15] at h
    by_cases h16 : tag = 0x16
    · rw [if_pos h16] at h
      repeat' split at h
      all_goals first
        | (cases h; simp [GoodBlock])
        | cases h
    rw [if_neg h16] at h
    by_cases h17 : tag = 0x17
    · rw [if_pos h17] at h
      repeat' split at h
      all_goals first
        | (cases h; simp [GoodBlock])
        | cases h
    rw [if_neg h17] at h
    by_cases h20 : tag = 0x20
    · rw [if_pos h20] at h
      repeat' split at h
      all_goals first
        | (cases h; simp [GoodBlock])
        | cases h
    rw [if_neg h20] at h
    by_cases h21 : tag = 0x21
    · rw [if_pos h21] at h
      by_cases hlen : r.length < 2
      · rw [if_pos hlen] at h; cases h
      · rw [if_neg hlen] at h
        cases r with
        | nil => simp at hlen
        | cons a r1 =>
          cases r1 with
          | nil => simp at hlen
          | cons a2 t =>
            cases h
            simp only [GoodBlock]
            exact ⟨a, a2, by simp [sibtData, List.take]⟩
    rw [if_neg h21] at h
    by_cases h22 : tag = 0x22
    · rw [if_pos h22] at h
      by_cases hlen : r.length < 1
      · rw [if_pos hlen] at h; cases h
      · rw [if_neg hlen] at h
        cases r with
        | nil => simp at hlen
        | cons a t =>
          cases h
          simp only [GoodBlock]
          exact ⟨a, by simp [sibtData, List.take]⟩
    rw [if_neg h22] at h
    by_cases h30 : tag = 0x30
    · rw [if_pos h30] at h
      repeat' split at h
      all_goals first
        | (cases h; simp [GoodBlock])
        | cases h
    rw [if_neg h30] at h
    by_cases h31 : tag = 0x31
    · rw [if_pos h31] at h
      repeat' split at h
      all_goals first
        | (cases h; simp [GoodBlock])
        | cases h
    rw [if_neg h31] at h
    by_cases h32 : tag = 0x32
    · rw [if_pos h32] at h
      repeat' split at h
      all_goals first
        | (cases h; simp [GoodBlock])
        | cases h
    rw [if_neg h32] at h
    cases h

/-- Every block in a framed SIBT stream is well-formed. -/
theorem sibt_blocks_good :
    ∀ (fuel : Nat) (input : List Nat) blocks,
      uefi_hii_sibt_blocks_aux fuel input = some blocks →
      ∀ b ∈ blocks, GoodBlock b := by
  intro fuel
  induction fuel with
  | zero => intro input blocks h; cases h
  | succ fuel ih =>
    intro input blocks h b hb
    cases input with
    | nil =>
      unfold uefi_hii_sibt_blocks_aux at h
      dsimp only at h
      cases h
      simp at hb
    | cons tag r =>
      unfold uefi_hii_sibt_blocks_aux at h
      dsimp only at h
      cases hblk : uefi_hii_sibt_block (tag :: r) with
      | none => rw [hblk] at h; cases h
      | some pr =>
        obtain ⟨b0, rest⟩ := pr
        rw [hblk] at h
        dsimp only at h
        by_cases hend : b0.Btype = HiiSibtType.End
        · rw [if_pos hend] at h
          cases h
          simp at hb
          subst hb
          exact sibt_block_good hblk
        · rw [if_neg hend] at h
          cases hrec : uefi_hii_sibt_blocks_aux fuel rest with
          | none => rw [hrec] at h; cases h
          | some bs =>
            rw [hrec] at h
            cases h
            rcases List.mem_cons.mp hb with hb0 | hbs
            · subst hb0
              exact sibt_block_good hblk
            · exact ih rest bs hrec b hbs

/-- C5: the SIBT walker starts with ID 0 pre-mapped to the empty string and
`current_string_index` 1; over the blocks the framing parser produces, each
single-string block inserts at the current index and adds 1, `Duplicate` adds
1 without inserting, `Skip1` adds the unsigned byte of its payload, and
`Skip2` adds the little-endian 16-bit value of its payload (all index
arithmetic in `u16`). -/
theorem c5_sibt_walker_semantics :
    uefi_sibt_walk [] = some ([(0, "")], 1) ∧
    (∀ bytes blocks, uefi_hii_sibt_blocks bytes = some blocks →
      ∀ b ∈ blocks, ∀ (m : List (Nat × String)) (id : Nat),
        ((b.Btype = HiiSibtType.StringScsu ∨ b.Btype = HiiSibtType.StringScsuFont ∨
          b.Btype = HiiSibtType.StringUcs2 ∨ b.Btype = HiiSibtType.StringUcs2Font) →
           ∃ s, uefi_sibt_step (m, id) b = some (mapInsert id s m, (id + 1) % 65536)) ∧
        (b.Btype = HiiSibtType.Duplicate →
           uefi_sibt_step (m, id) b = some (m, (id + 1) % 65536)) ∧
        (b.Btype = HiiSibtType.Skip1 →
           ∃ k, b.Data = some [k] ∧
             uefi_sibt_step (m, id) b = some (m, (id + k) % 65536)) ∧
        (b.Btype = HiiSibtType.Skip2 →
           ∃ k0 k1, b.Data = some [k0, k1] ∧
             uefi_sibt_step (m, id) b = some (m, (id + (k0 + 256 * k1)) % 65536))) := by
  constructor
  · rfl
  · intro bytes blocks hbs b hbm m id
    have hg : GoodBlock b :=
      sibt_blocks_good (bytes.length + 1) bytes blocks hbs b hbm
    obtain ⟨ty, dat⟩ := b
    refine ⟨?_, ?_, ?_, ?_⟩
    · intro hty
      rcases hty with hty | hty | hty | hty <;> cases hty
      · simp only [GoodBlock] at hg
        obtain ⟨body, hdat, hnz⟩ := hg
        cases hdat
        refine ⟨decode8 body, ?_⟩
        unfold uefi_sibt_step
        dsimp only
        rw [show sibt_string_scsu (body ++ [0]) = some (decode8 body) from by
          unfold sibt_string_scsu
          rw [takeNul_exact body hnz]
          rfl]
      · simp only [GoodBlock] at hg
        obtain ⟨f, body, hdat, hnz⟩ := hg
        cases hdat
        refine ⟨decode8 body, ?_⟩
        unfold uefi_sibt_step
        dsimp only
        rw [show sibt_string_scsu_font (f :: (body ++ [0])) = some (decode8 body) from by
          unfold sibt_string_scsu_font sibt_string_scsu
          dsimp only
          rw [takeNul_exact body hnz]
          rfl]
      · simp only [GoodBlock] at hg
        obtain ⟨units, hdat, hnz⟩ := hg
        cases hdat
        refine ⟨decodeUcs2 units, ?_⟩
        unfold uefi_sibt_step
        dsimp only
        rw [show sibt_string_ucs2 ((units.flatMap fun u => [u % 256, u / 256]) ++ [0, 0]) =
            some (decodeUcs2 units) from by
          unfold sibt_string_ucs2
          rw [takeNul16_exact units hnz]
          rfl]
      · simp only [GoodBlock] at hg
        obtain ⟨f, units, hdat, hnz⟩ := hg
        cases hdat
        refine ⟨decodeUcs2 units, ?_⟩
        unfold uefi_sibt_step
        dsimp only
        rw [show sibt_string_ucs2_font
              (f :: ((units.flatMap fun u => [u % 256, u / 256]) ++ [0, 0])) =
            some (decodeUcs2 units) from by
          unfold sibt_string_ucs2_font sibt_string_ucs2
          dsimp only
          rw [takeNul16_exact units hnz]
          rfl]
    · intro hty
      cases hty
      rfl
    · intro hty
      cases hty
      simp only [GoodBlock] at hg
      obtain ⟨k, hdat⟩ := hg
      cases hdat
      exact ⟨k, rfl, rfl⟩
    · intro hty
      cases hty
      simp only [GoodBlock] at hg
      obtain ⟨k0, k1, hdat⟩ := hg
      cases hdat
      exact ⟨k0, k1, rfl, rfl⟩

/-- C5 witness: a `Skip1` block with payload byte 5, framed from the two-byte
stream `[0x22, 0x05]`, advances the index from 1 to 6 without inserting. -/
theorem c5_sibt_walker_semantics_witness :
    ∃ k, (HiiSibtBlock.mk HiiSibtType.Skip1 (some [5])).Data = some [k] ∧
      uefi_sibt_step ([], 1) ⟨HiiSibtType.Skip1, some [5]⟩ =
        some ([], (1 + k) % 65536) :=
  (c5_sibt_walker_semantics.2 [0x22, 0x05] [⟨HiiSibtType.Skip1, some [5]⟩]
    (by decide) ⟨HiiSibtType.Skip1, some [5]⟩ (by decide) [] 1).2.2.1 rfl
